import Mathlib

/-!
# dde-daemon: property setters, session arbitration, bluetooth timers, gesture gating

A shallow embedding of the Go sources (accounts/accounts_dbusutil.go,
sessionwatcher/manager.go, bluetooth/adapter.go, bluetooth/bluetooth_ifc.go,
gesture/manager.go, session/power/warn_level_config.go, dock/app_entry_ifc.go,
inputdevices/touchpad.go) together with theorems about them.

Conventions of the embedding:
* a Go method with a pointer receiver becomes a function that takes the
  receiver and returns the updated receiver;
* the bus service an object emits on is threaded as an explicit log;
* int32 values are integers, uint64 values are naturals (only compared, never
  computed with, in the embedded code);
* a remote read or call that can fail takes its outcome from an explicit
  environment.
-/

namespace accounts

/-- Value carried by a property-changed emission (the Go interface value). -/
inductive Variant where
  | str (s : String)
  | bool (b : Bool)
  | int32 (i : Int)
  | uint64 (n : Nat)
  | strv (l : List String)
deriving DecidableEq, Repr

/-- One call of service.EmitPropertyChanged(v, propName, value): the object as
it is when the call is made, the property name and the value. -/
structure PropChanged (σ : Type) where
  obj : σ
  propName : String
  value : Variant
deriving DecidableEq, Repr

/-- The dbusutil service of an object, reduced to the log of its
EmitPropertyChanged calls, oldest first. -/
structure Service (σ : Type) where
  emitted : List (PropChanged σ)
deriving DecidableEq, Repr

/-- Go: service.EmitPropertyChanged(v, propName, value). -/
def Service.EmitPropertyChanged {σ : Type} (service : Service σ) (v : σ) (propName : String)
    (value : Variant) : Service σ :=
  ⟨service.emitted ++ [⟨v, propName, value⟩]⟩

/-- The exported fields of accounts.User written by the generated setters. -/
structure User where
  UserName : String
  UUID : String
  FullName : String
  Uid : String
  Gid : String
  HomeDir : String
  Shell : String
  Locale : String
  Layout : String
  IconFile : String
  PasswordHint : String
  Use24HourFormat : Bool
  WeekdayFormat : Int
  ShortDateFormat : Int
  LongDateFormat : Int
  ShortTimeFormat : Int
  LongTimeFormat : Int
  WeekBegins : Int
  DesktopBackgrounds : List String
  Groups : List String
  GreeterBackground : String
  XSession : String
  PasswordStatus : String
  MaxPasswordAge : Int
  PasswordLastChange : Int
  Locked : Bool
  AutomaticLogin : Bool
  Workspace : Int
  SystemAccount : Bool
  NoPasswdLogin : Bool
  AccountType : Int
  LoginTime : Nat
  CreatedTime : Nat
  IconList : List String
  HistoryLayout : List String
deriving DecidableEq, Repr

/-- The exported fields of accounts.Manager written by the generated setters. -/
structure Manager where
  AllowGuest : Bool
  GroupList : List String
  IsTerminalLocked : Bool
deriving DecidableEq, Repr
/-- Go: func (v *User) emitPropChangedUserName(value string) error; the returned
error is discarded by the setter. -/
def User.emitPropChangedUserName (v : User) (value : String)
    (service : Service User) : Service User :=
  service.EmitPropertyChanged v "UserName" (.str value)

/-- Go: func (v *User) setPropUserName(value string) (changed bool). -/
def User.setPropUserName (v : User)
    (value : String) (service : Service User) :
    Bool × User × Service User :=
  if v.UserName != value then
    let v := { v with UserName := value }
    let service := v.emitPropChangedUserName value service
    (true, v, service)
  else
    (false, v, service)

/-- Go: func (v *User) emitPropChangedUUID(value string) error; the returned
error is discarded by the setter. -/
def User.emitPropChangedUUID (v : User) (value : String)
    (service : Service User) : Service User :=
  service.EmitPropertyChanged v "UUID" (.str value)

/-- Go: func (v *User) setPropUUID(value string) (changed bool). -/
def User.setPropUUID (v : User)
    (value : String) (service : Service User) :
    Bool × User × Service User :=
  if v.UUID != value then
    let v := { v with UUID := value }
    let service := v.emitPropChangedUUID value service
    (true, v, service)
  else
    (false, v, service)

/-- Go: func (v *User) emitPropChangedFullName(value string) error; the returned
error is discarded by the setter. -/
def User.emitPropChangedFullName (v : User) (value : String)
    (service : Service User) : Service User :=
  service.EmitPropertyChanged v "FullName" (.str value)

/-- Go: func (v *User) setPropFullName(value string) (changed bool). -/
def User.setPropFullName (v : User)
    (value : String) (service : Service User) :
    Bool × User × Service User :=
  if v.FullName != value then
    let v := { v with FullName := value }
    let service := v.emitPropChangedFullName value service
    (true, v, service)
  else
    (false, v, service)

/-- Go: func (v *User) emitPropChangedUid(value string) error; the returned
error is discarded by the setter. -/
def User.emitPropChangedUid (v : User) (value : String)
    (service : Service User) : Service User :=
  service.EmitPropertyChanged v "Uid" (.str value)

/-- Go: func (v *User) setPropUid(value string) (changed bool). -/
def User.setPropUid (v : User)
    (value : String) (service : Service User) :
    Bool × User × Service User :=
  if v.Uid != value then
    let v := { v with Uid := value }
    let service := v.emitPropChangedUid value service
    (true, v, service)
  else
    (false, v, service)

/-- Go: func (v *User) emitPropChangedGid(value string) error; the returned
error is discarded by the setter. -/
def User.emitPropChangedGid (v : User) (value : String)
    (service : Service User) : Service User :=
  service.EmitPropertyChanged v "Gid" (.str value)

/-- Go: func (v *User) setPropGid(value string) (changed bool). -/
def User.setPropGid (v : User)
    (value : String) (service : Service User) :
    Bool × User × Service User :=
  if v.Gid != value then
    let v := { v with Gid := value }
    let service := v.emitPropChangedGid value service
    (true, v, service)
  else
    (false, v, service)

/-- Go: func (v *User) emitPropChangedHomeDir(value string) error; the returned
error is discarded by the setter. -/
def User.emitPropChangedHomeDir (v : User) (value : String)
    (service : Service User) : Service User :=
  service.EmitPropertyChanged v "HomeDir" (.str value)

/-- Go: func (v *User) setPropHomeDir(value string) (changed bool). -/
def User.setPropHomeDir (v : User)
    (value : String) (service : Service User) :
    Bool × User × Service User :=
  if v.HomeDir != value then
    let v := { v with HomeDir := value }
    let service := v.emitPropChangedHomeDir value service
    (true, v, service)
  else
    (false, v, service)

/-- Go: func (v *User) emitPropChangedShell(value string) error; the returned
error is discarded by the setter. -/
def User.emitPropChangedShell (v : User) (value : String)
    (service : Service User) : Service User :=
  service.EmitPropertyChanged v "Shell" (.str value)

/-- Go: func (v *User) setPropShell(value string) (changed bool). -/
def User.setPropShell (v : User)
    (value : String) (service : Service User) :
    Bool × User × Service User :=
  if v.Shell != value then
    let v := { v with Shell := value }
    let service := v.emitPropChangedShell value service
    (true, v, service)
  else
    (false, v, service)

/-- Go: func (v *User) emitPropChangedLocale(value string) error; the returned
error is discarded by the setter. -/
def User.emitPropChangedLocale (v : User) (value : String)
    (service : Service User) : Service User :=
  service.EmitPropertyChanged v "Locale" (.str value)

/-- Go: func (v *User) setPropLocale(value string) (changed bool). -/
def User.setPropLocale (v : User)
    (value : String) (service : Service User) :
    Bool × User × Service User :=
  if v.Locale != value then
    let v := { v with Locale := value }
    let service := v.emitPropChangedLocale value service
    (true, v, service)
  else
    (false, v, service)

/-- Go: func (v *User) emitPropChangedLayout(value string) error; the returned
error is discarded by the setter. -/
def User.emitPropChangedLayout (v : User) (value : String)
    (service : Service User) : Service User :=
  service.EmitPropertyChanged v "Layout" (.str value)

/-- Go: func (v *User) setPropLayout(value string) (changed bool). -/
def User.setPropLayout (v : User)
    (value : String) (service : Service User) :
    Bool × User × Service User :=
  if v.Layout != value then
    let v := { v with Layout := value }
    let service := v.emitPropChangedLayout value service
    (true, v, service)
  else
    (false, v, service)

/-- Go: func (v *User) emitPropChangedIconFile(value string) error; the returned
error is discarded by the setter. -/
def User.emitPropChangedIconFile (v : User) (value : String)
    (service : Service User) : Service User :=
  service.EmitPropertyChanged v "IconFile" (.str value)

/-- Go: func (v *User) setPropIconFile(value string) (changed bool). -/
def User.setPropIconFile (v : User)
    (value : String) (service : Service User) :
    Bool × User × Service User :=
  if v.IconFile != value then
    let v := { v with IconFile := value }
    let service := v.emitPropChangedIconFile value service
    (true, v, service)
  else
    (false, v, service)

/-- Go: func (v *User) emitPropChangedPasswordHint(value string) error; the returned
error is discarded by the setter. -/
def User.emitPropChangedPasswordHint (v : User) (value : String)
    (service : Service User) : Service User :=
  service.EmitPropertyChanged v "PasswordHint" (.str value)

/-- Go: func (v *User) setPropPasswordHint(value string) (changed bool). -/
def User.setPropPasswordHint (v : User)
    (value : String) (service : Service User) :
    Bool × User × Service User :=
  if v.PasswordHint != value then
    let v := { v with PasswordHint := value }
    let service := v.emitPropChangedPasswordHint value service
    (true, v, service)
  else
    (false, v, service)

/-- Go: func (v *User) emitPropChangedUse24HourFormat(value bool) error; the returned
error is discarded by the setter. -/
def User.emitPropChangedUse24HourFormat (v : User) (value : Bool)
    (service : Service User) : Service User :=
  service.EmitPropertyChanged v "Use24HourFormat" (.bool value)

/-- Go: func (v *User) setPropUse24HourFormat(value bool) (changed bool). -/
def User.setPropUse24HourFormat (v : User)
    (value : Bool) (service : Service User) :
    Bool × User × Service User :=
  if v.Use24HourFormat != value then
    let v := { v with Use24HourFormat := value }
    let service := v.emitPropChangedUse24HourFormat value service
    (true, v, service)
  else
    (false, v, service)

/-- Go: func (v *User) emitPropChangedWeekdayFormat(value int32) error; the returned
error is discarded by the setter. -/
def User.emitPropChangedWeekdayFormat (v : User) (value : Int)
    (service : Service User) : Service User :=
  service.EmitPropertyChanged v "WeekdayFormat" (.int32 value)

/-- Go: func (v *User) setPropWeekdayFormat(value int32) (changed bool). -/
def User.setPropWeekdayFormat (v : User)
    (value : Int) (service : Service User) :
    Bool × User × Service User :=
  if v.WeekdayFormat != value then
    let v := { v with WeekdayFormat := value }
    let service := v.emitPropChangedWeekdayFormat value service
    (true, v, service)
  else
    (false, v, service)

/-- Go: func (v *User) emitPropChangedShortDateFormat(value int32) error; the returned
error is discarded by the setter. -/
def User.emitPropChangedShortDateFormat (v : User) (value : Int)
    (service : Service User) : Service User :=
  service.EmitPropertyChanged v "ShortDateFormat" (.int32 value)

/-- Go: func (v *User) setPropShortDateFormat(value int32) (changed bool). -/
def User.setPropShortDateFormat (v : User)
    (value : Int) (service : Service User) :
    Bool × User × Service User :=
  if v.ShortDateFormat != value then
    let v := { v with ShortDateFormat := value }
    let service := v.emitPropChangedShortDateFormat value service
    (true, v, service)
  else
    (false, v, service)

/-- Go: func (v *User) emitPropChangedLongDateFormat(value int32) error; the returned
error is discarded by the setter. -/
def User.emitPropChangedLongDateFormat (v : User) (value : Int)
    (service : Service User) : Service User :=
  service.EmitPropertyChanged v "LongDateFormat" (.int32 value)

/-- Go: func (v *User) setPropLongDateFormat(value int32) (changed bool). -/
def User.setPropLongDateFormat (v : User)
    (value : Int) (service : Service User) :
    Bool × User × Service User :=
  if v.LongDateFormat != value then
    let v := { v with LongDateFormat := value }
    let service := v.emitPropChangedLongDateFormat value service
    (true, v, service)
  else
    (false, v, service)

/-- Go: func (v *User) emitPropChangedShortTimeFormat(value int32) error; the returned
error is discarded by the setter. -/
def User.emitPropChangedShortTimeFormat (v : User) (value : Int)
    (service : Service User) : Service User :=
  service.EmitPropertyChanged v "ShortTimeFormat" (.int32 value)

/-- Go: func (v *User) setPropShortTimeFormat(value int32) (changed bool). -/
def User.setPropShortTimeFormat (v : User)
    (value : Int) (service : Service User) :
    Bool × User × Service User :=
  if v.ShortTimeFormat != value then
    let v := { v with ShortTimeFormat := value }
    let service := v.emitPropChangedShortTimeFormat value service
    (true, v, service)
  else
    (false, v, service)

/-- Go: func (v *User) emitPropChangedLongTimeFormat(value int32) error; the returned
error is discarded by the setter. -/
def User.emitPropChangedLongTimeFormat (v : User) (value : Int)
    (service : Service User) : Service User :=
  service.EmitPropertyChanged v "LongTimeFormat" (.int32 value)

/-- Go: func (v *User) setPropLongTimeFormat(value int32) (changed bool). -/
def User.setPropLongTimeFormat (v : User)
    (value : Int) (service : Service User) :
    Bool × User × Service User :=
  if v.LongTimeFormat != value then
    let v := { v with LongTimeFormat := value }
    let service := v.emitPropChangedLongTimeFormat value service
    (true, v, service)
  else
    (false, v, service)

/-- Go: func (v *User) emitPropChangedWeekBegins(value int32) error; the returned
error is discarded by the setter. -/
def User.emitPropChangedWeekBegins (v : User) (value : Int)
    (service : Service User) : Service User :=
  service.EmitPropertyChanged v "WeekBegins" (.int32 value)

/-- Go: func (v *User) setPropWeekBegins(value int32) (changed bool). -/
def User.setPropWeekBegins (v : User)
    (value : Int) (service : Service User) :
    Bool × User × Service User :=
  if v.WeekBegins != value then
    let v := { v with WeekBegins := value }
    let service := v.emitPropChangedWeekBegins value service
    (true, v, service)
  else
    (false, v, service)

/-- Go: func (v *User) emitPropChangedDesktopBackgrounds(value []string) error; the returned
error is discarded by the setter. -/
def User.emitPropChangedDesktopBackgrounds (v : User) (value : List String)
    (service : Service User) : Service User :=
  service.EmitPropertyChanged v "DesktopBackgrounds" (.strv value)

/-- Go: func (v *User) setPropDesktopBackgrounds(value []string), no comparison and no result. -/
def User.setPropDesktopBackgrounds (v : User)
    (value : List String) (service : Service User) :
    User × Service User :=
  let v := { v with DesktopBackgrounds := value }
  let service := v.emitPropChangedDesktopBackgrounds value service
  (v, service)

/-- Go: func (v *User) emitPropChangedGroups(value []string) error; the returned
error is discarded by the setter. -/
def User.emitPropChangedGroups (v : User) (value : List String)
    (service : Service User) : Service User :=
  service.EmitPropertyChanged v "Groups" (.strv value)

/-- Go: func (v *User) setPropGroups(value []string) (changed bool), comparing with isStrvEqual. -/
def User.setPropGroups (isStrvEqual : List String → List String → Bool) (v : User)
    (value : List String) (service : Service User) :
    Bool × User × Service User :=
  if !isStrvEqual v.Groups value then
    let v := { v with Groups := value }
    let service := v.emitPropChangedGroups value service
    (true, v, service)
  else
    (false, v, service)

/-- Go: func (v *User) emitPropChangedGreeterBackground(value string) error; the returned
error is discarded by the setter. -/
def User.emitPropChangedGreeterBackground (v : User) (value : String)
    (service : Service User) : Service User :=
  service.EmitPropertyChanged v "GreeterBackground" (.str value)

/-- Go: func (v *User) setPropGreeterBackground(value string) (changed bool). -/
def User.setPropGreeterBackground (v : User)
    (value : String) (service : Service User) :
    Bool × User × Service User :=
  if v.GreeterBackground != value then
    let v := { v with GreeterBackground := value }
    let service := v.emitPropChangedGreeterBackground value service
    (true, v, service)
  else
    (false, v, service)

/-- Go: func (v *User) emitPropChangedXSession(value string) error; the returned
error is discarded by the setter. -/
def User.emitPropChangedXSession (v : User) (value : String)
    (service : Service User) : Service User :=
  service.EmitPropertyChanged v "XSession" (.str value)

/-- Go: func (v *User) setPropXSession(value string) (changed bool). -/
def User.setPropXSession (v : User)
    (value : String) (service : Service User) :
    Bool × User × Service User :=
  if v.XSession != value then
    let v := { v with XSession := value }
    let service := v.emitPropChangedXSession value service
    (true, v, service)
  else
    (false, v, service)

/-- Go: func (v *User) emitPropChangedPasswordStatus(value string) error; the returned
error is discarded by the setter. -/
def User.emitPropChangedPasswordStatus (v : User) (value : String)
    (service : Service User) : Service User :=
  service.EmitPropertyChanged v "PasswordStatus" (.str value)

/-- Go: func (v *User) setPropPasswordStatus(value string) (changed bool). -/
def User.setPropPasswordStatus (v : User)
    (value : String) (service : Service User) :
    Bool × User × Service User :=
  if v.PasswordStatus != value then
    let v := { v with PasswordStatus := value }
    let service := v.emitPropChangedPasswordStatus value service
    (true, v, service)
  else
    (false, v, service)

/-- Go: func (v *User) emitPropChangedMaxPasswordAge(value int32) error; the returned
error is discarded by the setter. -/
def User.emitPropChangedMaxPasswordAge (v : User) (value : Int)
    (service : Service User) : Service User :=
  service.EmitPropertyChanged v "MaxPasswordAge" (.int32 value)

/-- Go: func (v *User) setPropMaxPasswordAge(value int32) (changed bool). -/
def User.setPropMaxPasswordAge (v : User)
    (value : Int) (service : Service User) :
    Bool × User × Service User :=
  if v.MaxPasswordAge != value then
    let v := { v with MaxPasswordAge := value }
    let service := v.emitPropChangedMaxPasswordAge value service
    (true, v, service)
  else
    (false, v, service)

/-- Go: func (v *User) emitPropChangedPasswordLastChange(value int32) error; the returned
error is discarded by the setter. -/
def User.emitPropChangedPasswordLastChange (v : User) (value : Int)
    (service : Service User) : Service User :=
  service.EmitPropertyChanged v "PasswordLastChange" (.int32 value)

/-- Go: func (v *User) setPropPasswordLastChange(value int32) (changed bool). -/
def User.setPropPasswordLastChange (v : User)
    (value : Int) (service : Service User) :
    Bool × User × Service User :=
  if v.PasswordLastChange != value then
    let v := { v with PasswordLastChange := value }
    let service := v.emitPropChangedPasswordLastChange value service
    (true, v, service)
  else
    (false, v, service)

/-- Go: func (v *User) emitPropChangedLocked(value bool) error; the returned
error is discarded by the setter. -/
def User.emitPropChangedLocked (v : User) (value : Bool)
    (service : Service User) : Service User :=
  service.EmitPropertyChanged v "Locked" (.bool value)

/-- Go: func (v *User) setPropLocked(value bool) (changed bool). -/
def User.setPropLocked (v : User)
    (value : Bool) (service : Service User) :
    Bool × User × Service User :=
  if v.Locked != value then
    let v := { v with Locked := value }
    let service := v.emitPropChangedLocked value service
    (true, v, service)
  else
    (false, v, service)

/-- Go: func (v *User) emitPropChangedAutomaticLogin(value bool) error; the returned
error is discarded by the setter. -/
def User.emitPropChangedAutomaticLogin (v : User) (value : Bool)
    (service : Service User) : Service User :=
  service.EmitPropertyChanged v "AutomaticLogin" (.bool value)

/-- Go: func (v *User) setPropAutomaticLogin(value bool) (changed bool). -/
def User.setPropAutomaticLogin (v : User)
    (value : Bool) (service : Service User) :
    Bool × User × Service User :=
  if v.AutomaticLogin != value then
    let v := { v with AutomaticLogin := value }
    let service := v.emitPropChangedAutomaticLogin value service
    (true, v, service)
  else
    (false, v, service)

/-- Go: func (v *User) emitPropChangedWorkspace(value int32) error; the returned
error is discarded by the setter. -/
def User.emitPropChangedWorkspace (v : User) (value : Int)
    (service : Service User) : Service User :=
  service.EmitPropertyChanged v "Workspace" (.int32 value)

/-- Go: func (v *User) setPropWorkspace(value int32) (changed bool). -/
def User.setPropWorkspace (v : User)
    (value : Int) (service : Service User) :
    Bool × User × Service User :=
  if v.Workspace != value then
    let v := { v with Workspace := value }
    let service := v.emitPropChangedWorkspace value service
    (true, v, service)
  else
    (false, v, service)

/-- Go: func (v *User) emitPropChangedSystemAccount(value bool) error; the returned
error is discarded by the setter. -/
def User.emitPropChangedSystemAccount (v : User) (value : Bool)
    (service : Service User) : Service User :=
  service.EmitPropertyChanged v "SystemAccount" (.bool value)

/-- Go: func (v *User) setPropSystemAccount(value bool) (changed bool). -/
def User.setPropSystemAccount (v : User)
    (value : Bool) (service : Service User) :
    Bool × User × Service User :=
  if v.SystemAccount != value then
    let v := { v with SystemAccount := value }
    let service := v.emitPropChangedSystemAccount value service
    (true, v, service)
  else
    (false, v, service)

/-- Go: func (v *User) emitPropChangedNoPasswdLogin(value bool) error; the returned
error is discarded by the setter. -/
def User.emitPropChangedNoPasswdLogin (v : User) (value : Bool)
    (service : Service User) : Service User :=
  service.EmitPropertyChanged v "NoPasswdLogin" (.bool value)

/-- Go: func (v *User) setPropNoPasswdLogin(value bool) (changed bool). -/
def User.setPropNoPasswdLogin (v : User)
    (value : Bool) (service : Service User) :
    Bool × User × Service User :=
  if v.NoPasswdLogin != value then
    let v := { v with NoPasswdLogin := value }
    let service := v.emitPropChangedNoPasswdLogin value service
    (true, v, service)
  else
    (false, v, service)

/-- Go: func (v *User) emitPropChangedAccountType(value int32) error; the returned
error is discarded by the setter. -/
def User.emitPropChangedAccountType (v : User) (value : Int)
    (service : Service User) : Service User :=
  service.EmitPropertyChanged v "AccountType" (.int32 value)

/-- Go: func (v *User) setPropAccountType(value int32) (changed bool). -/
def User.setPropAccountType (v : User)
    (value : Int) (service : Service User) :
    Bool × User × Service User :=
  if v.AccountType != value then
    let v := { v with AccountType := value }
    let service := v.emitPropChangedAccountType value service
    (true, v, service)
  else
    (false, v, service)

/-- Go: func (v *User) emitPropChangedLoginTime(value uint64) error; the returned
error is discarded by the setter. -/
def User.emitPropChangedLoginTime (v : User) (value : Nat)
    (service : Service User) : Service User :=
  service.EmitPropertyChanged v "LoginTime" (.uint64 value)

/-- Go: func (v *User) setPropLoginTime(value uint64) (changed bool). -/
def User.setPropLoginTime (v : User)
    (value : Nat) (service : Service User) :
    Bool × User × Service User :=
  if v.LoginTime != value then
    let v := { v with LoginTime := value }
    let service := v.emitPropChangedLoginTime value service
    (true, v, service)
  else
    (false, v, service)

/-- Go: func (v *User) emitPropChangedCreatedTime(value uint64) error; the returned
error is discarded by the setter. -/
def User.emitPropChangedCreatedTime (v : User) (value : Nat)
    (service : Service User) : Service User :=
  service.EmitPropertyChanged v "CreatedTime" (.uint64 value)

/-- Go: func (v *User) setPropCreatedTime(value uint64) (changed bool). -/
def User.setPropCreatedTime (v : User)
    (value : Nat) (service : Service User) :
    Bool × User × Service User :=
  if v.CreatedTime != value then
    let v := { v with CreatedTime := value }
    let service := v.emitPropChangedCreatedTime value service
    (true, v, service)
  else
    (false, v, service)

/-- Go: func (v *User) emitPropChangedIconList(value []string) error; the returned
error is discarded by the setter. -/
def User.emitPropChangedIconList (v : User) (value : List String)
    (service : Service User) : Service User :=
  service.EmitPropertyChanged v "IconList" (.strv value)

/-- Go: func (v *User) setPropIconList(value []string), no comparison and no result. -/
def User.setPropIconList (v : User)
    (value : List String) (service : Service User) :
    User × Service User :=
  let v := { v with IconList := value }
  let service := v.emitPropChangedIconList value service
  (v, service)

/-- Go: func (v *User) emitPropChangedHistoryLayout(value []string) error; the returned
error is discarded by the setter. -/
def User.emitPropChangedHistoryLayout (v : User) (value : List String)
    (service : Service User) : Service User :=
  service.EmitPropertyChanged v "HistoryLayout" (.strv value)

/-- Go: func (v *User) setPropHistoryLayout(value []string), no comparison and no result. -/
def User.setPropHistoryLayout (v : User)
    (value : List String) (service : Service User) :
    User × Service User :=
  let v := { v with HistoryLayout := value }
  let service := v.emitPropChangedHistoryLayout value service
  (v, service)

/-- Go: func (v *Manager) emitPropChangedAllowGuest(value bool) error; the returned
error is discarded by the setter. -/
def Manager.emitPropChangedAllowGuest (v : Manager) (value : Bool)
    (service : Service Manager) : Service Manager :=
  service.EmitPropertyChanged v "AllowGuest" (.bool value)

/-- Go: func (v *Manager) setPropAllowGuest(value bool) (changed bool). -/
def Manager.setPropAllowGuest (v : Manager)
    (value : Bool) (service : Service Manager) :
    Bool × Manager × Service Manager :=
  if v.AllowGuest != value then
    let v := { v with AllowGuest := value }
    let service := v.emitPropChangedAllowGuest value service
    (true, v, service)
  else
    (false, v, service)

/-- Go: func (v *Manager) emitPropChangedGroupList(value []string) error; the returned
error is discarded by the setter. -/
def Manager.emitPropChangedGroupList (v : Manager) (value : List String)
    (service : Service Manager) : Service Manager :=
  service.EmitPropertyChanged v "GroupList" (.strv value)

/-- Go: func (v *Manager) setPropGroupList(value []string) (changed bool), comparing with isStrvEqual. -/
def Manager.setPropGroupList (isStrvEqual : List String → List String → Bool) (v : Manager)
    (value : List String) (service : Service Manager) :
    Bool × Manager × Service Manager :=
  if !isStrvEqual v.GroupList value then
    let v := { v with GroupList := value }
    let service := v.emitPropChangedGroupList value service
    (true, v, service)
  else
    (false, v, service)

/-- Go: func (v *Manager) emitPropChangedIsTerminalLocked(value bool) error; the returned
error is discarded by the setter. -/
def Manager.emitPropChangedIsTerminalLocked (v : Manager) (value : Bool)
    (service : Service Manager) : Service Manager :=
  service.EmitPropertyChanged v "IsTerminalLocked" (.bool value)

/-- Go: func (v *Manager) setPropIsTerminalLocked(value bool) (changed bool). -/
def Manager.setPropIsTerminalLocked (v : Manager)
    (value : Bool) (service : Service Manager) :
    Bool × Manager × Service Manager :=
  if v.IsTerminalLocked != value then
    let v := { v with IsTerminalLocked := value }
    let service := v.emitPropChangedIsTerminalLocked value service
    (true, v, service)
  else
    (false, v, service)

/-- The contract of a compare-and-set setter for the field read by get:
the result is (old != value); the field holds value afterwards; on a change
exactly one emission is appended, carrying value under propName and made on
the object that already holds value; without a change nothing happens. -/
def ScalarSetterContract {σ α : Type} [DecidableEq α] (get : σ → α) (propName : String)
    (wrap : α → Variant) (setter : σ → α → Service σ → Bool × σ × Service σ) : Prop :=
  ∀ (u : σ) (value : α) (service : Service σ),
    (setter u value service).1 = decide (get u ≠ value) ∧
    get (setter u value service).2.1 = value ∧
    (get u ≠ value →
      ∃ e : PropChanged σ,
        (setter u value service).2.2.emitted = service.emitted ++ [e] ∧
        e.propName = propName ∧ e.value = wrap value ∧ get e.obj = value ∧
        e.obj = (setter u value service).2.1) ∧
    (get u = value →
      (setter u value service).2.1 = u ∧ (setter u value service).2.2 = service)

/-- The emissions made by calling a comparing setter twice in a row with the
same value: those of the first call and those of the second call. -/
def emittedTwice {σ α : Type} (setter : σ → α → Service σ → Bool × σ × Service σ)
    (u : σ) (value : α) (service : Service σ) :
    List (PropChanged σ) × List (PropChanged σ) :=
  let r1 := setter u value service
  let r2 := setter r1.2.1 value r1.2.2
  (r1.2.2.emitted.drop service.emitted.length, r2.2.2.emitted.drop r1.2.2.emitted.length)

/-- The emissions made by calling a setter without result twice in a row with
the same value: those of the first call and those of the second call. -/
def emittedTwiceUncond {σ α : Type} (setter : σ → α → Service σ → σ × Service σ)
    (u : σ) (value : α) (service : Service σ) :
    List (PropChanged σ) × List (PropChanged σ) :=
  let r1 := setter u value service
  let r2 := setter r1.1 value r1.2
  (r1.2.emitted.drop service.emitted.length, r2.2.emitted.drop r1.2.emitted.length)

/-- Modelled from the spec: isStrvEqual is not part of the embedded sources; the
spec describes the group-list check as a set-style comparison ignoring order. -/
def isStrvEqual (l1 l2 : List String) : Bool :=
  l1.all (fun s => l2.contains s) && l2.all (fun s => l1.contains s)

/-- A user whose fields all hold the Go zero value. -/
def zeroUser : User :=
  ⟨"", "", "", "", "", "", "", "", "", "", "", false, 0, 0, 0, 0, 0, 0, [], [], "", "", "",
    0, 0, false, false, 0, false, false, 0, 0, 0, [], []⟩

end accounts

namespace sessionwatcher

/-- A dbus.ObjectPath. -/
abbrev ObjectPath := String

/-- A login1.Session proxy, identified by the object path it was created for. -/
structure Session where
  path : ObjectPath
deriving DecidableEq, Repr

/-- The remote login1 service as the property reads of one scan see it: the
outcome of session.Active().Get(0) and of session.Type().Get(0), an error or a
value. -/
structure Login1 where
  Active : Session → Except String Bool
  Type_ : Session → Except String String

/-- The effect tasks started with a go statement by handleSessionChanged. -/
inductive Task where
  | suspendPulseSinks (suspend : Int)
  | suspendPulseSources (suspend : Int)
  | displayRefreshBrightness (flags : Nat)
deriving DecidableEq, Repr

/-- What the manager does to its surroundings: the IsActive values passed to
service.EmitPropertyChanged(m, "IsActive", val) and the tasks started, oldest
first. -/
structure World where
  emitted : List (String × Bool)
  started : List Task
deriving DecidableEq, Repr

/-- Go: type Manager struct, the fields the arbitration reads and writes.
The sessions map is a list of its entries in the order the range statement
visits them. -/
structure Manager where
  sessions : List (String × Session)
  activeSessionType : String
  IsActive : Bool
deriving DecidableEq, Repr

/-- Go: var _validSessionList. -/
def _validSessionList : List String := ["x11", "wayland"]

/-- The loop of getActiveSession over the entries of m.sessions. -/
def getActiveSessionLoop (login : Login1) : List (String × Session) → Option Session
  | [] => none
  | (_, session) :: rest =>
    match login.Active session with
    | .error _ => getActiveSessionLoop login rest
    | .ok active => if active then some session else getActiveSessionLoop login rest

/-- Go: func (m *Manager) getActiveSession() *login1.Session. -/
def Manager.getActiveSession (m : Manager) (login : Login1) : Option Session :=
  getActiveSessionLoop login m.sessions

/-- Go: func (m *Manager) setIsActive(val bool) bool. -/
def Manager.setIsActive (m : Manager) (val : Bool) (w : World) : Bool × Manager × World :=
  if m.IsActive != val then
    let m := { m with IsActive := val }
    let w := { w with emitted := w.emitted ++ [("IsActive", val)] }
    (true, m, w)
  else
    (false, m, w)

/-- Go: func (m *Manager) handleSessionChanged(). A failed Type read leaves
sessionType at the zero value the read returned. -/
def Manager.handleSessionChanged (m : Manager) (login : Login1) (w : World) : Manager × World :=
  if m.sessions.length == 0 then
    (m, w)
  else
    let session := m.getActiveSession login
    let isActive : Bool :=
      match session with
      | some _ => true
      | none => false
    let sessionType : String :=
      match session with
      | some s =>
        match login.Type_ s with
        | .ok ty => ty
        | .error _ => ""
      | none => ""
    let m := { m with activeSessionType := sessionType }
    let r := m.setIsActive isActive w
    let changed := r.1
    let m := r.2.1
    let w := r.2.2
    if !changed then
      (m, w)
    else if isActive then
      let w := { w with started := w.started ++ [Task.suspendPulseSinks 0] }
      let w := { w with started := w.started ++ [Task.suspendPulseSources 0] }
      let w := { w with started := w.started ++ [Task.displayRefreshBrightness 0] }
      (m, w)
    else
      let w := { w with started := w.started ++ [Task.suspendPulseSinks 1] }
      let w := { w with started := w.started ++ [Task.suspendPulseSources 1] }
      (m, w)

/-- Go: func (m *Manager) IsX11SessionActive() (bool, *dbus.Error); the error is
always nil. -/
def Manager.IsX11SessionActive (m : Manager) : Bool × Option String :=
  let ty := m.activeSessionType
  if _validSessionList.any (fun session => session == ty) then (true, none) else (false, none)

end sessionwatcher

namespace bluetooth

/-- A dbus.ObjectPath. -/
abbrev ObjectPath := String

/-- A time.Duration, in nanoseconds. -/
abbrev Duration := Nat

/-- Go: time.Second. -/
def Second : Duration := 1000000000

/-- Go: time.Minute. -/
def Minute : Duration := 60 * Second

/-- Go: var defaultDiscoveringTimeout = 1 * time.Minute. -/
def defaultDiscoveringTimeout : Duration := 1 * Minute

/-- Go: var defaultFindDeviceTimeout = 1 * time.Second. -/
def defaultFindDeviceTimeout : Duration := 1 * Second

/-- A time.Timer made by time.AfterFunc: armed with the duration after which
its function runs, or stopped. -/
structure Timer where
  armed : Option Duration
deriving DecidableEq, Repr

/-- Go: (*time.Timer).Reset(d). -/
def Timer.Reset (_t : Timer) (d : Duration) : Timer := ⟨some d⟩

/-- Go: type adapter struct. The bluez proxy core is addressed by Path. -/
structure adapter where
  address : String
  Path : ObjectPath
  Name : String
  Alias : String
  Powered : Bool
  Discovering : Bool
  Discoverable : Bool
  DiscoverableTimeout : Nat
  discoveringTimeout : Timer
  discoveringTimeoutFlag : Bool
  scanReadyToConnectDeviceTimeout : Timer
  scanReadyToConnectDeviceTimeoutFlag : Bool
deriving DecidableEq, Repr

/-- The connection state of a device (Go: type deviceState, an unsigned
integer). -/
abbrev deviceState := Nat

/-- Modelled from the spec: the constant deviceStateConnecting is declared outside
the embedded sources; it is the one state the spec calls Connecting. -/
def deviceStateConnecting : deviceState := 1

/-- Modelled from the spec: type device is declared outside the embedded sources;
these are the fields the embedded code and the spec refer to (identity, owning
adapter, alias, pairing, connection state, the needs-removal mark). -/
structure device where
  Path : ObjectPath
  AdapterPath : ObjectPath
  Alias : String
  Paired : Bool
  State : deviceState
  needRemove : Bool
deriving DecidableEq, Repr

/-- Modelled from the spec: type backupDevice is declared outside the embedded
sources; a backup entry keeps the identity and the last-known alias. -/
structure backupDevice where
  Path : ObjectPath
  AdapterPath : ObjectPath
  Alias : String
deriving DecidableEq, Repr

/-- Modelled from the spec: device.getState is declared outside the embedded
sources; it reads the connection state. -/
def device.getState (d : device) : deviceState := d.State

/-- Modelled from the spec: device.markNeedRemove is declared outside the embedded
sources; it sets the needs-removal mark. -/
def device.markNeedRemove (d : device) (need : Bool) : device :=
  { d with needRemove := need }

/-- Go: type Bluetooth struct, the registries and the pending-connect marker.
A map is the list of its entries in the order a range statement visits them;
a slice of device pointers may hold nil. -/
structure Bluetooth where
  adapters : List (ObjectPath × adapter)
  devices : List (ObjectPath × List (Option device))
  backupDevices : List (ObjectPath × List backupDevice)
  prepareToConnectedDevice : ObjectPath
deriving DecidableEq, Repr

/-- A remote call on a bluez proxy object: the HCI proxy of an adapter path or
the device proxy of a device path. -/
inductive RemoteCall where
  | StartDiscovery (apath : ObjectPath)
  | StopDiscovery (apath : ObjectPath)
  | RemoveDevice (apath : ObjectPath) (dpath : ObjectPath)
  | DiscoveringGet (apath : ObjectPath)
  | PoweredSet (apath : ObjectPath) (value : Bool)
  | AliasSet (apath : ObjectPath) (value : String)
  | DiscoverableSet (apath : ObjectPath) (value : Bool)
  | DiscoverableTimeoutSet (apath : ObjectPath) (value : Nat)
  | DeviceAliasSet (dpath : ObjectPath) (value : String)
  | DeviceTrustedSet (dpath : ObjectPath) (value : Bool)
deriving DecidableEq, Repr

/-- The remote bluez service: whether a call fails (with which error), given
the calls issued before it, and the value a Discovering read returns. -/
structure BlueZ where
  err : List RemoteCall → RemoteCall → Option String
  Discovering : List RemoteCall → ObjectPath → Bool

/-- A task started with a go statement. -/
inductive Task where
  | deviceConnect (dpath : ObjectPath)
  | deviceDisconnect (dpath : ObjectPath)
  | adapterPoweredOn (apath : ObjectPath)
deriving DecidableEq, Repr

/-- What the daemon does to its surroundings, oldest first: remote calls
issued, tasks started, aliases passed to notifyConnectFailedHostDown. -/
structure World where
  calls : List RemoteCall
  spawned : List Task
  notified : List String
deriving DecidableEq, Repr

/-- Issue one remote call: its error (none for nil) and the extended log. -/
def World.call (w : World) (bluez : BlueZ) (c : RemoteCall) : Option String × World :=
  (bluez.err w.calls c, { w with calls := w.calls ++ [c] })

/-- A *dbus.Error. -/
structure DBusError where
  msg : String
deriving DecidableEq, Repr

/-- Go: dbusutil.ToError(err) for a non-nil err. -/
def ToError (err : String) : DBusError := ⟨err⟩

/-- How a method ends: it returns, or the goroutine panics. -/
inductive Outcome (α : Type) where
  | returned (a : α)
  | panicked (msg : String)
deriving DecidableEq, Repr

/-- Go: m[k] = v on a map held as an entry list. -/
def mapSet {β : Type} (m : List (ObjectPath × β)) (k : ObjectPath) (v : β) :
    List (ObjectPath × β) :=
  match m with
  | [] => [(k, v)]
  | (k', v') :: rest => if k' == k then (k, v) :: rest else (k', v') :: mapSet rest k v

/-- Go: m[k] for a map of slices, nil (the empty slice) when k is absent. -/
def mapGetSlice {β : Type} (m : List (ObjectPath × List β)) (k : ObjectPath) : List β :=
  (m.lookup k).getD []

/-- The non-nil devices of a slice of device pointers. -/
def liveDevices (devices : List (Option device)) : List device :=
  devices.filterMap id

/-- All non-nil devices of the registry, adapter by adapter. -/
def Bluetooth.allDevices (b : Bluetooth) : List device :=
  (b.devices.map (fun e => liveDevices e.2)).flatten

/-- All backup entries, adapter by adapter. -/
def Bluetooth.allBackupDevices (b : Bluetooth) : List backupDevice :=
  (b.backupDevices.map (fun e => e.2)).flatten

/-- Modelled from the spec: getAdapter is declared outside the embedded sources;
an adapter unknown to the registry is a not-found error (and a nil adapter). -/
def Bluetooth.getAdapter (b : Bluetooth) (apath : ObjectPath) : Except String adapter :=
  match b.adapters.lookup apath with
  | some a => .ok a
  | none => .error "adapter not exists"

/-- Modelled from the spec: getDevice is declared outside the embedded sources;
it finds the device with this path among the known devices of all adapters,
a not-found error otherwise. -/
def Bluetooth.getDevice (b : Bluetooth) (dpath : ObjectPath) : Except String device :=
  match b.allDevices.find? (fun d => d.Path == dpath) with
  | some d => .ok d
  | none => .error "device not exists"

/-- Modelled from the spec: getBackupDevice is declared outside the embedded
sources; it looks the path up in the backup snapshot. -/
def Bluetooth.getBackupDevice (b : Bluetooth) (dpath : ObjectPath) : Except String backupDevice :=
  match b.allBackupDevices.find? (fun d => d.Path == dpath) with
  | some d => .ok d
  | none => .error "device not exists"

/-- A write through the adapter pointer registered under apath. -/
def Bluetooth.modifyAdapter (b : Bluetooth) (apath : ObjectPath) (f : adapter → adapter) :
    Bluetooth :=
  match b.adapters.lookup apath with
  | some a => { b with adapters := mapSet b.adapters apath (f a) }
  | none => b

/-- A write through the first device pointer with this path in one slice;
none when the slice holds no such device. -/
def modifyDeviceInSlice (dpath : ObjectPath) (f : device → device) :
    List (Option device) → Option (List (Option device))
  | [] => none
  | none :: rest => (modifyDeviceInSlice dpath f rest).map (fun l => none :: l)
  | some d :: rest =>
    if d.Path == dpath then some (some (f d) :: rest)
    else (modifyDeviceInSlice dpath f rest).map (fun l => some d :: l)

/-- A write through the device pointer that getDevice returns for dpath. -/
def modifyDeviceInMap (dpath : ObjectPath) (f : device → device) :
    List (ObjectPath × List (Option device)) → List (ObjectPath × List (Option device))
  | [] => []
  | (k, devices) :: rest =>
    match modifyDeviceInSlice dpath f devices with
    | some devices' => (k, devices') :: rest
    | none => (k, devices) :: modifyDeviceInMap dpath f rest

/-- A write through the device pointer that getDevice returns for dpath. -/
def Bluetooth.modifyDevice (b : Bluetooth) (dpath : ObjectPath) (f : device → device) :
    Bluetooth :=
  { b with devices := modifyDeviceInMap dpath f b.devices }

/-- Go: func (a *adapter) startDiscovery(). -/
def adapter.startDiscovery (a : adapter) (bluez : BlueZ) (w : World) : adapter × World :=
  let a := { a with discoveringTimeoutFlag := false }
  let r := w.call bluez (.StartDiscovery a.Path)
  match r.1 with
  | some _ => (a, r.2)
  | none =>
    ({ a with discoveringTimeout := a.discoveringTimeout.Reset defaultDiscoveringTimeout }, r.2)

/-- The inner loop of the discovery-expiry callback:
backupDevices[adapterpath] = append(backupDevices[adapterpath], newBackupDevice(device))
for every non-nil device. -/
def backupInner (newBackupDevice : device → backupDevice) (adapterpath : ObjectPath) :
    List (Option device) → List (ObjectPath × List backupDevice) →
      List (ObjectPath × List backupDevice)
  | [], backup => backup
  | none :: rest, backup => backupInner newBackupDevice adapterpath rest backup
  | some device :: rest, backup =>
    backupInner newBackupDevice adapterpath rest
      (mapSet backup adapterpath (mapGetSlice backup adapterpath ++ [newBackupDevice device]))

/-- The outer loop of the discovery-expiry callback, over the entries of
globalBluetooth.devices. -/
def backupOuter (newBackupDevice : device → backupDevice) :
    List (ObjectPath × List (Option device)) → List (ObjectPath × List backupDevice) →
      List (ObjectPath × List backupDevice)
  | [], backup => backup
  | (adapterpath, devices) :: rest, backup =>
    backupOuter newBackupDevice rest (backupInner newBackupDevice adapterpath devices backup)

/-- Go: the function given to time.AfterFunc for a.discoveringTimeout in
newAdapter, for the adapter registered under apath. updateconnectState and
newBackupDevice are declared outside the embedded sources and are parameters. -/
def Bluetooth.discoveringTimeoutFunc (b : Bluetooth)
    (updateconnectState : Bluetooth → World → Bluetooth × World)
    (newBackupDevice : device → backupDevice) (bluez : BlueZ) (apath : ObjectPath)
    (w : World) : Bluetooth × World :=
  let r := updateconnectState b w
  let b := r.1
  let w := r.2
  let b := { b with backupDevices := [] }
  let b := { b with backupDevices := backupOuter newBackupDevice b.devices b.backupDevices }
  let b := b.modifyAdapter apath (fun a => { a with discoveringTimeoutFlag := true })
  let r := w.call bluez (.StopDiscovery apath)
  let w := r.2
  let b := { b with prepareToConnectedDevice := "" }
  (b, w)

/-- Go: the function given to time.AfterFunc for
a.scanReadyToConnectDeviceTimeout in newAdapter, for the adapter registered
under apath. -/
def Bluetooth.scanReadyToConnectDeviceTimeoutFunc (b : Bluetooth) (apath : ObjectPath)
    (w : World) : Bluetooth × World :=
  let b := b.modifyAdapter apath (fun a => { a with scanReadyToConnectDeviceTimeoutFlag := false })
  let w :=
    match b.getDevice b.prepareToConnectedDevice with
    | .error _ =>
      match b.getBackupDevice b.prepareToConnectedDevice with
      | .error _ => w
      | .ok backupdevice => { w with notified := w.notified ++ [backupdevice.Alias] }
    | .ok _ => w
  let b := { b with backupDevices := [] }
  (b, w)

/-- Go: func (b *Bluetooth) ConnectDevice(dpath, apath) *dbus.Error. With an
unknown adapter getAdapter returns nil and a.startDiscovery() writes through
the nil pointer. -/
def Bluetooth.ConnectDevice (b : Bluetooth) (bluez : BlueZ) (dpath apath : ObjectPath)
    (w : World) : Outcome (Option DBusError) × Bluetooth × World :=
  let r := b.getDevice dpath
  let b := { b with prepareToConnectedDevice := dpath }
  match r with
  | .error _ =>
    match b.getAdapter apath with
    | .error _ => (.panicked "invalid memory address or nil pointer dereference", b, w)
    | .ok a =>
      let s := a.startDiscovery bluez w
      let a := s.1
      let w := s.2
      let a := { a with scanReadyToConnectDeviceTimeoutFlag := true }
      let a := { a with scanReadyToConnectDeviceTimeout :=
                  a.scanReadyToConnectDeviceTimeout.Reset defaultFindDeviceTimeout }
      (.returned none, { b with adapters := mapSet b.adapters apath a }, w)
  | .ok d =>
    (.returned none, b, { w with spawned := w.spawned ++ [Task.deviceConnect d.Path] })

/-- Go: func (b *Bluetooth) RemoveDevice(apath, dpath) *dbus.Error. -/
def Bluetooth.RemoveDevice (b : Bluetooth) (bluez : BlueZ) (apath dpath : ObjectPath)
    (w : World) : Option DBusError × Bluetooth × World :=
  match b.getAdapter apath with
  | .error err => (some (ToError err), b, w)
  | .ok a =>
    match b.getDevice dpath with
    | .error err => (some (ToError err), b, w)
    | .ok removeDev =>
      let deviceState := removeDev.getState
      if deviceState == deviceStateConnecting then
        let b := b.modifyDevice dpath (fun d => d.markNeedRemove true)
        (none, b, w)
      else
        let r := w.call bluez (.RemoveDevice a.Path dpath)
        match r.1 with
        | some err => (some (ToError err), b, r.2)
        | none => (none, b, r.2)

/-- Go: func (b *Bluetooth) GetDevices(apath) (devicesJSON string, err *dbus.Error).
marshalJSON is declared outside the embedded sources; its use on a slice of
backup entries and on a slice of device pointers are two parameters. -/
def Bluetooth.GetDevices (b : Bluetooth) (marshalBackupDevices : List backupDevice → String)
    (marshalDevices : List (Option device) → String) (apath : ObjectPath) :
    (String × Option DBusError) × Bluetooth :=
  match b.adapters.lookup apath with
  | some adapter =>
    if adapter.discoveringTimeoutFlag then
      let result : List backupDevice := []
      let devices := mapGetSlice b.backupDevices apath
      let result := result ++ devices
      ((marshalBackupDevices result, none), b)
    else
      let result : List (Option device) := []
      let devices := mapGetSlice b.devices apath
      let result := result ++ devices
      ((marshalDevices result, none), b)
  | none => (("", none), b)

end bluetooth

namespace gesture

/-- A dbus.ObjectPath. -/
abbrev ObjectPath := String

/-- Modelled from the spec: the action kind constants are declared outside the
embedded sources; the spec names a shell command, a key shortcut and a named
built-in handler. -/
def ActionTypeShortcut : String := "shortcut"

/-- Modelled from the spec: see ActionTypeShortcut. -/
def ActionTypeCommandline : String := "commandline"

/-- Modelled from the spec: see ActionTypeShortcut. -/
def ActionTypeBuiltin : String := "built-in"

/-- Go: type ActionInfo struct (kind and payload). -/
structure ActionInfo where
  Type_ : String
  Action : String
deriving DecidableEq, Repr

/-- Go: type gestureInfo struct. -/
structure gestureInfo where
  Name : String
  Direction : String
  Fingers : Int
  Action : ActionInfo
deriving DecidableEq, Repr

/-- Go: type gestureInfos []*gestureInfo. -/
abbrev gestureInfos := List gestureInfo

/-- Modelled from the spec: gestureInfos.Get is declared outside the embedded
sources; it finds the configured entry matching the triple exactly. -/
def gestureInfos.Get (infos : gestureInfos) (name direction : String) (fingers : Int) :
    Option gestureInfo :=
  infos.find? (fun info =>
    info.Name == name && info.Direction == direction && info.Fingers == fingers)

/-- The errors Exec returns. -/
inductive ExecError where
  | sessionPath (err : String)
  | notFound (name direction : String) (fingers : Int)
  | kbdGrabbed
  | invalidActionType (ty : String)
  | invalidBuiltin (cmd : String)
  | builtinFailed (err : String)
  | commandFailed (out : String)
deriving DecidableEq, Repr

/-- What Exec does to its surroundings, oldest first: the commands given to
/bin/sh -c and the built-in handlers called. -/
structure World where
  executed : List String
  called : List String
deriving DecidableEq, Repr

/-- What Exec reads from its surroundings: the outcome of
m.sessionmanager.CurrentSessionPath().Get(0), isSessionActive,
isKbdAlreadyGrabbed, getCurrentActionWindowCmd, the long-press blacklist
setting, isInWindowBlacklist, and for a shell command its combined output and
error. -/
structure Env where
  CurrentSessionPath : Except String ObjectPath
  isSessionActive : ObjectPath → Bool
  isKbdAlreadyGrabbed : Bool
  getCurrentActionWindowCmd : String
  longPressBlacklist : List String
  isInWindowBlacklist : String → List String → Bool
  sh : String → String × Option String
  builtin : String → Option String

/-- Go: type Manager struct, the fields Exec reads. builtinSets holds the names
that have a handler registered. -/
structure Manager where
  enabled : Bool
  Infos : gestureInfos
  builtinSets : List String
deriving DecidableEq, Repr

/-- Go: exec.Command("/bin/sh", "-c", cmd).CombinedOutput() and the error
handling that ends Exec. -/
def runShell (env : Env) (cmd : String) (w : World) : Option ExecError × World :=
  let w := { w with executed := w.executed ++ [cmd] }
  match (env.sh cmd).2 with
  | some _ => (some (.commandFailed (env.sh cmd).1), w)
  | none => (none, w)

/-- Go: func (m *Manager) handleBuiltinAction(cmd string) error. -/
def Manager.handleBuiltinAction (m : Manager) (env : Env) (cmd : String) (w : World) :
    Option ExecError × World :=
  if m.builtinSets.contains cmd then
    let w := { w with called := w.called ++ [cmd] }
    match env.builtin cmd with
    | some err => (some (.builtinFailed err), w)
    | none => (none, w)
  else
    (some (.invalidBuiltin cmd), w)

/-- Go: func (*Manager) handleTouchScreenEvent(info *gestureInfo) error. -/
def Manager.handleTouchScreenEvent (_m : Manager) (_info : gestureInfo) (w : World) :
    Option ExecError × World :=
  (none, w)

/-- The switch on info.Action.Type that ends Exec. -/
def Manager.execAction (m : Manager) (env : Env) (info : gestureInfo) (w : World) :
    Option ExecError × World :=
  let cmd := info.Action.Action
  if info.Action.Type_ == ActionTypeCommandline then
    runShell env cmd w
  else if info.Action.Type_ == ActionTypeShortcut then
    runShell env ("xdotool key " ++ cmd) w
  else if info.Action.Type_ == ActionTypeBuiltin then
    m.handleBuiltinAction env cmd w
  else
    (some (.invalidActionType info.Action.Type_), w)

/-- Go: func (m *Manager) Exec(name, direction string, fingers int32) error. -/
def Manager.Exec (m : Manager) (env : Env) (name direction : String) (fingers : Int)
    (w : World) : Option ExecError × World :=
  match env.CurrentSessionPath with
  | .error err => (some (.sessionPath err), w)
  | .ok currentSessionPath =>
    if !m.enabled || !env.isSessionActive currentSessionPath then
      (none, w)
    else
      match m.Infos.Get name direction fingers with
      | none => (some (.notFound name direction fingers), w)
      | some info =>
        if (info.Name != "touch right button" || info.Direction != "up")
            && env.isKbdAlreadyGrabbed then
          (some .kbdGrabbed, w)
        else if info.Name == "touch right button" then
          if env.isInWindowBlacklist env.getCurrentActionWindowCmd env.longPressBlacklist then
            (none, w)
          else
            m.execAction env info w
        else if "touch".toList.isPrefixOf info.Name.toList then
          m.handleTouchScreenEvent info w
        else
          m.execAction env info w

end gesture

namespace accounts

/-- A comparing setter emits exactly once when it is called twice in a row
with a value that differs from the stored one: once on the first call, not at
all on the second. -/
def EmitsOnceOnRepeat {σ α : Type} (differs : σ → α → Prop)
    (setter : σ → α → Service σ → Bool × σ × Service σ) : Prop :=
  ∀ (u : σ) (value : α) (service : Service σ), differs u value →
    (emittedTwice setter u value service).1.length = 1 ∧
    (emittedTwice setter u value service).2 = []

/-- A setter without comparison emits on each of two calls in a row, whatever
the stored value. -/
def EmitsOnEveryCall {σ α : Type} (setter : σ → α → Service σ → σ × Service σ) : Prop :=
  ∀ (u : σ) (value : α) (service : Service σ),
    (emittedTwiceUncond setter u value service).1.length = 1 ∧
    (emittedTwiceUncond setter u value service).2.length = 1

end accounts

namespace sessionwatcher

/-- A login1 service in which the read on /s1 fails, /s2 is active and every
other session is inactive. -/
def demoLogin : Login1 :=
  ⟨fun s =>
      if s.path = "/s1" then .error "timeout"
      else if s.path = "/s2" then .ok true
      else .ok false,
    fun _ => .ok "x11"⟩

/-- A manager tracking three sessions and recorded as inactive. -/
def demoManager : Manager := ⟨[("1", ⟨"/s1"⟩), ("2", ⟨"/s2"⟩), ("3", ⟨"/s3"⟩)], "", false⟩

end sessionwatcher

namespace bluetooth

/-- A powered adapter whose discovery timed out. -/
def demoAdapter : adapter :=
  ⟨"00:11", "/hci0", "pc", "pc", true, false, false, 0, ⟨none⟩, true, ⟨none⟩, false⟩

/-- A paired, disconnected device of /hci0. -/
def demoDevice : device := ⟨"/hci0/dev_A", "/hci0", "mouse", true, 0, false⟩

/-- A device of /hci0 in the middle of a connection attempt. -/
def demoConnecting : device := ⟨"/hci0/dev_B", "/hci0", "keyboard", true, 1, false⟩

/-- One adapter, two devices, a stale backup entry and a pending connect to a
device only the backup knows. -/
def demoBluetooth : Bluetooth :=
  ⟨[("/hci0", demoAdapter)], [("/hci0", [some demoDevice, some demoConnecting])],
    [("/hci0", [⟨"/hci0/dev_Z", "/hci0", "old phone"⟩])], "/hci0/dev_Z"⟩

/-- A bluez service on which every call succeeds. -/
def demoBlueZ : BlueZ := ⟨fun _ _ => none, fun _ _ => false⟩

/-- A copy of the identity and alias of a device. -/
def demoNewBackupDevice (d : device) : backupDevice := ⟨d.Path, d.AdapterPath, d.Alias⟩

/-- An updateconnectState that changes nothing. -/
def demoUpdateconnectState (b : Bluetooth) (w : World) : Bluetooth × World := (b, w)

/-- A marshalJSON for backup slices that lists the aliases. -/
def demoMarshalBackupDevices (l : List backupDevice) : String :=
  String.intercalate "," (l.map (fun d => d.Alias))

/-- A marshalJSON for device slices that lists the aliases, null for nil. -/
def demoMarshalDevices (l : List (Option device)) : String :=
  String.intercalate "," (l.map (fun d => match d with | some d => d.Alias | none => "null"))

end bluetooth

namespace gesture

/-- An environment in which reading the current session path fails. -/
def demoEnvNoSession : Env :=
  ⟨.error "no session", fun _ => true, false, "", [], fun _ _ => false, fun _ => ("", none),
    fun _ => none⟩

/-- An environment whose current session is not active. -/
def demoEnvInactive : Env :=
  ⟨.ok "/org/freedesktop/login1/session/_31", fun _ => false, false, "", [],
    fun _ _ => false, fun _ => ("", none), fun _ => none⟩

/-- A manager with gestures disabled and one configured entry. -/
def demoDisabled : Manager := ⟨false, [⟨"swipe", "up", 3, ⟨"commandline", "true"⟩⟩], []⟩

/-- A manager with gestures enabled and one configured entry. -/
def demoEnabled : Manager := ⟨true, [⟨"swipe", "up", 3, ⟨"commandline", "true"⟩⟩], []⟩

end gesture

namespace bluetooth

/-- Go: func (a *adapter) String() string. -/
def adapter.String (a : adapter) : String :=
  "adapter " ++ a.Alias ++ " [" ++ a.address ++ "]"

/-- Go: fmt.Errorf of the power-off message for adapter a. -/
def powerOffError (a : adapter) : String :=
  "\x27" ++ a.String ++ "\x27 power off"

/-- Modelled from the spec: type config is declared outside the embedded sources;
it is the settings store the daemon reads the discoverable preference from and
writes the per-address power preference to. -/
structure config where
  Discoverable : Bool
  Powered : List (String × Bool)
deriving DecidableEq, Repr

/-- Modelled from the spec: setAdapterConfigPowered is declared outside the
embedded sources; it stores the power preference of the adapter address. -/
def config.setAdapterConfigPowered (c : config) (address : String) (powered : Bool) : config :=
  { c with Powered := mapSet c.Powered address powered }

/-- Go: func (b *Bluetooth) DisconnectDevice(dpath) *dbus.Error. -/
def Bluetooth.DisconnectDevice (b : Bluetooth) (dpath : ObjectPath) (w : World) :
    Option DBusError × Bluetooth × World :=
  match b.getDevice dpath with
  | .error err => (some (ToError err), b, w)
  | .ok d => (none, b, { w with spawned := w.spawned ++ [Task.deviceDisconnect d.Path] })

/-- Go: func (b *Bluetooth) SetDeviceAlias(dpath, alias) *dbus.Error. -/
def Bluetooth.SetDeviceAlias (b : Bluetooth) (bluez : BlueZ) (dpath : ObjectPath)
    (aliasName : String) (w : World) : Option DBusError × Bluetooth × World :=
  match b.getDevice dpath with
  | .error err => (some (ToError err), b, w)
  | .ok d =>
    let r := w.call bluez (.DeviceAliasSet d.Path aliasName)
    match r.1 with
    | some err => (some (ToError err), b, r.2)
    | none => (none, b, r.2)

/-- Go: func (b *Bluetooth) SetDeviceTrusted(dpath, trusted) *dbus.Error. -/
def Bluetooth.SetDeviceTrusted (b : Bluetooth) (bluez : BlueZ) (dpath : ObjectPath)
    (trusted : Bool) (w : World) : Option DBusError × Bluetooth × World :=
  match b.getDevice dpath with
  | .error err => (some (ToError err), b, w)
  | .ok d =>
    let r := w.call bluez (.DeviceTrustedSet d.Path trusted)
    match r.1 with
    | some err => (some (ToError err), b, r.2)
    | none => (none, b, r.2)

/-- Go: func (b *Bluetooth) RequestDiscovery(apath) *dbus.Error. -/
def Bluetooth.RequestDiscovery (b : Bluetooth) (bluez : BlueZ) (apath : ObjectPath)
    (w : World) : Option DBusError × Bluetooth × World :=
  match b.getAdapter apath with
  | .error err => (some (ToError err), b, w)
  | .ok a =>
    if !a.Powered then
      (some (ToError (powerOffError a)), b, w)
    else
      let discovering := bluez.Discovering w.calls a.Path
      let r := w.call bluez (.DiscoveringGet a.Path)
      match r.1 with
      | some err => (some (ToError err), b, r.2)
      | none =>
        if discovering then
          (none, b, r.2)
        else
          let s := a.startDiscovery bluez r.2
          (none, { b with adapters := mapSet b.adapters apath s.1 }, s.2)

/-- Go: func (b *Bluetooth) SetAdapterPowered(apath, powered) *dbus.Error. -/
def Bluetooth.SetAdapterPowered (b : Bluetooth) (bluez : BlueZ) (apath : ObjectPath)
    (powered : Bool) (w : World) (cfg : config) :
    Option DBusError × Bluetooth × World × config :=
  match b.getAdapter apath with
  | .error err => (some (ToError err), b, w, cfg)
  | .ok a =>
    let a := { a with discoveringTimeoutFlag := false }
    let b := { b with adapters := mapSet b.adapters apath a }
    let r := w.call bluez (.PoweredSet a.Path powered)
    match r.1 with
    | some err => (some (ToError err), b, r.2, cfg)
    | none => (none, b, r.2, cfg.setAdapterConfigPowered a.address powered)

/-- Go: func (b *Bluetooth) SetAdapterAlias(apath, alias) *dbus.Error. -/
def Bluetooth.SetAdapterAlias (b : Bluetooth) (bluez : BlueZ) (apath : ObjectPath)
    (aliasName : String) (w : World) : Option DBusError × Bluetooth × World :=
  match b.getAdapter apath with
  | .error err => (some (ToError err), b, w)
  | .ok a =>
    let r := w.call bluez (.AliasSet a.Path aliasName)
    match r.1 with
    | some err => (some (ToError err), b, r.2)
    | none => (none, b, r.2)

/-- Go: func (b *Bluetooth) SetAdapterDiscoverable(apath, discoverable) *dbus.Error. -/
def Bluetooth.SetAdapterDiscoverable (b : Bluetooth) (bluez : BlueZ) (apath : ObjectPath)
    (discoverable : Bool) (w : World) : Option DBusError × Bluetooth × World :=
  match b.getAdapter apath with
  | .error err => (some (ToError err), b, w)
  | .ok a =>
    if !a.Powered then
      (some (ToError (powerOffError a)), b, w)
    else
      let r := w.call bluez (.DiscoverableSet a.Path discoverable)
      match r.1 with
      | some err => (some (ToError err), b, r.2)
      | none => (none, b, r.2)

/-- Go: func (b *Bluetooth) SetAdapterDiscovering(apath, discovering) *dbus.Error. -/
def Bluetooth.SetAdapterDiscovering (b : Bluetooth) (bluez : BlueZ) (apath : ObjectPath)
    (discovering : Bool) (w : World) : Option DBusError × Bluetooth × World :=
  match b.getAdapter apath with
  | .error err => (some (ToError err), b, w)
  | .ok a =>
    if !a.Powered then
      (some (ToError (powerOffError a)), b, w)
    else if discovering then
      let s := a.startDiscovery bluez w
      (none, { b with adapters := mapSet b.adapters apath s.1 }, s.2)
    else
      let r := w.call bluez (.StopDiscovery a.Path)
      match r.1 with
      | some err => (some (ToError err), b, r.2)
      | none => (none, b, r.2)

/-- Go: func (b *Bluetooth) SetAdapterDiscoverableTimeout(apath, discoverableTimeout)
*dbus.Error. -/
def Bluetooth.SetAdapterDiscoverableTimeout (b : Bluetooth) (bluez : BlueZ)
    (apath : ObjectPath) (discoverableTimeout : Nat) (w : World) :
    Option DBusError × Bluetooth × World :=
  match b.getAdapter apath with
  | .error err => (some (ToError err), b, w)
  | .ok a =>
    let r := w.call bluez (.DiscoverableTimeoutSet a.Path discoverableTimeout)
    match r.1 with
    | some err => (some (ToError err), b, r.2)
    | none => (none, b, r.2)

/-- The decimal digits of a number, most significant first, as Go prints them
for the verb d; the number 0 prints as the single digit 0. -/
def decimalDigits (n : Nat) : List Char :=
  if n = 0 then ['0'] else ((Nat.digits 10 n).reverse).map Nat.digitChar

/-- Padding on the left with the digit 0 up to a minimal width (the flag 0 and
the width of a format verb). -/
def zeroPad (width : Nat) (l : List Char) : List Char :=
  List.replicate (width - l.length) '0' ++ l

/-- Go: fmt.Sprintf("%06d", passkey) for an unsigned passkey. -/
def Sprintf06d (passkey : Nat) : String :=
  String.mk (zeroPad 6 (decimalDigits passkey))

/-- The number a string of decimal digits denotes. -/
def decimalValue (s : String) : Nat :=
  s.data.foldl (fun acc c => 10 * acc + (c.toNat - 48)) 0

/-- Go: func (b *Bluetooth) FeedPasskey(devPath, accept, passkey) *dbus.Error.
feed is declared outside the embedded sources and is a parameter; nil stays nil
under dbusutil.ToError. -/
def Bluetooth.FeedPasskey (feed : ObjectPath → Bool → String → Option String)
    (devPath : ObjectPath) (accept : Bool) (passkey : Nat) : Option DBusError :=
  let err := feed devPath accept (Sprintf06d passkey)
  err.map ToError

/-- The signals the daemon emits on its own service, with their JSON body. -/
inductive Signal where
  | AdapterAdded (json : String)
  | AdapterRemoved (json : String)
  | AdapterPropertiesChanged (json : String)
deriving DecidableEq, Repr

/-- Go: var globalBluetooth, with its config, and what the daemon has done to its
surroundings: the remote calls and tasks, and the signals emitted, oldest
first. -/
structure Global where
  bluetooth : Bluetooth
  config : config
  world : World
  emitted : List Signal
deriving DecidableEq, Repr

/-- A write through the adapter pointer registered under apath. -/
def Global.modifyAdapter (g : Global) (apath : ObjectPath) (f : adapter → adapter) : Global :=
  { g with bluetooth := g.bluetooth.modifyAdapter apath f }

/-- Go: func (a *adapter) notifyPropertiesChanged(), for the adapter registered
under apath. marshalJSON and updateState are declared outside the embedded
sources and are parameters. An adapter that is not registered is outside the
embedding. -/
def Global.notifyPropertiesChanged (g : Global) (marshalJSON : adapter → String)
    (updateState : Global → Global) (apath : ObjectPath) : Global :=
  match g.bluetooth.adapters.lookup apath with
  | some a =>
    updateState { g with emitted := g.emitted ++ [Signal.AdapterPropertiesChanged (marshalJSON a)] }
  | none => g

/-- Go: the function given to a.core.Name().ConnectChanged in connectProperties. -/
def Global.NameChanged (g : Global) (marshalJSON : adapter → String)
    (updateState : Global → Global) (apath : ObjectPath) (hasValue : Bool) (value : String) :
    Global :=
  if !hasValue then
    g
  else
    let g := g.modifyAdapter apath (fun a => { a with Name := value })
    g.notifyPropertiesChanged marshalJSON updateState apath

/-- Go: the function given to a.core.Alias().ConnectChanged in connectProperties. -/
def Global.AliasChanged (g : Global) (marshalJSON : adapter → String)
    (updateState : Global → Global) (apath : ObjectPath) (hasValue : Bool) (value : String) :
    Global :=
  if !hasValue then
    g
  else
    let g := g.modifyAdapter apath (fun a => { a with Alias := value })
    g.notifyPropertiesChanged marshalJSON updateState apath

/-- Go: the function given to a.core.Powered().ConnectChanged in
connectProperties. The go statement of the power-on branch is recorded as a
started task; the error of the Discoverable write is only logged. -/
def Global.PoweredChanged (g : Global) (marshalJSON : adapter → String)
    (updateState : Global → Global) (bluez : BlueZ) (apath : ObjectPath) (hasValue : Bool)
    (value : Bool) : Global :=
  if !hasValue then
    g
  else
    let g := g.modifyAdapter apath (fun a => { a with Powered := value })
    let g :=
      if value then
        let r := g.world.call bluez (.DiscoverableSet apath g.config.Discoverable)
        let w := r.2
        { g with world := { w with spawned := w.spawned ++ [Task.adapterPoweredOn apath] } }
      else
        g.modifyAdapter apath (fun a =>
          { a with discoveringTimeout := a.discoveringTimeout.Reset defaultDiscoveringTimeout })
    g.notifyPropertiesChanged marshalJSON updateState apath

/-- Go: the function given to a.core.Discovering().ConnectChanged in
connectProperties. -/
def Global.DiscoveringChanged (g : Global) (marshalJSON : adapter → String)
    (updateState : Global → Global) (apath : ObjectPath) (hasValue : Bool) (value : Bool) :
    Global :=
  if !hasValue then
    g
  else
    let g := g.modifyAdapter apath (fun a => { a with Discovering := value })
    match g.bluetooth.adapters.lookup apath with
    | none => g
    | some a =>
      if a.discoveringTimeoutFlag then
        g.notifyPropertiesChanged marshalJSON updateState apath
      else if value != a.Powered then
        g
      else
        g.notifyPropertiesChanged marshalJSON updateState apath

/-- Go: the function given to a.core.Discoverable().ConnectChanged in
connectProperties. -/
def Global.DiscoverableChanged (g : Global) (marshalJSON : adapter → String)
    (updateState : Global → Global) (apath : ObjectPath) (hasValue : Bool) (value : Bool) :
    Global :=
  if !hasValue then
    g
  else
    let g := g.modifyAdapter apath (fun a => { a with Discoverable := value })
    g.notifyPropertiesChanged marshalJSON updateState apath

/-- Go: the function given to a.core.DiscoverableTimeout().ConnectChanged in
connectProperties. -/
def Global.DiscoverableTimeoutChanged (g : Global) (apath : ObjectPath) (hasValue : Bool)
    (value : Nat) : Global :=
  if !hasValue then
    g
  else
    g.modifyAdapter apath (fun a => { a with DiscoverableTimeout := value })

end bluetooth

namespace bluetooth

/-- The adapter of the demo registry, powered off. -/
def demoAdapterOff : adapter := { demoAdapter with Powered := false }

/-- The demo registry with its adapter powered off. -/
def demoBluetoothOff : Bluetooth :=
  { demoBluetooth with adapters := [("/hci0", demoAdapterOff)] }

/-- The adapter of the demo registry while it scans: not timed out, the
discovery-expiry timer armed. -/
def demoAdapterScanning : adapter :=
  { demoAdapter with
    Discovering := true, discoveringTimeoutFlag := false,
    discoveringTimeout := ⟨some defaultDiscoveringTimeout⟩ }

/-- The demo registry with its adapter scanning and a connect pending. -/
def demoBluetoothScanning : Bluetooth :=
  { demoBluetooth with adapters := [("/hci0", demoAdapterScanning)] }

/-- A bluez service that rejects every call. -/
def demoBlueZFailing : BlueZ := ⟨fun _ _ => some "org.bluez.Error.Failed", fun _ _ => false⟩

/-- A marshalJSON for adapters that gives name and alias. -/
def demoMarshalAdapter (a : adapter) : String := a.Name ++ "/" ++ a.Alias

/-- An updateState that changes nothing. -/
def demoUpdateState (g : Global) : Global := g

/-- The demo registry as the global daemon state, nothing done yet. -/
def demoGlobal : Global := ⟨demoBluetooth, ⟨false, []⟩, ⟨[], [], []⟩, []⟩

end bluetooth

namespace gesture

/-- An environment with an active session in which another process holds the
keyboard grab. -/
def demoEnvGrabbed : Env :=
  ⟨.ok "/org/freedesktop/login1/session/_31", fun _ => true, true, "", [],
    fun _ _ => false, fun _ => ("", none), fun _ => none⟩

/-- An environment with an active session and no keyboard grab. -/
def demoEnvActive : Env :=
  ⟨.ok "/org/freedesktop/login1/session/_31", fun _ => true, false, "", [],
    fun _ _ => false, fun _ => ("", none), fun _ => none⟩

/-- Go: the two entries newManager appends for the touch long press. -/
def touchRightButtonInfos : gestureInfos :=
  [⟨"touch right button", "down", 0, ⟨ActionTypeCommandline, "xdotool mousedown 3"⟩⟩,
   ⟨"touch right button", "up", 0, ⟨ActionTypeCommandline, "xdotool mouseup 3"⟩⟩]

/-- An enabled manager with a swipe entry, a touch-screen entry and the two
entries of the touch long press. -/
def demoTouchManager : Manager :=
  ⟨true,
    [⟨"swipe", "up", 3, ⟨ActionTypeCommandline, "true"⟩⟩,
     ⟨"touch edge", "left", 1, ⟨ActionTypeCommandline, "true"⟩⟩] ++ touchRightButtonInfos,
    []⟩

end gesture

namespace sessionwatcher

/-- What addSession reads from its surroundings: the outcome of
login1.NewSession for a path, of session.User().Get(0) (the uid), of
isCurrentUser for a uid, and of session.Remote().Get(0). -/
structure AddEnv where
  NewSession : ObjectPath → Except String Session
  User : Session → Except String Nat
  isCurrentUser : Nat → Bool
  Remote : Session → Except String Bool

/-- Go: m.sessions[id] = session on the map held as an entry list. -/
def setSession (sessions : List (String × Session)) (id : String) (session : Session) :
    List (String × Session) :=
  match sessions with
  | [] => [(id, session)]
  | (id', session') :: rest =>
    if id' == id then (id, session) :: rest else (id', session') :: setSession rest id session

/-- Go: delete(m.sessions, id) on the map held as an entry list. -/
def deleteSessionEntry (sessions : List (String × Session)) (id : String) :
    List (String × Session) :=
  sessions.filter (fun e => !(e.1 == id))

/-- Go: func newManager(service) (*Manager, error). The error is the one of
dbus.SystemBus(); a new manager tracks no session, has recorded no session
type and is active by default. -/
def newManager (systemBus : Except String Unit) : Except String Manager :=
  match systemBus with
  | .error err => .error err
  | .ok _ =>
    let manager : Manager := { sessions := [], activeSessionType := "", IsActive := false }
    let manager := { manager with IsActive := true }
    .ok manager

/-- Go: func (m *Manager) addSession(id, path). The sessions whose Active
changes are subscribed to (InitSignalExt and ConnectChanged) are threaded as a
list, oldest first. -/
def Manager.addSession (m : Manager) (env : AddEnv) (id : String) (path : ObjectPath)
    (subscribed : List Session) : Manager × List Session :=
  match env.NewSession path with
  | .error _ => (m, subscribed)
  | .ok session =>
    match env.User session with
    | .error _ => (m, subscribed)
    | .ok uid =>
      if !env.isCurrentUser uid then
        (m, subscribed)
      else
        match env.Remote session with
        | .error _ => (m, subscribed)
        | .ok remote =>
          if remote then
            (m, subscribed)
          else
            let m := { m with sessions := setSession m.sessions id session }
            (m, subscribed ++ [session])

/-- Go: func (m *Manager) deleteSession(id, path). RemoveHandler takes the
session out of the subscribed list. -/
def Manager.deleteSession (m : Manager) (id : String) (_path : ObjectPath)
    (subscribed : List Session) : Manager × List Session :=
  match m.sessions.lookup id with
  | none => (m, subscribed)
  | some session =>
    let subscribed := subscribed.filter (fun s => !(s == session))
    ({ m with sessions := deleteSessionEntry m.sessions id }, subscribed)

/-- The steps of handleSessionChanged that matter for the lock discipline, in
program order. -/
inductive Event where
  | lock (mutex : String)
  | unlock (mutex : String)
  | activeGet (session : Session)
  | typeGet (session : Session)
  | emitPropertyChanged (propName : String) (value : Bool)
  | go (task : Task)
deriving DecidableEq, Repr

/-- The remote reads of getActiveSession, in the order of its loop. -/
def getActiveSessionTrace (login : Login1) : List (String × Session) → List Event
  | [] => []
  | (_, session) :: rest =>
    Event.activeGet session ::
      match login.Active session with
      | .error _ => getActiveSessionTrace login rest
      | .ok active => if active then [] else getActiveSessionTrace login rest

/-- The steps of setIsActive. -/
def Manager.setIsActiveTrace (m : Manager) (val : Bool) : List Event :=
  if m.IsActive != val then [Event.emitPropertyChanged "IsActive" val] else []

/-- The steps of handleSessionChanged between m.mu.Lock() and the deferred
m.mu.Unlock(). -/
def Manager.handleSessionChangedBody (m : Manager) (login : Login1) : List Event :=
  if m.sessions.length == 0 then
    []
  else
    let session := m.getActiveSession login
    let isActive : Bool :=
      match session with
      | some _ => true
      | none => false
    let typeRead : List Event :=
      match session with
      | some s => [Event.typeGet s]
      | none => []
    let changed := m.IsActive != isActive
    getActiveSessionTrace login m.sessions ++ typeRead ++
      [Event.lock "PropsMu"] ++ m.setIsActiveTrace isActive ++ [Event.unlock "PropsMu"] ++
      (if !changed then
        []
      else if isActive then
        [Event.go (Task.suspendPulseSinks 0), Event.go (Task.suspendPulseSources 0),
          Event.go (Task.displayRefreshBrightness 0)]
      else
        [Event.go (Task.suspendPulseSinks 1), Event.go (Task.suspendPulseSources 1)])

/-- Go: func (m *Manager) handleSessionChanged(), as the sequence of its steps:
m.mu.Lock() first, the deferred m.mu.Unlock() at the return. -/
def Manager.handleSessionChangedTrace (m : Manager) (login : Login1) : List Event :=
  [Event.lock "mu"] ++ m.handleSessionChangedBody login ++ [Event.unlock "mu"]

/-- Whether a mutex is held after a sequence of steps: it was locked more often
than unlocked. -/
def held (mutex : String) (steps : List Event) : Bool :=
  decide (steps.count (Event.unlock mutex) < steps.count (Event.lock mutex))

/-- A remote read on a session object or a property-changed emission. -/
def Event.isRemoteOrEmit : Event → Bool
  | .activeGet _ => true
  | .typeGet _ => true
  | .emitPropertyChanged _ _ => true
  | _ => false

/-- A manager tracking one session, recorded as active. -/
def demoSingle : Manager := ⟨[("2", ⟨"/s2"⟩)], "x11", true⟩

/-- An environment in which /s2 belongs to the current user and is local, /s4
belongs to the current user and is remote, and every other session belongs to
somebody else. -/
def demoAddEnv : AddEnv :=
  ⟨fun path => .ok ⟨path⟩,
    fun s => if s.path = "/s2" ∨ s.path = "/s4" then .ok 1000 else .ok 0,
    fun uid => uid == 1000,
    fun s => .ok (s.path == "/s4")⟩

end sessionwatcher

namespace sessionwatcher

/-- The emission a step makes, if it is one. -/
def Event.emitted : Event → Option (String × Bool)
  | .emitPropertyChanged propName value => some (propName, value)
  | _ => none

/-- The task a step starts, if it is a go statement. -/
def Event.started : Event → Option Task
  | .go task => some task
  | _ => none

/-- A remote read on a session object. -/
def Event.isRead : Event → Bool
  | .activeGet _ => true
  | .typeGet _ => true
  | _ => false

end sessionwatcher

namespace power

/-- A time.Duration, in nanoseconds. -/
abbrev Duration := Nat

/-- Go: time.Second. -/
def Second : Duration := 1000000000

/-- A time.Timer made by time.AfterFunc: armed with the duration after which
its function runs, or stopped (or expired). -/
structure Timer where
  armed : Option Duration
deriving DecidableEq, Repr

/-- The values of the power settings keys the manager binds its properties to;
an integer key holds a 32-bit signed integer. -/
structure Settings where
  UsePercentageForPolicy : Bool
  LowTime : Int
  DangerTime : Int
  CriticalTime : Int
  ActionTime : Int
  LowPowerNotifyThreshold : Int
  LowPercentage : Int
  DangerPercentage : Int
  CriticalPercentage : Int
  ActionPercentage : Int
deriving DecidableEq, Repr

/-- Go: the conversion uint64(x) of a 32-bit signed integer. -/
def uint64 (x : Int) : Nat := (x % 2 ^ 64).toNat

/-- Go: type warnLevelConfig struct. The float64 fields only ever hold the
conversion of a 32-bit integer or of a small constant, which float64 holds
exactly; they are kept as integers. -/
structure warnLevelConfig where
  UsePercentageForPolicy : Bool
  LowTime : Nat
  DangerTime : Nat
  CriticalTime : Nat
  ActionTime : Nat
  LowPowerNotifyThreshold : Int
  remindPercentage : Int
  LowPercentage : Int
  DangerPercentage : Int
  CriticalPercentage : Int
  ActionPercentage : Int
deriving DecidableEq, Repr

/-- Go: func (c *warnLevelConfig) isValid() bool. -/
def warnLevelConfig.isValid (c : warnLevelConfig) : Bool :=
  if decide (c.LowTime > c.DangerTime) &&
      decide (c.DangerTime > c.CriticalTime) &&
      decide (c.CriticalTime > c.ActionTime) &&
      decide (c.remindPercentage > c.LowPercentage) &&
      decide (c.LowPercentage > c.DangerPercentage) &&
      decide (c.DangerPercentage > c.CriticalPercentage) &&
      decide (c.CriticalPercentage > c.ActionPercentage) then
    true
  else
    false

/-- Go: type WarnLevelConfigManager struct. The bound properties read the
settings; changeCb records whether a callback is set and how often it was
called; replaced holds the timers changeTimer referred to before it was
assigned anew, oldest first. -/
structure WarnLevelConfigManager where
  settings : Settings
  changeTimer : Option Timer
  changeCb : Bool
  changeCbCalls : Nat
  replaced : List Timer
deriving DecidableEq, Repr

/-- Go: func NewWarnLevelConfigManager(gs) *WarnLevelConfigManager. -/
def NewWarnLevelConfigManager (gs : Settings) : WarnLevelConfigManager :=
  { settings := gs, changeTimer := none, changeCb := false, changeCbCalls := 0, replaced := [] }

/-- Go: func (m *WarnLevelConfigManager) getWarnLevelConfig() *warnLevelConfig. -/
def WarnLevelConfigManager.getWarnLevelConfig (m : WarnLevelConfigManager) : warnLevelConfig :=
  { UsePercentageForPolicy := m.settings.UsePercentageForPolicy,
    LowTime := uint64 m.settings.LowTime,
    DangerTime := uint64 m.settings.DangerTime,
    CriticalTime := uint64 m.settings.CriticalTime,
    ActionTime := uint64 m.settings.ActionTime,
    LowPowerNotifyThreshold := m.settings.LowPowerNotifyThreshold,
    remindPercentage := 25,
    LowPercentage := 20,
    DangerPercentage := 15,
    CriticalPercentage := 10,
    ActionPercentage := 5 }

/-- Go: func (m *WarnLevelConfigManager) setChangeCallback(fn func()). -/
def WarnLevelConfigManager.setChangeCallback (m : WarnLevelConfigManager) :
    WarnLevelConfigManager :=
  { m with changeCb := true }

/-- Go: func (m *WarnLevelConfigManager) Reset() *dbus.Error, with the schema
defaults the keys are reset to; the error is always nil. -/
def WarnLevelConfigManager.Reset (m : WarnLevelConfigManager) (defaults : Settings) :
    WarnLevelConfigManager :=
  let s := m.settings
  let s := { s with UsePercentageForPolicy := defaults.UsePercentageForPolicy }
  let s := { s with LowPowerNotifyThreshold := defaults.LowPowerNotifyThreshold }
  let s := { s with LowPercentage := defaults.LowPercentage }
  let s := { s with DangerPercentage := defaults.DangerPercentage }
  let s := { s with CriticalPercentage := defaults.CriticalPercentage }
  let s := { s with ActionPercentage := defaults.ActionPercentage }
  let s := { s with LowTime := defaults.LowTime }
  let s := { s with DangerTime := defaults.DangerTime }
  let s := { s with CriticalTime := defaults.CriticalTime }
  let s := { s with ActionTime := defaults.ActionTime }
  { m with settings := s }

/-- Schema defaults with a valid time chain. -/
def demoDefaults : Settings := ⟨false, 1200, 900, 600, 300, 20, 20, 15, 10, 5⟩

end power

namespace dock

/-- Go: the conversion uint32(x). -/
def uint32 (x : Nat) : Nat := x % 2 ^ 32

/-- Modelled from the spec: the window info type is declared outside the embedded
sources; the embedded code only asks a window for its X id. -/
structure WindowInfo where
  xid : Nat
deriving DecidableEq, Repr

/-- Go: winInfo.getXid(). -/
def WindowInfo.getXid (winInfo : WindowInfo) : Nat := winInfo.xid

/-- Go: type AppEntry struct, the windows map as the list of its entries. -/
structure AppEntry where
  windows : List (Nat × WindowInfo)
deriving DecidableEq, Repr

/-- How a method ends: it returns, or the goroutine panics. -/
inductive Outcome (α : Type) where
  | returned (a : α)
  | panicked (msg : String)
deriving DecidableEq, Repr

/-- The loop of GetAllowedCloseWindows: ret[idx] = uint32(winInfo.getXid()) for
idx counting the allowed windows from the given start; none when idx is out of
range for ret. -/
def fillAllowed : List Nat → Nat → List WindowInfo → Option (List Nat)
  | ret, _, [] => some ret
  | ret, idx, winInfo :: rest =>
    if idx < ret.length then
      fillAllowed (ret.set idx (uint32 winInfo.getXid)) (idx + 1) rest
    else
      none

/-- Go: func (entry *AppEntry) GetAllowedCloseWindows() ([]uint32, *dbus.Error).
entry.getAllowedCloseWindows is declared outside the embedded sources and is a
parameter. -/
def AppEntry.GetAllowedCloseWindows (entry : AppEntry)
    (getAllowedCloseWindows : AppEntry → List WindowInfo) :
    Outcome (List Nat × Option String) :=
  let ret := List.replicate entry.windows.length 0
  let winInfos := getAllowedCloseWindows entry
  match fillAllowed ret 0 winInfos with
  | some ret => .returned (ret, none)
  | none => .panicked "index out of range"

/-- An entry with three windows. -/
def demoEntry : AppEntry := ⟨[(11, ⟨11⟩), (22, ⟨22⟩), (33, ⟨33⟩)]⟩

/-- A getAllowedCloseWindows that allows the windows with an odd id. -/
def demoAllowed (entry : AppEntry) : List WindowInfo :=
  (entry.windows.map Prod.snd).filter (fun w => w.xid % 2 == 1)

end dock

namespace inputdevices

/-- Go: const syndaemonPidFile. -/
def syndaemonPidFile : String := "/tmp/syndaemon.pid"

/-- The pieces of a character sequence between single spaces. -/
def splitChars : List Char → List (List Char)
  | [] => [[]]
  | c :: cs =>
    if c = ' ' then
      [] :: splitChars cs
    else
      match splitChars cs with
      | [] => [[c]]
      | word :: words => (c :: word) :: words

/-- Go: strings.Split(s, " "). -/
def stringsSplit (s : String) : List String :=
  (splitChars s.data).map String.mk

/-- The argument vector, program name first, of the command startSyndaemon
builds from the configured command string. -/
def syndaemonArgs (syncmd : String) : List String :=
  let args := stringsSplit syncmd
  let argsLen := args.length
  if argsLen == 1 then
    args.take 1 ++ ["-d", "-p", syndaemonPidFile]
  else
    let args :=
      if !args.contains "-p" then
        let args := if !args.contains "-d" then args ++ ["-d"] else args
        args ++ ["-p", syndaemonPidFile]
      else
        args
    args.take 1 ++ args.drop 1

/-- What startSyndaemon reads from its surroundings: isSyndaemonExist of the pid
file, the configured command, and whether starting a command fails. -/
structure Env where
  isSyndaemonExist : Bool
  whileTypingCmd : String
  startFails : List String → Bool

/-- What startSyndaemon does to its surroundings, oldest first: the commands it
tried to start and the files it removed. -/
structure World where
  started : List (List String)
  removed : List String
deriving DecidableEq, Repr

/-- Go: func (tpad *Touchpad) startSyndaemon(). -/
def startSyndaemon (env : Env) (w : World) : World :=
  if env.isSyndaemonExist then
    w
  else
    let syncmd := env.whileTypingCmd
    if syncmd == "" then
      w
    else
      let cmd := syndaemonArgs syncmd
      let w := { w with started := w.started ++ [cmd] }
      if env.startFails cmd then
        { w with removed := w.removed ++ [syndaemonPidFile] }
      else
        w

end inputdevices

/-! ## Theorems -/

namespace accounts

theorem isStrvEqual_refl (l : List String) : isStrvEqual l l = true := by
  simp [isStrvEqual]

/-- C1: every scalar (string, bool, int32, uint64) generated setter of User and
Manager returns changed = (old != value), leaves the field equal to value, on a
change appends exactly one emission that carries value under the property name
and is made on the object that already holds value, and without a change emits
nothing and leaves the object and the service as they were. -/
theorem scalar_setters_contract :
  ScalarSetterContract (fun v : User => v.UserName) "UserName" Variant.str User.setPropUserName ∧
  ScalarSetterContract (fun v : User => v.UUID) "UUID" Variant.str User.setPropUUID ∧
  ScalarSetterContract (fun v : User => v.FullName) "FullName" Variant.str User.setPropFullName ∧
  ScalarSetterContract (fun v : User => v.Uid) "Uid" Variant.str User.setPropUid ∧
  ScalarSetterContract (fun v : User => v.Gid) "Gid" Variant.str User.setPropGid ∧
  ScalarSetterContract (fun v : User => v.HomeDir) "HomeDir" Variant.str User.setPropHomeDir ∧
  ScalarSetterContract (fun v : User => v.Shell) "Shell" Variant.str User.setPropShell ∧
  ScalarSetterContract (fun v : User => v.Locale) "Locale" Variant.str User.setPropLocale ∧
  ScalarSetterContract (fun v : User => v.Layout) "Layout" Variant.str User.setPropLayout ∧
  ScalarSetterContract (fun v : User => v.IconFile) "IconFile" Variant.str User.setPropIconFile ∧
  ScalarSetterContract (fun v : User => v.PasswordHint) "PasswordHint" Variant.str User.setPropPasswordHint ∧
  ScalarSetterContract (fun v : User => v.Use24HourFormat) "Use24HourFormat" Variant.bool User.setPropUse24HourFormat ∧
  ScalarSetterContract (fun v : User => v.WeekdayFormat) "WeekdayFormat" Variant.int32 User.setPropWeekdayFormat ∧
  ScalarSetterContract (fun v : User => v.ShortDateFormat) "ShortDateFormat" Variant.int32 User.setPropShortDateFormat ∧
  ScalarSetterContract (fun v : User => v.LongDateFormat) "LongDateFormat" Variant.int32 User.setPropLongDateFormat ∧
  ScalarSetterContract (fun v : User => v.ShortTimeFormat) "ShortTimeFormat" Variant.int32 User.setPropShortTimeFormat ∧
  ScalarSetterContract (fun v : User => v.LongTimeFormat) "LongTimeFormat" Variant.int32 User.setPropLongTimeFormat ∧
  ScalarSetterContract (fun v : User => v.WeekBegins) "WeekBegins" Variant.int32 User.setPropWeekBegins ∧
  ScalarSetterContract (fun v : User => v.GreeterBackground) "GreeterBackground" Variant.str User.setPropGreeterBackground ∧
  ScalarSetterContract (fun v : User => v.XSession) "XSession" Variant.str User.setPropXSession ∧
  ScalarSetterContract (fun v : User => v.PasswordStatus) "PasswordStatus" Variant.str User.setPropPasswordStatus ∧
  ScalarSetterContract (fun v : User => v.MaxPasswordAge) "MaxPasswordAge" Variant.int32 User.setPropMaxPasswordAge ∧
  ScalarSetterContract (fun v : User => v.PasswordLastChange) "PasswordLastChange" Variant.int32 User.setPropPasswordLastChange ∧
  ScalarSetterContract (fun v : User => v.Locked) "Locked" Variant.bool User.setPropLocked ∧
  ScalarSetterContract (fun v : User => v.AutomaticLogin) "AutomaticLogin" Variant.bool User.setPropAutomaticLogin ∧
  ScalarSetterContract (fun v : User => v.Workspace) "Workspace" Variant.int32 User.setPropWorkspace ∧
  ScalarSetterContract (fun v : User => v.SystemAccount) "SystemAccount" Variant.bool User.setPropSystemAccount ∧
  ScalarSetterContract (fun v : User => v.NoPasswdLogin) "NoPasswdLogin" Variant.bool User.setPropNoPasswdLogin ∧
  ScalarSetterContract (fun v : User => v.AccountType) "AccountType" Variant.int32 User.setPropAccountType ∧
  ScalarSetterContract (fun v : User => v.LoginTime) "LoginTime" Variant.uint64 User.setPropLoginTime ∧
  ScalarSetterContract (fun v : User => v.CreatedTime) "CreatedTime" Variant.uint64 User.setPropCreatedTime ∧
  ScalarSetterContract (fun v : Manager => v.AllowGuest) "AllowGuest" Variant.bool Manager.setPropAllowGuest ∧
  ScalarSetterContract (fun v : Manager => v.IsTerminalLocked) "IsTerminalLocked" Variant.bool Manager.setPropIsTerminalLocked := by
  refine ⟨?_, ?_, ?_, ?_, ?_, ?_, ?_, ?_, ?_, ?_, ?_, ?_, ?_, ?_, ?_, ?_, ?_, ?_, ?_, ?_, ?_, ?_, ?_, ?_, ?_, ?_, ?_, ?_, ?_, ?_, ?_, ?_, ?_⟩ <;>
  · intro u value service
    simp only [User.setPropUserName, User.emitPropChangedUserName, User.setPropUUID,
      User.emitPropChangedUUID, User.setPropFullName, User.emitPropChangedFullName,
      User.setPropUid, User.emitPropChangedUid, User.setPropGid, User.emitPropChangedGid,
      User.setPropHomeDir, User.emitPropChangedHomeDir, User.setPropShell,
      User.emitPropChangedShell, User.setPropLocale, User.emitPropChangedLocale,
      User.setPropLayout, User.emitPropChangedLayout, User.setPropIconFile,
      User.emitPropChangedIconFile, User.setPropPasswordHint, User.emitPropChangedPasswordHint,
      User.setPropUse24HourFormat, User.emitPropChangedUse24HourFormat,
      User.setPropWeekdayFormat, User.emitPropChangedWeekdayFormat, User.setPropShortDateFormat,
      User.emitPropChangedShortDateFormat, User.setPropLongDateFormat,
      User.emitPropChangedLongDateFormat, User.setPropShortTimeFormat,
      User.emitPropChangedShortTimeFormat, User.setPropLongTimeFormat,
      User.emitPropChangedLongTimeFormat, User.setPropWeekBegins,
      User.emitPropChangedWeekBegins, User.setPropGreeterBackground,
      User.emitPropChangedGreeterBackground, User.setPropXSession, User.emitPropChangedXSession,
      User.setPropPasswordStatus, User.emitPropChangedPasswordStatus,
      User.setPropMaxPasswordAge, User.emitPropChangedMaxPasswordAge,
      User.setPropPasswordLastChange, User.emitPropChangedPasswordLastChange,
      User.setPropLocked, User.emitPropChangedLocked, User.setPropAutomaticLogin,
      User.emitPropChangedAutomaticLogin, User.setPropWorkspace, User.emitPropChangedWorkspace,
      User.setPropSystemAccount, User.emitPropChangedSystemAccount, User.setPropNoPasswdLogin,
      User.emitPropChangedNoPasswdLogin, User.setPropAccountType,
      User.emitPropChangedAccountType, User.setPropLoginTime, User.emitPropChangedLoginTime,
      User.setPropCreatedTime, User.emitPropChangedCreatedTime, Manager.setPropAllowGuest,
      Manager.emitPropChangedAllowGuest, Manager.setPropIsTerminalLocked,
      Manager.emitPropChangedIsTerminalLocked,
      Service.EmitPropertyChanged, bne_iff_ne, ne_eq]
    split <;> simp_all

/-- C1 at a concrete input: setting UserName from the empty string to alice. -/
theorem scalar_setters_contract_witness :
    zeroUser.UserName ≠ "alice" ∧
    ∃ e : PropChanged User,
      (User.setPropUserName zeroUser "alice" ⟨[]⟩).2.2.emitted = [] ++ [e] ∧
      e.propName = "UserName" ∧ e.value = Variant.str "alice" ∧ e.obj.UserName = "alice" ∧
      e.obj = (User.setPropUserName zeroUser "alice" ⟨[]⟩).2.1 :=
  ⟨by decide, (scalar_setters_contract.1 zeroUser "alice" ⟨[]⟩).2.2.1 (by decide)⟩

/-- C2 fails for the setters without comparison: with the stored list empty and
a value different from it, both calls of setPropDesktopBackgrounds emit. -/
theorem setPropDesktopBackgrounds_twice_emits_twice :
    zeroUser.DesktopBackgrounds ≠ ["a.jpg"] ∧
    (emittedTwiceUncond User.setPropDesktopBackgrounds zeroUser ["a.jpg"] ⟨[]⟩).1.length = 1 ∧
    (emittedTwiceUncond User.setPropDesktopBackgrounds zeroUser ["a.jpg"] ⟨[]⟩).2.length = 1 := by
  decide

/-- C2 as amended: every comparing setter (every scalar setter, and
setPropGroups and setPropGroupList for a reflexive isStrvEqual), called twice
in a row with the same value, a value different from the stored one (for the
two list setters: one that isStrvEqual judges different from the stored list),
emits exactly once, on the first call only; setPropDesktopBackgrounds,
setPropIconList and setPropHistoryLayout, which do not compare, emit on each
of the two calls, whatever the value. -/
theorem setters_repeat_emission :
  EmitsOnceOnRepeat (fun (v : User) value => v.UserName ≠ value) User.setPropUserName ∧
  EmitsOnceOnRepeat (fun (v : User) value => v.UUID ≠ value) User.setPropUUID ∧
  EmitsOnceOnRepeat (fun (v : User) value => v.FullName ≠ value) User.setPropFullName ∧
  EmitsOnceOnRepeat (fun (v : User) value => v.Uid ≠ value) User.setPropUid ∧
  EmitsOnceOnRepeat (fun (v : User) value => v.Gid ≠ value) User.setPropGid ∧
  EmitsOnceOnRepeat (fun (v : User) value => v.HomeDir ≠ value) User.setPropHomeDir ∧
  EmitsOnceOnRepeat (fun (v : User) value => v.Shell ≠ value) User.setPropShell ∧
  EmitsOnceOnRepeat (fun (v : User) value => v.Locale ≠ value) User.setPropLocale ∧
  EmitsOnceOnRepeat (fun (v : User) value => v.Layout ≠ value) User.setPropLayout ∧
  EmitsOnceOnRepeat (fun (v : User) value => v.IconFile ≠ value) User.setPropIconFile ∧
  EmitsOnceOnRepeat (fun (v : User) value => v.PasswordHint ≠ value) User.setPropPasswordHint ∧
  EmitsOnceOnRepeat (fun (v : User) value => v.Use24HourFormat ≠ value) User.setPropUse24HourFormat ∧
  EmitsOnceOnRepeat (fun (v : User) value => v.WeekdayFormat ≠ value) User.setPropWeekdayFormat ∧
  EmitsOnceOnRepeat (fun (v : User) value => v.ShortDateFormat ≠ value) User.setPropShortDateFormat ∧
  EmitsOnceOnRepeat (fun (v : User) value => v.LongDateFormat ≠ value) User.setPropLongDateFormat ∧
  EmitsOnceOnRepeat (fun (v : User) value => v.ShortTimeFormat ≠ value) User.setPropShortTimeFormat ∧
  EmitsOnceOnRepeat (fun (v : User) value => v.LongTimeFormat ≠ value) User.setPropLongTimeFormat ∧
  EmitsOnceOnRepeat (fun (v : User) value => v.WeekBegins ≠ value) User.setPropWeekBegins ∧
  EmitsOnceOnRepeat (fun (v : User) value => v.GreeterBackground ≠ value) User.setPropGreeterBackground ∧
  EmitsOnceOnRepeat (fun (v : User) value => v.XSession ≠ value) User.setPropXSession ∧
  EmitsOnceOnRepeat (fun (v : User) value => v.PasswordStatus ≠ value) User.setPropPasswordStatus ∧
  EmitsOnceOnRepeat (fun (v : User) value => v.MaxPasswordAge ≠ value) User.setPropMaxPasswordAge ∧
  EmitsOnceOnRepeat (fun (v : User) value => v.PasswordLastChange ≠ value) User.setPropPasswordLastChange ∧
  EmitsOnceOnRepeat (fun (v : User) value => v.Locked ≠ value) User.setPropLocked ∧
  EmitsOnceOnRepeat (fun (v : User) value => v.AutomaticLogin ≠ value) User.setPropAutomaticLogin ∧
  EmitsOnceOnRepeat (fun (v : User) value => v.Workspace ≠ value) User.setPropWorkspace ∧
  EmitsOnceOnRepeat (fun (v : User) value => v.SystemAccount ≠ value) User.setPropSystemAccount ∧
  EmitsOnceOnRepeat (fun (v : User) value => v.NoPasswdLogin ≠ value) User.setPropNoPasswdLogin ∧
  EmitsOnceOnRepeat (fun (v : User) value => v.AccountType ≠ value) User.setPropAccountType ∧
  EmitsOnceOnRepeat (fun (v : User) value => v.LoginTime ≠ value) User.setPropLoginTime ∧
  EmitsOnceOnRepeat (fun (v : User) value => v.CreatedTime ≠ value) User.setPropCreatedTime ∧
  EmitsOnceOnRepeat (fun (v : Manager) value => v.AllowGuest ≠ value) Manager.setPropAllowGuest ∧
  EmitsOnceOnRepeat (fun (v : Manager) value => v.IsTerminalLocked ≠ value) Manager.setPropIsTerminalLocked ∧
  (∀ eq : List String → List String → Bool, (∀ l, eq l l = true) →
    EmitsOnceOnRepeat (fun (v : User) value => eq v.Groups value = false) (User.setPropGroups eq)) ∧
  (∀ eq : List String → List String → Bool, (∀ l, eq l l = true) →
    EmitsOnceOnRepeat (fun (v : Manager) value => eq v.GroupList value = false) (Manager.setPropGroupList eq)) ∧
  EmitsOnEveryCall User.setPropDesktopBackgrounds ∧
  EmitsOnEveryCall User.setPropIconList ∧
  EmitsOnEveryCall User.setPropHistoryLayout := by
  refine ⟨?_, ?_, ?_, ?_, ?_, ?_, ?_, ?_, ?_, ?_, ?_, ?_, ?_, ?_, ?_, ?_, ?_, ?_, ?_, ?_, ?_, ?_, ?_, ?_, ?_, ?_, ?_, ?_, ?_, ?_, ?_, ?_, ?_, ?_, ?_, ?_, ?_, ?_⟩
  all_goals first
    | (intro u value service h
       simp only [emittedTwice, User.setPropUserName, User.emitPropChangedUserName, User.setPropUUID,
         User.emitPropChangedUUID, User.setPropFullName, User.emitPropChangedFullName,
         User.setPropUid, User.emitPropChangedUid, User.setPropGid, User.emitPropChangedGid,
         User.setPropHomeDir, User.emitPropChangedHomeDir, User.setPropShell,
         User.emitPropChangedShell, User.setPropLocale, User.emitPropChangedLocale,
         User.setPropLayout, User.emitPropChangedLayout, User.setPropIconFile,
         User.emitPropChangedIconFile, User.setPropPasswordHint,
         User.emitPropChangedPasswordHint, User.setPropUse24HourFormat,
         User.emitPropChangedUse24HourFormat, User.setPropWeekdayFormat,
         User.emitPropChangedWeekdayFormat, User.setPropShortDateFormat,
         User.emitPropChangedShortDateFormat, User.setPropLongDateFormat,
         User.emitPropChangedLongDateFormat, User.setPropShortTimeFormat,
         User.emitPropChangedShortTimeFormat, User.setPropLongTimeFormat,
         User.emitPropChangedLongTimeFormat, User.setPropWeekBegins,
         User.emitPropChangedWeekBegins, User.setPropDesktopBackgrounds,
         User.emitPropChangedDesktopBackgrounds, User.setPropGroups, User.emitPropChangedGroups,
         User.setPropGreeterBackground, User.emitPropChangedGreeterBackground,
         User.setPropXSession, User.emitPropChangedXSession, User.setPropPasswordStatus,
         User.emitPropChangedPasswordStatus, User.setPropMaxPasswordAge,
         User.emitPropChangedMaxPasswordAge, User.setPropPasswordLastChange,
         User.emitPropChangedPasswordLastChange, User.setPropLocked, User.emitPropChangedLocked,
         User.setPropAutomaticLogin, User.emitPropChangedAutomaticLogin, User.setPropWorkspace,
         User.emitPropChangedWorkspace, User.setPropSystemAccount,
         User.emitPropChangedSystemAccount, User.setPropNoPasswdLogin,
         User.emitPropChangedNoPasswdLogin, User.setPropAccountType,
         User.emitPropChangedAccountType, User.setPropLoginTime, User.emitPropChangedLoginTime,
         User.setPropCreatedTime, User.emitPropChangedCreatedTime, User.setPropIconList,
         User.emitPropChangedIconList, User.setPropHistoryLayout,
         User.emitPropChangedHistoryLayout, Manager.setPropAllowGuest,
         Manager.emitPropChangedAllowGuest, Manager.setPropGroupList,
         Manager.emitPropChangedGroupList, Manager.setPropIsTerminalLocked,
         Manager.emitPropChangedIsTerminalLocked,
         Service.EmitPropertyChanged, bne_iff_ne, ne_eq]
       simp [h])
    | (intro eq hrefl u value service h
       simp only [emittedTwice, User.setPropUserName, User.emitPropChangedUserName, User.setPropUUID,
         User.emitPropChangedUUID, User.setPropFullName, User.emitPropChangedFullName,
         User.setPropUid, User.emitPropChangedUid, User.setPropGid, User.emitPropChangedGid,
         User.setPropHomeDir, User.emitPropChangedHomeDir, User.setPropShell,
         User.emitPropChangedShell, User.setPropLocale, User.emitPropChangedLocale,
         User.setPropLayout, User.emitPropChangedLayout, User.setPropIconFile,
         User.emitPropChangedIconFile, User.setPropPasswordHint,
         User.emitPropChangedPasswordHint, User.setPropUse24HourFormat,
         User.emitPropChangedUse24HourFormat, User.setPropWeekdayFormat,
         User.emitPropChangedWeekdayFormat, User.setPropShortDateFormat,
         User.emitPropChangedShortDateFormat, User.setPropLongDateFormat,
         User.emitPropChangedLongDateFormat, User.setPropShortTimeFormat,
         User.emitPropChangedShortTimeFormat, User.setPropLongTimeFormat,
         User.emitPropChangedLongTimeFormat, User.setPropWeekBegins,
         User.emitPropChangedWeekBegins, User.setPropDesktopBackgrounds,
         User.emitPropChangedDesktopBackgrounds, User.setPropGroups, User.emitPropChangedGroups,
         User.setPropGreeterBackground, User.emitPropChangedGreeterBackground,
         User.setPropXSession, User.emitPropChangedXSession, User.setPropPasswordStatus,
         User.emitPropChangedPasswordStatus, User.setPropMaxPasswordAge,
         User.emitPropChangedMaxPasswordAge, User.setPropPasswordLastChange,
         User.emitPropChangedPasswordLastChange, User.setPropLocked, User.emitPropChangedLocked,
         User.setPropAutomaticLogin, User.emitPropChangedAutomaticLogin, User.setPropWorkspace,
         User.emitPropChangedWorkspace, User.setPropSystemAccount,
         User.emitPropChangedSystemAccount, User.setPropNoPasswdLogin,
         User.emitPropChangedNoPasswdLogin, User.setPropAccountType,
         User.emitPropChangedAccountType, User.setPropLoginTime, User.emitPropChangedLoginTime,
         User.setPropCreatedTime, User.emitPropChangedCreatedTime, User.setPropIconList,
         User.emitPropChangedIconList, User.setPropHistoryLayout,
         User.emitPropChangedHistoryLayout, Manager.setPropAllowGuest,
         Manager.emitPropChangedAllowGuest, Manager.setPropGroupList,
         Manager.emitPropChangedGroupList, Manager.setPropIsTerminalLocked,
         Manager.emitPropChangedIsTerminalLocked,
         Service.EmitPropertyChanged]
       simp [h, hrefl])
    | (intro u value service
       simp [emittedTwiceUncond, User.setPropUserName, User.emitPropChangedUserName, User.setPropUUID,
         User.emitPropChangedUUID, User.setPropFullName, User.emitPropChangedFullName,
         User.setPropUid, User.emitPropChangedUid, User.setPropGid, User.emitPropChangedGid,
         User.setPropHomeDir, User.emitPropChangedHomeDir, User.setPropShell,
         User.emitPropChangedShell, User.setPropLocale, User.emitPropChangedLocale,
         User.setPropLayout, User.emitPropChangedLayout, User.setPropIconFile,
         User.emitPropChangedIconFile, User.setPropPasswordHint,
         User.emitPropChangedPasswordHint, User.setPropUse24HourFormat,
         User.emitPropChangedUse24HourFormat, User.setPropWeekdayFormat,
         User.emitPropChangedWeekdayFormat, User.setPropShortDateFormat,
         User.emitPropChangedShortDateFormat, User.setPropLongDateFormat,
         User.emitPropChangedLongDateFormat, User.setPropShortTimeFormat,
         User.emitPropChangedShortTimeFormat, User.setPropLongTimeFormat,
         User.emitPropChangedLongTimeFormat, User.setPropWeekBegins,
         User.emitPropChangedWeekBegins, User.setPropDesktopBackgrounds,
         User.emitPropChangedDesktopBackgrounds, User.setPropGroups, User.emitPropChangedGroups,
         User.setPropGreeterBackground, User.emitPropChangedGreeterBackground,
         User.setPropXSession, User.emitPropChangedXSession, User.setPropPasswordStatus,
         User.emitPropChangedPasswordStatus, User.setPropMaxPasswordAge,
         User.emitPropChangedMaxPasswordAge, User.setPropPasswordLastChange,
         User.emitPropChangedPasswordLastChange, User.setPropLocked, User.emitPropChangedLocked,
         User.setPropAutomaticLogin, User.emitPropChangedAutomaticLogin, User.setPropWorkspace,
         User.emitPropChangedWorkspace, User.setPropSystemAccount,
         User.emitPropChangedSystemAccount, User.setPropNoPasswdLogin,
         User.emitPropChangedNoPasswdLogin, User.setPropAccountType,
         User.emitPropChangedAccountType, User.setPropLoginTime, User.emitPropChangedLoginTime,
         User.setPropCreatedTime, User.emitPropChangedCreatedTime, User.setPropIconList,
         User.emitPropChangedIconList, User.setPropHistoryLayout,
         User.emitPropChangedHistoryLayout, Manager.setPropAllowGuest,
         Manager.emitPropChangedAllowGuest, Manager.setPropGroupList,
         Manager.emitPropChangedGroupList, Manager.setPropIsTerminalLocked,
         Manager.emitPropChangedIsTerminalLocked,
         Service.EmitPropertyChanged])

/-- C2 as amended at concrete inputs: UserName set twice to alice, and Groups set
twice to a new group list under the order-insensitive comparison. -/
theorem setters_repeat_emission_witness :
    (zeroUser.UserName ≠ "alice" ∧
      (emittedTwice User.setPropUserName zeroUser "alice" ⟨[]⟩).1.length = 1 ∧
      (emittedTwice User.setPropUserName zeroUser "alice" ⟨[]⟩).2 = []) ∧
    (isStrvEqual zeroUser.Groups ["sudo", "lp"] = false ∧
      (emittedTwice (User.setPropGroups isStrvEqual) zeroUser ["sudo", "lp"] ⟨[]⟩).1.length = 1 ∧
      (emittedTwice (User.setPropGroups isStrvEqual) zeroUser ["sudo", "lp"] ⟨[]⟩).2 = []) :=
  ⟨⟨by decide, setters_repeat_emission.1 zeroUser "alice" ⟨[]⟩ (by decide)⟩,
   ⟨by decide,
    setters_repeat_emission.2.2.2.2.2.2.2.2.2.2.2.2.2.2.2.2.2.2.2.2.2.2.2.2.2.2.2.2.2.2.2.2.2.1
      isStrvEqual isStrvEqual_refl zeroUser ["sudo", "lp"] ⟨[]⟩ (by decide)⟩⟩

end accounts

namespace sessionwatcher

theorem getActiveSessionLoop_some (login : Login1) (sessions : List (String × Session))
    (s : Session) (h : getActiveSessionLoop login sessions = some s) :
    s ∈ sessions.map Prod.snd ∧ login.Active s = .ok true := by
  induction sessions with
  | nil => simp [getActiveSessionLoop] at h
  | cons entry rest ih =>
    obtain ⟨id, session⟩ := entry
    simp only [getActiveSessionLoop] at h
    cases hA : login.Active session with
    | error e =>
      rw [hA] at h
      have := ih h
      exact ⟨by simp [this.1], this.2⟩
    | ok active =>
      rw [hA] at h
      cases active with
      | true =>
        simp at h
        subst h
        exact ⟨by simp, hA⟩
      | false =>
        simp at h
        have := ih h
        exact ⟨by simp [this.1], this.2⟩

theorem getActiveSessionLoop_none (login : Login1) (sessions : List (String × Session)) :
    getActiveSessionLoop login sessions = none ↔
      ∀ s ∈ sessions.map Prod.snd, login.Active s ≠ .ok true := by
  induction sessions with
  | nil => simp [getActiveSessionLoop]
  | cons entry rest ih =>
    obtain ⟨id, session⟩ := entry
    simp only [getActiveSessionLoop]
    cases hA : login.Active session with
    | error e =>
      simp only [List.map_cons, List.mem_cons, forall_eq_or_imp]
      rw [ih]
      simp [hA]
    | ok active =>
      cases active with
      | true => simp [hA]
      | false =>
        simp only [List.map_cons, List.mem_cons, forall_eq_or_imp]
        simp only [Bool.false_eq_true, if_false]
        rw [ih]
        simp [hA]

theorem getActiveSession_isSome_iff (m : Manager) (login : Login1) :
    (∃ s, m.getActiveSession login = some s) ↔
      ∃ s ∈ m.sessions.map Prod.snd, login.Active s = .ok true := by
  constructor
  · rintro ⟨s, hs⟩
    exact ⟨s, getActiveSessionLoop_some login m.sessions s hs⟩
  · rintro ⟨s, hs, ha⟩
    cases h : m.getActiveSession login with
    | some t => exact ⟨t, rfl⟩
    | none =>
      exact absurd ha ((getActiveSessionLoop_none login m.sessions).1 h s hs)

/-- C3: getActiveSession returns at most one session; a returned session is
tracked and its Active read succeeded with value true; no session is returned
exactly when no tracked session has a successful Active read equal to true
(a failed read is skipped). -/
theorem getActiveSession_spec (m : Manager) (login : Login1) :
    (m.getActiveSession login).toList.length ≤ 1 ∧
    (∀ s, m.getActiveSession login = some s →
      s ∈ m.sessions.map Prod.snd ∧ login.Active s = .ok true) ∧
    (m.getActiveSession login = none ↔
      ∀ s ∈ m.sessions.map Prod.snd, login.Active s ≠ .ok true) :=
  ⟨by cases m.getActiveSession login <;> simp,
   fun s h => getActiveSessionLoop_some login m.sessions s h,
   getActiveSessionLoop_none login m.sessions⟩

/-- C3 at a concrete input: the read on the first session fails, the second
session is active and is the one returned. -/
theorem getActiveSession_spec_witness :
    demoManager.getActiveSession demoLogin = some ⟨"/s2"⟩ ∧
    (⟨"/s2"⟩ : Session) ∈ demoManager.sessions.map Prod.snd ∧
    demoLogin.Active ⟨"/s2"⟩ = .ok true :=
  have h : demoManager.getActiveSession demoLogin = some ⟨"/s2"⟩ := by decide
  ⟨h, (getActiveSession_spec demoManager demoLogin).2.1 ⟨"/s2"⟩ h⟩

/-- C4: with a non-empty tracked-session set, handleSessionChanged compares
isActive = (some tracked session reads Active = true) with the stored IsActive:
if they agree nothing is emitted and no task is started; on a change to true
IsActive becomes true, exactly one emission is made and exactly the tasks
suspendPulseSinks(0), suspendPulseSources(0) and RefreshBrightness are started;
on a change to false IsActive becomes false, exactly one emission is made and
exactly the tasks suspendPulseSinks(1) and suspendPulseSources(1) are
started. -/
theorem handleSessionChanged_spec (m : Manager) (login : Login1) (w : World)
    (hne : m.sessions ≠ []) :
    ((m.IsActive = true ↔ ∃ s ∈ m.sessions.map Prod.snd, login.Active s = .ok true) →
      (m.handleSessionChanged login w).1.IsActive = m.IsActive ∧
      (m.handleSessionChanged login w).2 = w) ∧
    (m.IsActive = false ∧ (∃ s ∈ m.sessions.map Prod.snd, login.Active s = .ok true) →
      (m.handleSessionChanged login w).1.IsActive = true ∧
      (m.handleSessionChanged login w).2.emitted = w.emitted ++ [("IsActive", true)] ∧
      (m.handleSessionChanged login w).2.started = w.started ++
        [Task.suspendPulseSinks 0, Task.suspendPulseSources 0,
          Task.displayRefreshBrightness 0]) ∧
    (m.IsActive = true ∧ ¬ (∃ s ∈ m.sessions.map Prod.snd, login.Active s = .ok true) →
      (m.handleSessionChanged login w).1.IsActive = false ∧
      (m.handleSessionChanged login w).2.emitted = w.emitted ++ [("IsActive", false)] ∧
      (m.handleSessionChanged login w).2.started = w.started ++
        [Task.suspendPulseSinks 1, Task.suspendPulseSources 1]) := by
  have hlen : (m.sessions.length == 0) = false := by
    cases hs : m.sessions with
    | nil => exact absurd hs hne
    | cons a l => simp
  rw [← getActiveSession_isSome_iff]
  cases hsess : m.getActiveSession login with
  | none =>
    have hex : ¬ ∃ s, (none : Option Session) = some s := by simp
    cases hact : m.IsActive <;>
      simp [Manager.handleSessionChanged, Manager.setIsActive, hlen, hsess, hact]
  | some s =>
    have hex : ∃ t, some s = some t := ⟨s, rfl⟩
    cases hact : m.IsActive <;>
      simp [Manager.handleSessionChanged, Manager.setIsActive, hlen, hsess, hact]

/-- C4 at a concrete input: an inactive manager with an active tracked session
becomes active, emits once and starts the three resume tasks. -/
theorem handleSessionChanged_spec_witness :
    demoManager.sessions ≠ [] ∧
    (demoManager.IsActive = false ∧
      ∃ s ∈ demoManager.sessions.map Prod.snd, demoLogin.Active s = .ok true) ∧
    (demoManager.handleSessionChanged demoLogin ⟨[], []⟩).1.IsActive = true ∧
    (demoManager.handleSessionChanged demoLogin ⟨[], []⟩).2.emitted = [("IsActive", true)] ∧
    (demoManager.handleSessionChanged demoLogin ⟨[], []⟩).2.started =
      [Task.suspendPulseSinks 0, Task.suspendPulseSources 0, Task.displayRefreshBrightness 0] :=
  have hne : demoManager.sessions ≠ [] := by decide
  have hpre : demoManager.IsActive = false ∧
      ∃ s ∈ demoManager.sessions.map Prod.snd, demoLogin.Active s = .ok true :=
    ⟨rfl, ⟨"/s2"⟩, by decide, rfl⟩
  ⟨hne, hpre, (handleSessionChanged_spec demoManager demoLogin ⟨[], []⟩ hne).2.1 hpre⟩

end sessionwatcher

namespace bluetooth

theorem lookup_mapSet_self {β : Type} (m : List (ObjectPath × β)) (k : ObjectPath) (v : β) :
    (mapSet m k v).lookup k = some v := by
  induction m with
  | nil => simp [mapSet, List.lookup]
  | cons e rest ih =>
    obtain ⟨k', v'⟩ := e
    by_cases h : k' = k
    · simp [mapSet, h, List.lookup]
    · have h' : (k == k') = false := by
        simp only [beq_eq_false_iff_ne, ne_eq]
        exact fun hh => h hh.symm
      simp [mapSet, h, List.lookup, h', ih]

theorem modifyAdapter_devices (b : Bluetooth) (apath : ObjectPath) (f : adapter → adapter) :
    (b.modifyAdapter apath f).devices = b.devices ∧
    (b.modifyAdapter apath f).backupDevices = b.backupDevices ∧
    (b.modifyAdapter apath f).prepareToConnectedDevice = b.prepareToConnectedDevice := by
  unfold Bluetooth.modifyAdapter
  split <;> simp

theorem getDevice_ok_iff (b : Bluetooth) (dpath : ObjectPath) :
    (∃ d, b.getDevice dpath = .ok d) ↔ ∃ d ∈ b.allDevices, d.Path = dpath := by
  unfold Bluetooth.getDevice
  cases h : b.allDevices.find? (fun d => d.Path == dpath) with
  | none =>
    simp only [List.find?_eq_none] at h
    constructor
    · rintro ⟨d, hd⟩
      cases hd
    · rintro ⟨d, hd, hp⟩
      exact absurd (by simpa using hp) (h d hd)
  | some d =>
    constructor
    · intro _
      exact ⟨d, List.mem_of_find?_eq_some h, by simpa using List.find?_some h⟩
    · intro _
      exact ⟨d, rfl⟩

theorem getBackupDevice_ok (b : Bluetooth) (dpath : ObjectPath) (bd : backupDevice)
    (h : b.getBackupDevice dpath = .ok bd) : bd ∈ b.allBackupDevices ∧ bd.Path = dpath := by
  unfold Bluetooth.getBackupDevice at h
  cases hf : b.allBackupDevices.find? (fun d => d.Path == dpath) with
  | none => rw [hf] at h; cases h
  | some d =>
    rw [hf] at h
    cases h
    exact ⟨List.mem_of_find?_eq_some hf, by simpa using List.find?_some hf⟩

theorem getBackupDevice_ok_iff (b : Bluetooth) (dpath : ObjectPath) :
    (∃ d, b.getBackupDevice dpath = .ok d) ↔ ∃ d ∈ b.allBackupDevices, d.Path = dpath := by
  constructor
  · rintro ⟨d, hd⟩
    exact ⟨d, getBackupDevice_ok b dpath d hd⟩
  · rintro ⟨d, hd, hp⟩
    unfold Bluetooth.getBackupDevice
    cases h : b.allBackupDevices.find? (fun d => d.Path == dpath) with
    | none =>
      simp only [List.find?_eq_none] at h
      exact absurd (by simpa using hp) (h d hd)
    | some d => exact ⟨d, rfl⟩

theorem modifyAdapter_getDevice (b : Bluetooth) (apath : ObjectPath) (f : adapter → adapter)
    (dpath : ObjectPath) : (b.modifyAdapter apath f).getDevice dpath = b.getDevice dpath := by
  simp [Bluetooth.getDevice, Bluetooth.allDevices, (modifyAdapter_devices b apath f).1]

theorem modifyAdapter_getBackupDevice (b : Bluetooth) (apath : ObjectPath)
    (f : adapter → adapter) (dpath : ObjectPath) :
    (b.modifyAdapter apath f).getBackupDevice dpath = b.getBackupDevice dpath := by
  simp [Bluetooth.getBackupDevice, Bluetooth.allBackupDevices, (modifyAdapter_devices b apath f).2.1]

theorem modifyDeviceInSlice_none (dpath : ObjectPath) (f : device → device)
    (ds : List (Option device)) :
    modifyDeviceInSlice dpath f ds = none ↔
      (liveDevices ds).find? (fun d => d.Path == dpath) = none := by
  induction ds with
  | nil => simp [modifyDeviceInSlice, liveDevices]
  | cons x rest ih =>
    cases x with
    | none =>
      simp only [modifyDeviceInSlice, Option.map_eq_none', ih]
      simp [liveDevices]
    | some d =>
      by_cases hp : d.Path = dpath
      · simp [modifyDeviceInSlice, liveDevices, hp]
      · simp only [modifyDeviceInSlice, beq_iff_eq, hp, if_false, Option.map_eq_none', ih]
        simp [liveDevices, hp]

theorem modifyDeviceInSlice_some (dpath : ObjectPath) (f : device → device)
    (hf : ∀ d, (f d).Path = d.Path) (ds ds' : List (Option device)) (d : device)
    (hm : modifyDeviceInSlice dpath f ds = some ds')
    (hd : (liveDevices ds).find? (fun d => d.Path == dpath) = some d) :
    (liveDevices ds').find? (fun d => d.Path == dpath) = some (f d) := by
  induction ds generalizing ds' with
  | nil => simp [modifyDeviceInSlice] at hm
  | cons x rest ih =>
    cases x with
    | none =>
      simp only [modifyDeviceInSlice, Option.map_eq_some'] at hm
      obtain ⟨l, hl, rfl⟩ := hm
      have hd' : (liveDevices rest).find? (fun d => d.Path == dpath) = some d := by
        simpa [liveDevices] using hd
      simpa [liveDevices] using ih l hl hd'
    | some d0 =>
      by_cases hp : d0.Path = dpath
      · simp only [modifyDeviceInSlice, beq_iff_eq, hp, if_true, Option.some.injEq] at hm
        subst hm
        have : d0 = d := by simpa [liveDevices, hp] using hd
        subst this
        simp [liveDevices, hf, hp]
      · simp only [modifyDeviceInSlice, beq_iff_eq, hp, if_false, Option.map_eq_some'] at hm
        obtain ⟨l, hl, rfl⟩ := hm
        have hd' : (liveDevices rest).find? (fun d => d.Path == dpath) = some d := by
          simpa [liveDevices, hp] using hd
        simpa [liveDevices, hp] using ih l hl hd'

theorem find_modifyDeviceInMap (dpath : ObjectPath) (f : device → device)
    (hf : ∀ d, (f d).Path = d.Path) (m : List (ObjectPath × List (Option device))) (d : device)
    (hd : ((m.map (fun e => liveDevices e.2)).flatten).find? (fun d => d.Path == dpath) = some d) :
    (((modifyDeviceInMap dpath f m).map (fun e => liveDevices e.2)).flatten).find?
      (fun d => d.Path == dpath) = some (f d) := by
  induction m with
  | nil => simp at hd
  | cons e rest ih =>
    obtain ⟨k, ds⟩ := e
    simp only [List.map_cons, List.flatten_cons, List.find?_append] at hd
    cases hm : modifyDeviceInSlice dpath f ds with
    | none =>
      have hnone := (modifyDeviceInSlice_none dpath f ds).1 hm
      rw [hnone] at hd
      simp only [Option.none_or] at hd
      simp only [modifyDeviceInMap, hm, List.map_cons, List.flatten_cons, List.find?_append,
        hnone, Option.none_or]
      exact ih hd
    | some ds' =>
      cases hfind : (liveDevices ds).find? (fun d => d.Path == dpath) with
      | none =>
        rw [(modifyDeviceInSlice_none dpath f ds).2 hfind] at hm
        cases hm
      | some d0 =>
        rw [hfind] at hd
        have hd0 : d0 = d := by simpa using hd
        subst hd0
        simp [modifyDeviceInMap, hm, List.find?_append,
          modifyDeviceInSlice_some dpath f hf ds ds' d0 hm hfind]

theorem getDevice_modifyDevice (b : Bluetooth) (dpath : ObjectPath) (f : device → device)
    (hf : ∀ d, (f d).Path = d.Path) (d : device) (hd : b.getDevice dpath = .ok d) :
    (b.modifyDevice dpath f).getDevice dpath = .ok (f d) := by
  unfold Bluetooth.getDevice at hd ⊢
  cases hfind : b.allDevices.find? (fun d => d.Path == dpath) with
  | none => rw [hfind] at hd; cases hd
  | some d0 =>
    rw [hfind] at hd
    have hd0 : d0 = d := by
      injection hd
    subst hd0
    have := find_modifyDeviceInMap dpath f hf b.devices d0 hfind
    simp only [Bluetooth.allDevices, Bluetooth.modifyDevice]
    rw [this]

theorem getDevice_ok_path (b : Bluetooth) (dpath : ObjectPath) (d : device)
    (hd : b.getDevice dpath = .ok d) : d ∈ b.allDevices ∧ d.Path = dpath := by
  unfold Bluetooth.getDevice at hd
  cases hf : b.allDevices.find? (fun d => d.Path == dpath) with
  | none => rw [hf] at hd; cases hd
  | some d' =>
    rw [hf] at hd
    have hdd : d' = d := by injection hd
    subst hdd
    exact ⟨List.mem_of_find?_eq_some hf, by simpa using List.find?_some hf⟩

/-- C5: for an adapter path present in the registry, GetDevices returns the
marshaling of the backup list stored for the path when the adapter's
discovery-timed-out flag is set and the marshaling of the live device list
when the flag is clear, with no fault, and changes neither list (nor anything
else). -/
theorem GetDevices_spec (b : Bluetooth) (marshalBackupDevices : List backupDevice → String)
    (marshalDevices : List (Option device) → String) (apath : ObjectPath) (a : adapter)
    (ha : b.adapters.lookup apath = some a) :
    (a.discoveringTimeoutFlag = true →
      (b.GetDevices marshalBackupDevices marshalDevices apath).1 =
        (marshalBackupDevices (mapGetSlice b.backupDevices apath), none)) ∧
    (a.discoveringTimeoutFlag = false →
      (b.GetDevices marshalBackupDevices marshalDevices apath).1 =
        (marshalDevices (mapGetSlice b.devices apath), none)) ∧
    (b.GetDevices marshalBackupDevices marshalDevices apath).2 = b := by
  refine ⟨?_, ?_, ?_⟩
  · intro hf
    simp [Bluetooth.GetDevices, ha, hf]
  · intro hf
    simp [Bluetooth.GetDevices, ha, hf]
  · simp only [Bluetooth.GetDevices, ha]
    split <;> rfl

/-- C5 at a concrete input: the adapter timed out, so the stale backup entry is
what GetDevices marshals although two live devices are known. -/
theorem GetDevices_spec_witness :
    demoBluetooth.adapters.lookup "/hci0" = some demoAdapter ∧
    demoAdapter.discoveringTimeoutFlag = true ∧
    (demoBluetooth.GetDevices demoMarshalBackupDevices demoMarshalDevices "/hci0").1 =
      (demoMarshalBackupDevices (mapGetSlice demoBluetooth.backupDevices "/hci0"), none) :=
  have ha : demoBluetooth.adapters.lookup "/hci0" = some demoAdapter := by decide
  ⟨ha, rfl,
    (GetDevices_spec demoBluetooth demoMarshalBackupDevices demoMarshalDevices "/hci0"
      demoAdapter ha).1 rfl⟩

/-- C7: when the pending-connect callback has run, the host-unreachable
notification has been produced exactly once, with the alias of the backup entry
found for the pending path, if the pending path is not among the live devices
and is in the backup; it has not been produced if the pending path is among the
live devices or is not in the backup; the backup collection is empty in every
case. -/
theorem scanReadyToConnectDeviceTimeout_fire (b : Bluetooth) (apath : ObjectPath) (w : World) :
    ((¬ (∃ d ∈ b.allDevices, d.Path = b.prepareToConnectedDevice) ∧
        (∃ bd ∈ b.allBackupDevices, bd.Path = b.prepareToConnectedDevice)) →
      ∃ bd, b.getBackupDevice b.prepareToConnectedDevice = .ok bd ∧
        bd ∈ b.allBackupDevices ∧ bd.Path = b.prepareToConnectedDevice ∧
        (b.scanReadyToConnectDeviceTimeoutFunc apath w).2.notified = w.notified ++ [bd.Alias]) ∧
    (((∃ d ∈ b.allDevices, d.Path = b.prepareToConnectedDevice) ∨
        ¬ (∃ bd ∈ b.allBackupDevices, bd.Path = b.prepareToConnectedDevice)) →
      (b.scanReadyToConnectDeviceTimeoutFunc apath w).2.notified = w.notified) ∧
    (b.scanReadyToConnectDeviceTimeoutFunc apath w).1.backupDevices = [] := by
  rw [← getDevice_ok_iff, ← getBackupDevice_ok_iff]
  simp only [Bluetooth.scanReadyToConnectDeviceTimeoutFunc, modifyAdapter_getDevice,
    modifyAdapter_getBackupDevice, (modifyAdapter_devices b apath _).2.2]
  refine ⟨?_, ?_, trivial⟩
  · rintro ⟨hno, bd, hbd⟩
    refine ⟨bd, hbd, (getBackupDevice_ok b _ bd hbd).1, (getBackupDevice_ok b _ bd hbd).2, ?_⟩
    cases hd : b.getDevice b.prepareToConnectedDevice with
    | ok d => exact absurd ⟨d, hd⟩ hno
    | error e => simp [hbd]
  · intro h
    cases hd : b.getDevice b.prepareToConnectedDevice with
    | ok d => simp
    | error e =>
      cases hb : b.getBackupDevice b.prepareToConnectedDevice with
      | error e2 => simp
      | ok bd =>
        rcases h with ⟨d, h⟩ | h
        · rw [hd] at h; cases h
        · exact absurd ⟨bd, hb⟩ h

/-- C7 at a concrete input: the pending device is known to the backup only, so
one notification with the backup alias is produced. -/
theorem scanReadyToConnectDeviceTimeout_fire_witness :
    (¬ (∃ d ∈ demoBluetooth.allDevices, d.Path = demoBluetooth.prepareToConnectedDevice) ∧
      (∃ bd ∈ demoBluetooth.allBackupDevices,
        bd.Path = demoBluetooth.prepareToConnectedDevice)) ∧
    ∃ bd, demoBluetooth.getBackupDevice demoBluetooth.prepareToConnectedDevice = .ok bd ∧
      bd ∈ demoBluetooth.allBackupDevices ∧ bd.Path = demoBluetooth.prepareToConnectedDevice ∧
      (demoBluetooth.scanReadyToConnectDeviceTimeoutFunc "/hci0" ⟨[], [], []⟩).2.notified =
        [] ++ [bd.Alias] :=
  have h : ¬ (∃ d ∈ demoBluetooth.allDevices, d.Path = demoBluetooth.prepareToConnectedDevice) ∧
      (∃ bd ∈ demoBluetooth.allBackupDevices,
        bd.Path = demoBluetooth.prepareToConnectedDevice) := by
    decide
  ⟨h, (scanReadyToConnectDeviceTimeout_fire demoBluetooth "/hci0" ⟨[], [], []⟩).1 h⟩

/-- C8: ConnectDevice(dpath, apath) on a known device records dpath as the
pending marker, dispatches one connect task for it and does nothing else (no
remote call, no adapter or timer change); on an unknown device with a known
adapter it records dpath as the pending marker, runs startDiscovery on that
adapter (one start-discovery call), sets the pending-connect timer to one
second and dispatches no connect; no fault is returned in either case. -/
theorem ConnectDevice_spec (b : Bluetooth) (bluez : BlueZ) (dpath apath : ObjectPath)
    (w : World) :
    ((∃ d ∈ b.allDevices, d.Path = dpath) →
      b.ConnectDevice bluez dpath apath w =
        (.returned none, { b with prepareToConnectedDevice := dpath },
          { w with spawned := w.spawned ++ [Task.deviceConnect dpath] })) ∧
    (∀ a, ¬ (∃ d ∈ b.allDevices, d.Path = dpath) → b.adapters.lookup apath = some a →
      (b.ConnectDevice bluez dpath apath w).1 = .returned none ∧
      (b.ConnectDevice bluez dpath apath w).2.1.prepareToConnectedDevice = dpath ∧
      (b.ConnectDevice bluez dpath apath w).2.1.adapters.lookup apath =
        some { (a.startDiscovery bluez w).1 with
              scanReadyToConnectDeviceTimeoutFlag := true,
              scanReadyToConnectDeviceTimeout := ⟨some (1 * Second)⟩ } ∧
      (b.ConnectDevice bluez dpath apath w).2.2 = (a.startDiscovery bluez w).2 ∧
      (b.ConnectDevice bluez dpath apath w).2.2.calls = w.calls ++ [.StartDiscovery a.Path] ∧
      (b.ConnectDevice bluez dpath apath w).2.2.spawned = w.spawned) := by
  refine ⟨?_, ?_⟩
  · intro hex
    obtain ⟨d, hd⟩ := (getDevice_ok_iff b dpath).2 hex
    have hp : d.Path = dpath := (getDevice_ok_path b dpath d hd).2
    simp [Bluetooth.ConnectDevice, hd, hp]
  · intro a hno hl
    cases hd : b.getDevice dpath with
    | ok d => exact absurd ((getDevice_ok_iff b dpath).1 ⟨d, hd⟩) hno
    | error e =>
      have hcalls : (a.startDiscovery bluez w).2.calls = w.calls ++ [.StartDiscovery a.Path] := by
        simp only [adapter.startDiscovery, World.call]
        split <;> rfl
      have hsp : (a.startDiscovery bluez w).2.spawned = w.spawned := by
        simp only [adapter.startDiscovery, World.call]
        split <;> rfl
      simp only [Bluetooth.ConnectDevice, hd, Bluetooth.getAdapter, hl, lookup_mapSet_self,
        hcalls, hsp, Timer.Reset, defaultFindDeviceTimeout]
      simp

/-- C8 at concrete inputs: a known device is connected directly; an unknown one
on a known adapter starts discovery. -/
theorem ConnectDevice_spec_witness :
    ((∃ d ∈ demoBluetooth.allDevices, d.Path = "/hci0/dev_A") ∧
      demoBluetooth.ConnectDevice demoBlueZ "/hci0/dev_A" "/hci0" ⟨[], [], []⟩ =
        (.returned none, { demoBluetooth with prepareToConnectedDevice := "/hci0/dev_A" },
          { (⟨[], [], []⟩ : World) with
            spawned := ([] : List Task) ++ [Task.deviceConnect "/hci0/dev_A"] })) ∧
    (¬ (∃ d ∈ demoBluetooth.allDevices, d.Path = "/hci0/dev_Q") ∧
      demoBluetooth.adapters.lookup "/hci0" = some demoAdapter ∧
      (demoBluetooth.ConnectDevice demoBlueZ "/hci0/dev_Q" "/hci0" ⟨[], [], []⟩).2.2.calls =
        [] ++ [.StartDiscovery demoAdapter.Path]) :=
  have h1 : ∃ d ∈ demoBluetooth.allDevices, d.Path = "/hci0/dev_A" := by decide
  have h2 : ¬ (∃ d ∈ demoBluetooth.allDevices, d.Path = "/hci0/dev_Q") := by decide
  have h3 : demoBluetooth.adapters.lookup "/hci0" = some demoAdapter := by decide
  ⟨⟨h1, (ConnectDevice_spec demoBluetooth demoBlueZ "/hci0/dev_A" "/hci0" ⟨[], [], []⟩).1 h1⟩,
   ⟨h2, h3,
    ((ConnectDevice_spec demoBluetooth demoBlueZ "/hci0/dev_Q" "/hci0" ⟨[], [], []⟩).2
      demoAdapter h2 h3).2.2.2.2.1⟩⟩

/-- C9: RemoveDevice(apath, dpath) with a known adapter and a known device: if
the device state is Connecting no remote call is issued (nothing outside the
registry changes), the needs-removal mark of the device is set and no fault is
returned; otherwise exactly one remote RemoveDevice call for dpath is issued on
that adapter, the registry (the mark included) is left as it was, and a fault
is returned if and only if that call fails. -/
theorem RemoveDevice_spec (b : Bluetooth) (bluez : BlueZ) (apath dpath : ObjectPath) (w : World)
    (a : adapter) (d : device) (ha : b.getAdapter apath = .ok a)
    (hd : b.getDevice dpath = .ok d) :
    (d.getState = deviceStateConnecting →
      (b.RemoveDevice bluez apath dpath w).1 = none ∧
      (b.RemoveDevice bluez apath dpath w).2.2 = w ∧
      (b.RemoveDevice bluez apath dpath w).2.1.getDevice dpath =
        .ok { d with needRemove := true }) ∧
    (d.getState ≠ deviceStateConnecting →
      (b.RemoveDevice bluez apath dpath w).2.2 =
        { w with calls := w.calls ++ [.RemoveDevice a.Path dpath] } ∧
      (b.RemoveDevice bluez apath dpath w).2.1 = b ∧
      ((b.RemoveDevice bluez apath dpath w).1 ≠ none ↔
        bluez.err w.calls (.RemoveDevice a.Path dpath) ≠ none)) := by
  refine ⟨?_, ?_⟩
  · intro hs
    have hs' : (d.getState == deviceStateConnecting) = true := by simpa using hs
    simp only [Bluetooth.RemoveDevice, ha, hd, hs', if_true, true_and]
    exact getDevice_modifyDevice b dpath (fun d => d.markNeedRemove true) (fun _ => rfl) d hd
  · intro hs
    have hs' : (d.getState == deviceStateConnecting) = false := by simpa using hs
    simp only [Bluetooth.RemoveDevice, ha, hd, hs', World.call]
    cases herr : bluez.err w.calls (.RemoveDevice a.Path dpath) <;> simp

/-- C9 at concrete inputs: the connecting device is only marked, the
disconnected one is removed by one remote call. -/
theorem RemoveDevice_spec_witness :
    (demoBluetooth.getAdapter "/hci0" = .ok demoAdapter ∧
      demoBluetooth.getDevice "/hci0/dev_B" = .ok demoConnecting ∧
      demoConnecting.getState = deviceStateConnecting ∧
      (demoBluetooth.RemoveDevice demoBlueZ "/hci0" "/hci0/dev_B" ⟨[], [], []⟩).1 = none ∧
      (demoBluetooth.RemoveDevice demoBlueZ "/hci0" "/hci0/dev_B" ⟨[], [], []⟩).2.2 =
        ⟨[], [], []⟩ ∧
      (demoBluetooth.RemoveDevice demoBlueZ "/hci0" "/hci0/dev_B" ⟨[], [], []⟩).2.1.getDevice
        "/hci0/dev_B" = .ok { demoConnecting with needRemove := true }) ∧
    (demoBluetooth.getDevice "/hci0/dev_A" = .ok demoDevice ∧
      demoDevice.getState ≠ deviceStateConnecting ∧
      (demoBluetooth.RemoveDevice demoBlueZ "/hci0" "/hci0/dev_A" ⟨[], [], []⟩).2.2 =
        { (⟨[], [], []⟩ : World) with
          calls := ([] : List RemoteCall) ++ [.RemoveDevice demoAdapter.Path "/hci0/dev_A"] }) :=
  have ha : demoBluetooth.getAdapter "/hci0" = .ok demoAdapter := rfl
  have hb : demoBluetooth.getDevice "/hci0/dev_B" = .ok demoConnecting := rfl
  have hd : demoBluetooth.getDevice "/hci0/dev_A" = .ok demoDevice := rfl
  have hs : demoDevice.getState ≠ deviceStateConnecting := by decide
  ⟨⟨ha, hb, rfl,
    (RemoveDevice_spec demoBluetooth demoBlueZ "/hci0" "/hci0/dev_B" ⟨[], [], []⟩
      demoAdapter demoConnecting ha hb).1 rfl⟩,
   ⟨hd, hs,
    ((RemoveDevice_spec demoBluetooth demoBlueZ "/hci0" "/hci0/dev_A" ⟨[], [], []⟩
      demoAdapter demoDevice ha hd).2 hs).1⟩⟩

end bluetooth

namespace gesture

/-- C10 fails when the read of the current session path fails: with the enabled
flag false Exec then returns the read error instead of returning without
error. -/
theorem Exec_disabled_session_read_fails :
    demoDisabled.enabled = false ∧
    demoDisabled.Exec demoEnvNoSession "swipe" "up" 3 ⟨[], []⟩ =
      (some (.sessionPath "no session"), ⟨[], []⟩) := by
  decide

/-- C10 as amended: when the read of the current session path succeeds, Exec
with the enabled flag false, or with the session inactive, performs no action
and returns without error for every input; when that read fails, Exec performs
no action and returns the read error, whatever the flag. -/
theorem Exec_gating (m : Manager) (env : Env) (name direction : String) (fingers : Int)
    (w : World) :
    (∀ currentSessionPath, env.CurrentSessionPath = .ok currentSessionPath →
      (m.enabled = false ∨ env.isSessionActive currentSessionPath = false) →
      m.Exec env name direction fingers w = (none, w)) ∧
    (∀ err, env.CurrentSessionPath = .error err →
      m.Exec env name direction fingers w = (some (.sessionPath err), w)) := by
  refine ⟨?_, ?_⟩
  · intro p hp h
    rcases h with h | h <;> simp [Manager.Exec, hp, h]
  · intro err herr
    simp [Manager.Exec, herr]

/-- C10 as amended at concrete inputs: an enabled manager in an inactive session
does nothing and returns no error; a failed session read is returned. -/
theorem Exec_gating_witness :
    (demoEnvInactive.CurrentSessionPath = .ok "/org/freedesktop/login1/session/_31" ∧
      demoEnvInactive.isSessionActive "/org/freedesktop/login1/session/_31" = false ∧
      demoEnabled.Exec demoEnvInactive "swipe" "up" 3 ⟨[], []⟩ = (none, ⟨[], []⟩)) ∧
    (demoEnvNoSession.CurrentSessionPath = .error "no session" ∧
      demoEnabled.Exec demoEnvNoSession "swipe" "up" 3 ⟨[], []⟩ =
        (some (.sessionPath "no session"), ⟨[], []⟩)) :=
  ⟨⟨rfl, rfl, (Exec_gating demoEnabled demoEnvInactive "swipe" "up" 3 ⟨[], []⟩).1 _ rfl
      (Or.inr rfl)⟩,
   ⟨rfl, (Exec_gating demoEnabled demoEnvNoSession "swipe" "up" 3 ⟨[], []⟩).2 _ rfl⟩⟩

end gesture

namespace bluetooth

theorem getAdapter_of_lookup_none (b : Bluetooth) (apath : ObjectPath)
    (h : b.adapters.lookup apath = none) : b.getAdapter apath = .error "adapter not exists" := by
  simp [Bluetooth.getAdapter, h]

theorem getAdapter_of_lookup_some (b : Bluetooth) (apath : ObjectPath) (a : adapter)
    (h : b.adapters.lookup apath = some a) : b.getAdapter apath = .ok a := by
  simp [Bluetooth.getAdapter, h]

theorem getDevice_of_unknown (b : Bluetooth) (dpath : ObjectPath)
    (h : ¬ ∃ d ∈ b.allDevices, d.Path = dpath) :
    b.getDevice dpath = .error "device not exists" := by
  unfold Bluetooth.getDevice
  cases hf : b.allDevices.find? (fun d => d.Path == dpath) with
  | none => rfl
  | some d =>
    exact absurd ⟨d, List.mem_of_find?_eq_some hf, by simpa using List.find?_some hf⟩ h

/-- C11 fails for GetDevices: with an adapter path unknown to the registry it
returns the empty string and no fault. -/
theorem GetDevices_unknown_adapter_no_fault :
    demoBluetooth.adapters.lookup "/hci7" = none ∧
    (demoBluetooth.GetDevices demoMarshalBackupDevices demoMarshalDevices "/hci7").1 =
      ("", none) := by
  decide

/-- C11 as amended: with an adapter path unknown to the registry, each of
RemoveDevice, RequestDiscovery, SetAdapterPowered, SetAdapterAlias,
SetAdapterDiscoverable, SetAdapterDiscovering and SetAdapterDiscoverableTimeout
returns a fault and changes nothing (no remote call), while GetDevices returns
the empty string and no fault; with a device path unknown to the registry, each
of DisconnectDevice, RemoveDevice, SetDeviceAlias and SetDeviceTrusted returns a
fault and changes nothing; ConnectDevice on a known device returns no fault and
issues no remote call whatever the adapter path. -/
theorem unknown_path_faults (b : Bluetooth) (bluez : BlueZ) (apath dpath : ObjectPath)
    (w : World) (cfg : config) :
    (b.adapters.lookup apath = none →
      (∃ e, b.RemoveDevice bluez apath dpath w = (some e, b, w)) ∧
      (∃ e, b.RequestDiscovery bluez apath w = (some e, b, w)) ∧
      (∀ powered, ∃ e, b.SetAdapterPowered bluez apath powered w cfg = (some e, b, w, cfg)) ∧
      (∀ aliasName, ∃ e, b.SetAdapterAlias bluez apath aliasName w = (some e, b, w)) ∧
      (∀ discoverable, ∃ e,
        b.SetAdapterDiscoverable bluez apath discoverable w = (some e, b, w)) ∧
      (∀ discovering, ∃ e,
        b.SetAdapterDiscovering bluez apath discovering w = (some e, b, w)) ∧
      (∀ discoverableTimeout, ∃ e,
        b.SetAdapterDiscoverableTimeout bluez apath discoverableTimeout w = (some e, b, w)) ∧
      (∀ marshalBackupDevices marshalDevices,
        b.GetDevices marshalBackupDevices marshalDevices apath = (("", none), b))) ∧
    ((¬ ∃ d ∈ b.allDevices, d.Path = dpath) →
      (∃ e, b.DisconnectDevice dpath w = (some e, b, w)) ∧
      (∃ e, b.RemoveDevice bluez apath dpath w = (some e, b, w)) ∧
      (∀ aliasName, ∃ e, b.SetDeviceAlias bluez dpath aliasName w = (some e, b, w)) ∧
      (∀ trusted, ∃ e, b.SetDeviceTrusted bluez dpath trusted w = (some e, b, w))) ∧
    ((∃ d ∈ b.allDevices, d.Path = dpath) →
      (b.ConnectDevice bluez dpath apath w).1 = .returned none ∧
      (b.ConnectDevice bluez dpath apath w).2.2.calls = w.calls) := by
  refine ⟨?_, ?_, ?_⟩
  · intro h
    have ha := getAdapter_of_lookup_none b apath h
    refine ⟨?_, ?_, ?_, ?_, ?_, ?_, ?_, ?_⟩
    · exact ⟨ToError "adapter not exists", by simp [Bluetooth.RemoveDevice, ha]⟩
    · exact ⟨ToError "adapter not exists", by simp [Bluetooth.RequestDiscovery, ha]⟩
    · intro p; exact ⟨ToError "adapter not exists", by simp [Bluetooth.SetAdapterPowered, ha]⟩
    · intro p; exact ⟨ToError "adapter not exists", by simp [Bluetooth.SetAdapterAlias, ha]⟩
    · intro p; exact ⟨ToError "adapter not exists", by simp [Bluetooth.SetAdapterDiscoverable, ha]⟩
    · intro p; exact ⟨ToError "adapter not exists", by simp [Bluetooth.SetAdapterDiscovering, ha]⟩
    · intro p; exact ⟨ToError "adapter not exists", by simp [Bluetooth.SetAdapterDiscoverableTimeout, ha]⟩
    · intro mb md; simp [Bluetooth.GetDevices, h]
  · intro h
    have hd := getDevice_of_unknown b dpath h
    refine ⟨?_, ?_, ?_, ?_⟩
    · exact ⟨ToError "device not exists", by simp [Bluetooth.DisconnectDevice, hd]⟩
    · cases ha : b.getAdapter apath with
      | error e => exact ⟨ToError e, by simp [Bluetooth.RemoveDevice, ha]⟩
      | ok a => exact ⟨ToError "device not exists", by simp [Bluetooth.RemoveDevice, ha, hd]⟩
    · intro p; exact ⟨ToError "device not exists", by simp [Bluetooth.SetDeviceAlias, hd]⟩
    · intro p; exact ⟨ToError "device not exists", by simp [Bluetooth.SetDeviceTrusted, hd]⟩
  · intro hex
    obtain ⟨d, hd⟩ := (getDevice_ok_iff b dpath).2 hex
    simp [Bluetooth.ConnectDevice, hd]

/-- C11 as amended at concrete inputs: an unknown adapter path makes
SetAdapterAlias fail without a remote call, an unknown device path makes
DisconnectDevice fail. -/
theorem unknown_path_faults_witness :
    (demoBluetooth.adapters.lookup "/hci7" = none ∧
      ∃ e, demoBluetooth.SetAdapterAlias demoBlueZ "/hci7" "desk" ⟨[], [], []⟩ =
        (some e, demoBluetooth, ⟨[], [], []⟩)) ∧
    ((¬ ∃ d ∈ demoBluetooth.allDevices, d.Path = "/hci0/dev_Q") ∧
      ∃ e, demoBluetooth.DisconnectDevice "/hci0/dev_Q" ⟨[], [], []⟩ =
        (some e, demoBluetooth, ⟨[], [], []⟩)) :=
  have h1 : demoBluetooth.adapters.lookup "/hci7" = none := by decide
  have h2 : ¬ ∃ d ∈ demoBluetooth.allDevices, d.Path = "/hci0/dev_Q" := by decide
  ⟨⟨h1, ((unknown_path_faults demoBluetooth demoBlueZ "/hci7" "/hci0/dev_Q" ⟨[], [], []⟩
      ⟨false, []⟩).1 h1).2.2.2.1 "desk"⟩,
   ⟨h2, ((unknown_path_faults demoBluetooth demoBlueZ "/hci7" "/hci0/dev_Q" ⟨[], [], []⟩
      ⟨false, []⟩).2.1 h2).1⟩⟩

end bluetooth

namespace bluetooth

/-- C12: for a known adapter whose mirrored Powered value is false, each of
SetAdapterDiscoverable, SetAdapterDiscovering (true or false) and
RequestDiscovery returns a fault and leaves the registry (flag and timers
included) and the surroundings (no remote call) exactly as they were. -/
theorem powered_off_faults (b : Bluetooth) (bluez : BlueZ) (apath : ObjectPath) (w : World)
    (a : adapter) (ha : b.adapters.lookup apath = some a) (hp : a.Powered = false) :
    (∀ discoverable,
      b.SetAdapterDiscoverable bluez apath discoverable w =
        (some (ToError (powerOffError a)), b, w)) ∧
    (∀ discovering,
      b.SetAdapterDiscovering bluez apath discovering w =
        (some (ToError (powerOffError a)), b, w)) ∧
    b.RequestDiscovery bluez apath w = (some (ToError (powerOffError a)), b, w) := by
  have hg := getAdapter_of_lookup_some b apath a ha
  refine ⟨?_, ?_, ?_⟩
  · intro v; simp [Bluetooth.SetAdapterDiscoverable, hg, hp]
  · intro v; simp [Bluetooth.SetAdapterDiscovering, hg, hp]
  · simp [Bluetooth.RequestDiscovery, hg, hp]

/-- C12 at a concrete input: RequestDiscovery on the powered-off demo adapter. -/
theorem powered_off_faults_witness :
    demoBluetoothOff.adapters.lookup "/hci0" = some demoAdapterOff ∧
    demoAdapterOff.Powered = false ∧
    demoBluetoothOff.RequestDiscovery demoBlueZ "/hci0" ⟨[], [], []⟩ =
      (some (ToError (powerOffError demoAdapterOff)), demoBluetoothOff, ⟨[], [], []⟩) :=
  have ha : demoBluetoothOff.adapters.lookup "/hci0" = some demoAdapterOff := by decide
  ⟨ha, rfl,
    (powered_off_faults demoBluetoothOff demoBlueZ "/hci0" ⟨[], [], []⟩ demoAdapterOff ha
      rfl).2.2⟩

theorem startDiscovery_calls (a : adapter) (bluez : BlueZ) (w : World) :
    (a.startDiscovery bluez w).2 = { w with calls := w.calls ++ [.StartDiscovery a.Path] } := by
  simp only [adapter.startDiscovery, World.call]
  split <;> rfl

/-- C13 fails for the start-discovery call: SetAdapterDiscovering(true) on a
known, powered adapter returns no fault although the remote StartDiscovery call
it issues fails. -/
theorem SetAdapterDiscovering_start_failure_no_fault :
    demoBluetooth.adapters.lookup "/hci0" = some demoAdapter ∧
    demoAdapter.Powered = true ∧
    demoBlueZFailing.err [] (.StartDiscovery "/hci0") = some "org.bluez.Error.Failed" ∧
    (demoBluetooth.SetAdapterDiscovering demoBlueZFailing "/hci0" true ⟨[], [], []⟩).1 = none ∧
    (demoBluetooth.SetAdapterDiscovering demoBlueZFailing "/hci0" true ⟨[], [], []⟩).2.2.calls =
      [.StartDiscovery "/hci0"] := by
  decide

/-- C13 as amended: on a known adapter (powered where the method asks for it) or
a known device, each of SetAdapterPowered, SetAdapterAlias,
SetAdapterDiscoverable, SetAdapterDiscoverableTimeout, SetAdapterDiscovering
with false, SetDeviceAlias, SetDeviceTrusted and RemoveDevice in the
non-connecting case returns the fault of its remote call when that call fails,
having attempted it exactly once; RequestDiscovery does so for its Discovering
read; the start-discovery call that SetAdapterDiscovering with true and
RequestDiscovery issue through startDiscovery is attempted exactly once and its
failure is not returned as a fault. -/
theorem remote_failure_faults (b : Bluetooth) (bluez : BlueZ) (apath dpath : ObjectPath)
    (w : World) (cfg : config) (a : adapter) (ha : b.adapters.lookup apath = some a) :
    (∀ powered e, bluez.err w.calls (.PoweredSet a.Path powered) = some e →
      (b.SetAdapterPowered bluez apath powered w cfg).1 = some (ToError e) ∧
      (b.SetAdapterPowered bluez apath powered w cfg).2.2.1 =
        { w with calls := w.calls ++ [.PoweredSet a.Path powered] }) ∧
    (∀ aliasName e, bluez.err w.calls (.AliasSet a.Path aliasName) = some e →
      b.SetAdapterAlias bluez apath aliasName w =
        (some (ToError e), b, { w with calls := w.calls ++ [.AliasSet a.Path aliasName] })) ∧
    (∀ timeout e, bluez.err w.calls (.DiscoverableTimeoutSet a.Path timeout) = some e →
      b.SetAdapterDiscoverableTimeout bluez apath timeout w =
        (some (ToError e), b,
          { w with calls := w.calls ++ [.DiscoverableTimeoutSet a.Path timeout] })) ∧
    (a.Powered = true →
      (∀ discoverable e, bluez.err w.calls (.DiscoverableSet a.Path discoverable) = some e →
        b.SetAdapterDiscoverable bluez apath discoverable w =
          (some (ToError e), b,
            { w with calls := w.calls ++ [.DiscoverableSet a.Path discoverable] })) ∧
      (∀ e, bluez.err w.calls (.StopDiscovery a.Path) = some e →
        b.SetAdapterDiscovering bluez apath false w =
          (some (ToError e), b, { w with calls := w.calls ++ [.StopDiscovery a.Path] })) ∧
      (∀ e, bluez.err w.calls (.DiscoveringGet a.Path) = some e →
        b.RequestDiscovery bluez apath w =
          (some (ToError e), b, { w with calls := w.calls ++ [.DiscoveringGet a.Path] })) ∧
      ((b.SetAdapterDiscovering bluez apath true w).1 = none ∧
        (b.SetAdapterDiscovering bluez apath true w).2.2 =
          { w with calls := w.calls ++ [.StartDiscovery a.Path] }) ∧
      (bluez.err w.calls (.DiscoveringGet a.Path) = none →
        bluez.Discovering w.calls a.Path = false →
        (b.RequestDiscovery bluez apath w).1 = none ∧
        (b.RequestDiscovery bluez apath w).2.2 =
          { w with calls := w.calls ++ [.DiscoveringGet a.Path, .StartDiscovery a.Path] })) ∧
    (∀ d, b.getDevice dpath = .ok d →
      (∀ aliasName e, bluez.err w.calls (.DeviceAliasSet d.Path aliasName) = some e →
        b.SetDeviceAlias bluez dpath aliasName w =
          (some (ToError e), b,
            { w with calls := w.calls ++ [.DeviceAliasSet d.Path aliasName] })) ∧
      (∀ trusted e, bluez.err w.calls (.DeviceTrustedSet d.Path trusted) = some e →
        b.SetDeviceTrusted bluez dpath trusted w =
          (some (ToError e), b,
            { w with calls := w.calls ++ [.DeviceTrustedSet d.Path trusted] })) ∧
      (d.getState ≠ deviceStateConnecting →
        ∀ e, bluez.err w.calls (.RemoveDevice a.Path dpath) = some e →
          b.RemoveDevice bluez apath dpath w =
            (some (ToError e), b,
              { w with calls := w.calls ++ [.RemoveDevice a.Path dpath] }))) := by
  have hg := getAdapter_of_lookup_some b apath a ha
  refine ⟨?_, ?_, ?_, ?_, ?_⟩
  · intro p e he
    simp [Bluetooth.SetAdapterPowered, hg, World.call, he]
  · intro p e he
    simp [Bluetooth.SetAdapterAlias, hg, World.call, he]
  · intro p e he
    simp [Bluetooth.SetAdapterDiscoverableTimeout, hg, World.call, he]
  · intro hp
    refine ⟨?_, ?_, ?_, ?_, ?_⟩
    · intro p e he
      simp [Bluetooth.SetAdapterDiscoverable, hg, hp, World.call, he]
    · intro e he
      simp [Bluetooth.SetAdapterDiscovering, hg, hp, World.call, he]
    · intro e he
      simp [Bluetooth.RequestDiscovery, hg, hp, World.call, he]
    · simp [Bluetooth.SetAdapterDiscovering, hg, hp, startDiscovery_calls]
    · intro he hdisc
      simp [Bluetooth.RequestDiscovery, hg, hp, World.call, he, hdisc, startDiscovery_calls]
  · intro d hd
    refine ⟨?_, ?_, ?_⟩
    · intro p e he
      simp [Bluetooth.SetDeviceAlias, hd, World.call, he]
    · intro p e he
      simp [Bluetooth.SetDeviceTrusted, hd, World.call, he]
    · intro hs e he
      have hs' : (d.getState == deviceStateConnecting) = false := by simpa using hs
      simp [Bluetooth.RemoveDevice, hg, hd, hs', World.call, he]

/-- C13 as amended at a concrete input: a rejected SetAdapterAlias is returned
as a fault after one attempt. -/
theorem remote_failure_faults_witness :
    demoBluetooth.adapters.lookup "/hci0" = some demoAdapter ∧
    demoBlueZFailing.err [] (.AliasSet demoAdapter.Path "desk") =
      some "org.bluez.Error.Failed" ∧
    demoBluetooth.SetAdapterAlias demoBlueZFailing "/hci0" "desk" ⟨[], [], []⟩ =
      (some (ToError "org.bluez.Error.Failed"), demoBluetooth,
        { (⟨[], [], []⟩ : World) with
          calls := ([] : List RemoteCall) ++ [.AliasSet demoAdapter.Path "desk"] }) :=
  have ha : demoBluetooth.adapters.lookup "/hci0" = some demoAdapter := by decide
  ⟨ha, rfl,
    (remote_failure_faults demoBluetooth demoBlueZFailing "/hci0" "/hci0/dev_A" ⟨[], [], []⟩
      ⟨false, []⟩ demoAdapter ha).2.1 "desk" "org.bluez.Error.Failed" rfl⟩

end bluetooth

namespace bluetooth

/-- C14: startDiscovery, from every adapter state, clears the discovery-timed-out
flag and issues exactly one remote StartDiscovery call; if the call succeeds
the discovery-expiry timer is reset to the fixed 60 seconds, if it fails the
timer is left as it was; every other field of the adapter, the mirrored
Discovering field included, keeps its value. -/
theorem startDiscovery_spec (a : adapter) (bluez : BlueZ) (w : World) :
    (a.startDiscovery bluez w).1.discoveringTimeoutFlag = false ∧
    (a.startDiscovery bluez w).2 = { w with calls := w.calls ++ [.StartDiscovery a.Path] } ∧
    (bluez.err w.calls (.StartDiscovery a.Path) = none →
      (a.startDiscovery bluez w).1.discoveringTimeout = ⟨some (60 * 1000000000)⟩) ∧
    (bluez.err w.calls (.StartDiscovery a.Path) ≠ none →
      (a.startDiscovery bluez w).1.discoveringTimeout = a.discoveringTimeout) ∧
    (a.startDiscovery bluez w).1.Discovering = a.Discovering ∧
    { (a.startDiscovery bluez w).1 with
        discoveringTimeoutFlag := a.discoveringTimeoutFlag,
        discoveringTimeout := a.discoveringTimeout } = a := by
  cases he : bluez.err w.calls (.StartDiscovery a.Path) with
  | none =>
    simp [adapter.startDiscovery, World.call, he, Timer.Reset, defaultDiscoveringTimeout, Minute,
      Second]
  | some e =>
    simp [adapter.startDiscovery, World.call, he]

/-- C14 at concrete inputs: on success the timer is armed with 60 seconds, on
failure the stopped timer stays stopped. -/
theorem startDiscovery_spec_witness :
    (demoBlueZ.err [] (.StartDiscovery demoAdapter.Path) = none ∧
      (demoAdapter.startDiscovery demoBlueZ ⟨[], [], []⟩).1.discoveringTimeout =
        ⟨some (60 * 1000000000)⟩) ∧
    (demoBlueZFailing.err [] (.StartDiscovery demoAdapter.Path) ≠ none ∧
      (demoAdapter.startDiscovery demoBlueZFailing ⟨[], [], []⟩).1.discoveringTimeout =
        demoAdapter.discoveringTimeout) :=
  have h2 : demoBlueZFailing.err [] (.StartDiscovery demoAdapter.Path) ≠ none := by decide
  ⟨⟨rfl, (startDiscovery_spec demoAdapter demoBlueZ ⟨[], [], []⟩).2.2.1 rfl⟩,
   ⟨h2, (startDiscovery_spec demoAdapter demoBlueZFailing ⟨[], [], []⟩).2.2.2.1 h2⟩⟩

theorem modifyAdapter_lookup (b : Bluetooth) (apath : ObjectPath) (f : adapter → adapter)
    (a : adapter) (ha : b.adapters.lookup apath = some a) :
    (b.modifyAdapter apath f).adapters.lookup apath = some (f a) := by
  simp [Bluetooth.modifyAdapter, ha, lookup_mapSet_self]

/-- C15: when the discovery-expiry callback of an adapter has run, whether or
not the remote StopDiscovery call succeeded, the adapter registered under the
path has its timed-out flag set, exactly one StopDiscovery call on that adapter
has been issued after what updateconnectState did, and the pending-connect
marker is empty. -/
theorem discoveringTimeout_fire (b : Bluetooth)
    (updateconnectState : Bluetooth → World → Bluetooth × World)
    (newBackupDevice : device → backupDevice) (bluez : BlueZ) (apath : ObjectPath) (w : World) :
    (∀ a, (updateconnectState b w).1.adapters.lookup apath = some a →
      (b.discoveringTimeoutFunc updateconnectState newBackupDevice bluez apath w).1.adapters.lookup
        apath = some { a with discoveringTimeoutFlag := true }) ∧
    (b.discoveringTimeoutFunc updateconnectState newBackupDevice bluez apath w).2 =
      { (updateconnectState b w).2 with
        calls := (updateconnectState b w).2.calls ++ [.StopDiscovery apath] } ∧
    (b.discoveringTimeoutFunc updateconnectState newBackupDevice bluez apath w).1.prepareToConnectedDevice
      = "" := by
  refine ⟨?_, ?_, ?_⟩
  · intro a ha
    simp only [Bluetooth.discoveringTimeoutFunc]
    exact modifyAdapter_lookup _ apath _ a ha
  · simp [Bluetooth.discoveringTimeoutFunc, World.call]
  · simp [Bluetooth.discoveringTimeoutFunc]

/-- C15 at a concrete input: the scanning demo adapter, with a bluez that rejects
the StopDiscovery call and a connect pending. -/
theorem discoveringTimeout_fire_witness :
    (demoUpdateconnectState demoBluetoothScanning ⟨[], [], []⟩).1.adapters.lookup "/hci0" =
      some demoAdapterScanning ∧
    demoAdapterScanning.discoveringTimeoutFlag = false ∧
    demoBluetoothScanning.prepareToConnectedDevice ≠ "" ∧
    (demoBluetoothScanning.discoveringTimeoutFunc demoUpdateconnectState demoNewBackupDevice
      demoBlueZFailing "/hci0" ⟨[], [], []⟩).1.adapters.lookup "/hci0" =
      some { demoAdapterScanning with discoveringTimeoutFlag := true } :=
  have ha : (demoUpdateconnectState demoBluetoothScanning ⟨[], [], []⟩).1.adapters.lookup
      "/hci0" = some demoAdapterScanning := by decide
  ⟨ha, rfl, by decide,
    (discoveringTimeout_fire demoBluetoothScanning demoUpdateconnectState demoNewBackupDevice
      demoBlueZFailing "/hci0" ⟨[], [], []⟩).1 demoAdapterScanning ha⟩

end bluetooth

namespace bluetooth

theorem digitChar_value (d : Nat) (hd : d < 10) : (Nat.digitChar d).toNat - 48 = d := by
  interval_cases d <;> decide

theorem digitChar_isDigit (d : Nat) (hd : d < 10) : (Nat.digitChar d).isDigit = true := by
  interval_cases d <;> decide

theorem foldr_digits_eq_ofDigits (l : List Nat) (hl : ∀ d ∈ l, d < 10) :
    l.foldr (fun d acc => 10 * acc + ((Nat.digitChar d).toNat - 48)) 0 = Nat.ofDigits 10 l := by
  induction l with
  | nil => simp
  | cons d rest ih =>
    have h1 := digitChar_value d (hl d (List.mem_cons_self _ _))
    have h2 := ih (fun x hx => hl x (List.mem_cons_of_mem _ hx))
    simp only [List.foldr_cons, Nat.ofDigits_cons, h1, h2]
    omega

theorem foldl_zeros (k : Nat) (l : List Char) :
    (List.replicate k '0' ++ l).foldl (fun acc c => 10 * acc + (c.toNat - 48)) 0 =
      l.foldl (fun acc c => 10 * acc + (c.toNat - 48)) 0 := by
  induction k with
  | zero => simp
  | succ k ih =>
    simp only [List.replicate_succ, List.cons_append, List.foldl_cons]
    have : 10 * 0 + (('0' : Char).toNat - 48) = 0 := by decide
    rw [this]
    exact ih

theorem decimalDigits_value (n : Nat) :
    (decimalDigits n).foldl (fun acc c => 10 * acc + (c.toNat - 48)) 0 = n := by
  unfold decimalDigits
  by_cases h : n = 0
  · subst h
    decide
  · simp only [h, if_false, List.foldl_map, List.foldl_reverse]
    have := foldr_digits_eq_ofDigits (Nat.digits 10 n)
      (fun d hd => Nat.digits_lt_base (by norm_num) hd)
    rw [this, Nat.ofDigits_digits]

theorem decimalDigits_length (n : Nat) (hn : n ≤ 999999) :
    1 ≤ (decimalDigits n).length ∧ (decimalDigits n).length ≤ 6 := by
  unfold decimalDigits
  by_cases h : n = 0
  · simp [h]
  · simp only [h, if_false, List.length_map, List.length_reverse]
    constructor
    · have : Nat.digits 10 n ≠ [] := Nat.digits_ne_nil_iff_ne_zero.2 h
      exact List.length_pos.2 this
    · by_contra hlen
      have h7 : 7 ≤ (Nat.digits 10 n).length := by omega
      have hle := Nat.base_pow_length_digits_le 10 n (by norm_num) h
      have hpow : 10 ^ 7 ≤ 10 ^ (Nat.digits 10 n).length :=
        Nat.pow_le_pow_right (by norm_num) h7
      omega

theorem decimalDigits_isDigit (n : Nat) : ∀ c ∈ decimalDigits n, c.isDigit = true := by
  unfold decimalDigits
  by_cases h : n = 0
  · simp [h]
  · simp only [h, if_false, List.mem_map, List.mem_reverse]
    rintro c ⟨d, hd, rfl⟩
    exact digitChar_isDigit d (Nat.digits_lt_base (by norm_num) hd)

theorem decimalValue_Sprintf06d (n : Nat) : decimalValue (Sprintf06d n) = n := by
  simp only [decimalValue, Sprintf06d, zeroPad, foldl_zeros, decimalDigits_value]

/-- C18: for every passkey in 0..999999, FeedPasskey hands feed the device path
and the accept flag unchanged together with a string of exactly six decimal
digits, left-padded with zeros, whose numeric value is the passkey, so that
distinct passkeys of the range give distinct strings; the result of feed is
returned. -/
theorem FeedPasskey_spec (feed : ObjectPath → Bool → String → Option String)
    (devPath : ObjectPath) (accept : Bool) (passkey : Nat) (hp : passkey ≤ 999999) :
    Bluetooth.FeedPasskey feed devPath accept passkey =
      (feed devPath accept (Sprintf06d passkey)).map ToError ∧
    (Sprintf06d passkey).length = 6 ∧
    (∀ c ∈ (Sprintf06d passkey).data, c.isDigit = true) ∧
    decimalValue (Sprintf06d passkey) = passkey ∧
    (∀ other, other ≤ 999999 → Sprintf06d other = Sprintf06d passkey → other = passkey) := by
  have hlen := decimalDigits_length passkey hp
  refine ⟨rfl, ?_, ?_, decimalValue_Sprintf06d passkey, ?_⟩
  · simp only [Sprintf06d, zeroPad, String.length, List.length_append, List.length_replicate]
    omega
  · intro c hc
    simp only [Sprintf06d, zeroPad, List.mem_append, List.mem_replicate] at hc
    rcases hc with ⟨_, rfl⟩ | hc
    · decide
    · exact decimalDigits_isDigit passkey c hc
  · intro other _ heq
    have h1 := decimalValue_Sprintf06d other
    rw [heq, decimalValue_Sprintf06d] at h1
    exact h1.symm

/-- C18 at a concrete input: the passkey 42 is fed as 000042. -/
theorem FeedPasskey_spec_witness :
    42 ≤ 999999 ∧ Sprintf06d 42 = "000042" ∧
    Bluetooth.FeedPasskey (fun _ _ s => some s) "/hci0/dev_A" true 42 =
      ((fun _ _ s => some s) "/hci0/dev_A" true (Sprintf06d 42)).map ToError ∧
    (Sprintf06d 42).length = 6 ∧ decimalValue (Sprintf06d 42) = 42 :=
  have h := FeedPasskey_spec (fun _ _ s => some s) "/hci0/dev_A" true 42 (by decide)
  ⟨by decide, by simp [Sprintf06d, decimalDigits, zeroPad, Nat.digitChar], h.1, h.2.1, h.2.2.2.1⟩

end bluetooth

namespace bluetooth

/-- C19: each of the six mirrored-property callbacks, delivered with hasValue =
false, leaves the whole daemon state as it was: every adapter field, the
timed-out flag and both timers, the signals emitted and the remote calls
issued. -/
theorem callbacks_ignore_no_value (g : Global) (marshalJSON : adapter → String)
    (updateState : Global → Global) (bluez : BlueZ) (apath : ObjectPath) :
    (∀ value, g.NameChanged marshalJSON updateState apath false value = g) ∧
    (∀ value, g.AliasChanged marshalJSON updateState apath false value = g) ∧
    (∀ value, g.PoweredChanged marshalJSON updateState bluez apath false value = g) ∧
    (∀ value, g.DiscoveringChanged marshalJSON updateState apath false value = g) ∧
    (∀ value, g.DiscoverableChanged marshalJSON updateState apath false value = g) ∧
    (∀ value, g.DiscoverableTimeoutChanged apath false value = g) := by
  refine ⟨?_, ?_, ?_, ?_, ?_, ?_⟩ <;> intro value
  · simp [Global.NameChanged]
  · simp [Global.AliasChanged]
  · simp [Global.PoweredChanged]
  · simp [Global.DiscoveringChanged]
  · simp [Global.DiscoverableChanged]
  · simp [Global.DiscoverableTimeoutChanged]

/-- C20 fails: a Name notification carrying the value the adapter already
mirrors emits AdapterPropertiesChanged. -/
theorem NameChanged_equal_value_emits :
    demoGlobal.bluetooth.adapters.lookup "/hci0" = some demoAdapter ∧
    demoAdapter.Name = "pc" ∧
    (demoGlobal.NameChanged demoMarshalAdapter demoUpdateState "/hci0" true "pc").emitted =
      demoGlobal.emitted ++ [Signal.AdapterPropertiesChanged (demoMarshalAdapter demoAdapter)] := by
  decide

theorem notifyPropertiesChanged_registered (g : Global) (marshalJSON : adapter → String)
    (updateState : Global → Global) (apath : ObjectPath) (a : adapter)
    (ha : g.bluetooth.adapters.lookup apath = some a) :
    g.notifyPropertiesChanged marshalJSON updateState apath =
      updateState
        { g with emitted := g.emitted ++ [Signal.AdapterPropertiesChanged (marshalJSON a)] } := by
  simp [Global.notifyPropertiesChanged, ha]

theorem Global_modifyAdapter_lookup (g : Global) (apath : ObjectPath) (f : adapter → adapter)
    (a : adapter) (ha : g.bluetooth.adapters.lookup apath = some a) :
    (g.modifyAdapter apath f).bluetooth.adapters.lookup apath = some (f a) := by
  simp [Global.modifyAdapter, modifyAdapter_lookup g.bluetooth apath f a ha]

/-- C20 as amended: for the adapter registered under the path, each of the
Name, Alias, Powered and Discoverable callbacks delivered with a value stores
the value and then emits AdapterPropertiesChanged exactly once, with the
marshaling of the updated adapter, before updateState runs, whether or not the
value differs from the mirrored one. -/
theorem callbacks_store_and_emit (g : Global) (marshalJSON : adapter → String)
    (updateState : Global → Global) (bluez : BlueZ) (apath : ObjectPath) (a : adapter)
    (ha : g.bluetooth.adapters.lookup apath = some a) :
    (∀ value,
      g.NameChanged marshalJSON updateState apath true value =
        updateState
          { g.modifyAdapter apath (fun a => { a with Name := value }) with
            emitted := g.emitted ++
              [Signal.AdapterPropertiesChanged (marshalJSON { a with Name := value })] }) ∧
    (∀ value,
      g.AliasChanged marshalJSON updateState apath true value =
        updateState
          { g.modifyAdapter apath (fun a => { a with Alias := value }) with
            emitted := g.emitted ++
              [Signal.AdapterPropertiesChanged (marshalJSON { a with Alias := value })] }) ∧
    (∀ value,
      g.DiscoverableChanged marshalJSON updateState apath true value =
        updateState
          { g.modifyAdapter apath (fun a => { a with Discoverable := value }) with
            emitted := g.emitted ++
              [Signal.AdapterPropertiesChanged
                (marshalJSON { a with Discoverable := value })] }) ∧
    g.PoweredChanged marshalJSON updateState bluez apath true true =
      updateState
        { g.modifyAdapter apath (fun a => { a with Powered := true }) with
          world :=
            { g.world with
              calls := g.world.calls ++ [.DiscoverableSet apath g.config.Discoverable],
              spawned := g.world.spawned ++ [Task.adapterPoweredOn apath] },
          emitted := g.emitted ++
            [Signal.AdapterPropertiesChanged (marshalJSON { a with Powered := true })] } ∧
    g.PoweredChanged marshalJSON updateState bluez apath true false =
      updateState
        { (g.modifyAdapter apath (fun a => { a with Powered := false })).modifyAdapter apath
            (fun a => { a with discoveringTimeout := ⟨some (60 * 1000000000)⟩ }) with
          emitted := g.emitted ++
            [Signal.AdapterPropertiesChanged
              (marshalJSON
                { a with Powered := false, discoveringTimeout := ⟨some (60 * 1000000000)⟩ })] } := by
  refine ⟨?_, ?_, ?_, ?_, ?_⟩
  · intro value
    have h := Global_modifyAdapter_lookup g apath (fun a => { a with Name := value }) a ha
    simp only [Global.NameChanged, Bool.not_true, Bool.false_eq_true, if_false]
    rw [notifyPropertiesChanged_registered _ marshalJSON updateState apath _ h]
    rfl
  · intro value
    have h := Global_modifyAdapter_lookup g apath (fun a => { a with Alias := value }) a ha
    simp only [Global.AliasChanged, Bool.not_true, Bool.false_eq_true, if_false]
    rw [notifyPropertiesChanged_registered _ marshalJSON updateState apath _ h]
    rfl
  · intro value
    have h := Global_modifyAdapter_lookup g apath (fun a => { a with Discoverable := value }) a ha
    simp only [Global.DiscoverableChanged, Bool.not_true, Bool.false_eq_true, if_false]
    rw [notifyPropertiesChanged_registered _ marshalJSON updateState apath _ h]
    rfl
  · have h := Global_modifyAdapter_lookup g apath (fun a => { a with Powered := true }) a ha
    simp only [Global.PoweredChanged, Global.notifyPropertiesChanged, Bool.not_true,
      Bool.false_eq_true, if_false, if_true, World.call, h]
    rfl
  · have h := Global_modifyAdapter_lookup g apath (fun a => { a with Powered := false }) a ha
    have h2 := Global_modifyAdapter_lookup _ apath
      (fun a => { a with discoveringTimeout := ⟨some (60 * 1000000000)⟩ }) _ h
    simp only [Global.PoweredChanged, Bool.not_true, Bool.false_eq_true, if_false, Timer.Reset,
      defaultDiscoveringTimeout, Minute, Second]
    rw [notifyPropertiesChanged_registered _ marshalJSON updateState apath _ h2]
    rfl

/-- C20 as amended at a concrete input: the Alias callback on the demo adapter. -/
theorem callbacks_store_and_emit_witness :
    demoGlobal.bluetooth.adapters.lookup "/hci0" = some demoAdapter ∧
    demoGlobal.AliasChanged demoMarshalAdapter demoUpdateState "/hci0" true "desk" =
      demoUpdateState
        { demoGlobal.modifyAdapter "/hci0" (fun a => { a with Alias := "desk" }) with
          emitted := demoGlobal.emitted ++
            [Signal.AdapterPropertiesChanged
              (demoMarshalAdapter { demoAdapter with Alias := "desk" })] } :=
  have ha : demoGlobal.bluetooth.adapters.lookup "/hci0" = some demoAdapter := by decide
  ⟨ha, (callbacks_store_and_emit demoGlobal demoMarshalAdapter demoUpdateState demoBlueZ "/hci0"
      demoAdapter ha).2.1 "desk"⟩

end bluetooth

namespace gesture

theorem runShell_ne_kbdGrabbed (env : Env) (cmd : String) (w : World) :
    (runShell env cmd w).1 ≠ some .kbdGrabbed := by
  unfold runShell
  split <;> simp

theorem execAction_ne_kbdGrabbed (m : Manager) (env : Env) (info : gestureInfo) (w : World) :
    (m.execAction env info w).1 ≠ some .kbdGrabbed := by
  unfold Manager.execAction
  simp only
  split
  · exact runShell_ne_kbdGrabbed env _ w
  · split
    · exact runShell_ne_kbdGrabbed env _ w
    · split
      · unfold Manager.handleBuiltinAction
        split
        · split <;> simp
        · simp
      · simp

/-- C16 fails for direction down: with gestures enabled, the session active and
the keyboard grabbed, the entry touch right button / down that newManager
appends gets the keyboard-grab error. -/
theorem Exec_touch_right_button_down_grabbed :
    demoTouchManager.enabled = true ∧
    demoEnvGrabbed.isKbdAlreadyGrabbed = true ∧
    demoTouchManager.Infos.Get "touch right button" "down" 0 =
      some ⟨"touch right button", "down", 0, ⟨ActionTypeCommandline, "xdotool mousedown 3"⟩⟩ ∧
    demoTouchManager.Exec demoEnvGrabbed "touch right button" "down" 0 ⟨[], []⟩ =
      (some .kbdGrabbed, ⟨[], []⟩) := by
  decide

/-- C16 as amended: with gestures enabled, the session active and another
process holding the keyboard grab, Exec does not fail with the keyboard-grab
error for a matched entry named touch right button with direction up (it
returns nil when the current window is blacklisted and otherwise runs the
action of the entry); for every other matched entry, touch right button with
direction down included, it returns the keyboard-grab error and executes
nothing. -/
theorem Exec_kbd_grabbed (m : Manager) (env : Env) (name direction : String) (fingers : Int)
    (w : World) (currentSessionPath : ObjectPath) (info : gestureInfo)
    (hpath : env.CurrentSessionPath = .ok currentSessionPath) (hen : m.enabled = true)
    (hact : env.isSessionActive currentSessionPath = true)
    (hgrab : env.isKbdAlreadyGrabbed = true)
    (hinfo : m.Infos.Get name direction fingers = some info) :
    (info.Name = "touch right button" ∧ info.Direction = "up" →
      (m.Exec env name direction fingers w).1 ≠ some .kbdGrabbed ∧
      m.Exec env name direction fingers w =
        if env.isInWindowBlacklist env.getCurrentActionWindowCmd env.longPressBlacklist then
          (none, w)
        else m.execAction env info w) ∧
    (¬ (info.Name = "touch right button" ∧ info.Direction = "up") →
      m.Exec env name direction fingers w = (some .kbdGrabbed, w)) := by
  refine ⟨?_, ?_⟩
  · rintro ⟨hn, hd⟩
    have hexec : m.Exec env name direction fingers w =
        if env.isInWindowBlacklist env.getCurrentActionWindowCmd env.longPressBlacklist then
          (none, w)
        else m.execAction env info w := by
      simp [Manager.Exec, hpath, hen, hact, hinfo, hn, hd]
    refine ⟨?_, hexec⟩
    rw [hexec]
    split
    · simp
    · exact execAction_ne_kbdGrabbed m env info w
  · intro h
    have h' : (info.Name != "touch right button" || info.Direction != "up") = true := by
      by_cases hn : info.Name = "touch right button"
      · have hd : info.Direction ≠ "up" := fun hd => h ⟨hn, hd⟩
        simp [hn, hd]
      · simp [hn]
    simp [Manager.Exec, hpath, hen, hact, hinfo, hgrab, h']

/-- C16 as amended at concrete inputs: under a keyboard grab the up entry is not
refused, the swipe entry is. -/
theorem Exec_kbd_grabbed_witness :
    (demoTouchManager.Exec demoEnvGrabbed "touch right button" "up" 0 ⟨[], []⟩).1 ≠
      some .kbdGrabbed ∧
    demoTouchManager.Exec demoEnvGrabbed "swipe" "up" 3 ⟨[], []⟩ =
      (some .kbdGrabbed, ⟨[], []⟩) :=
  ⟨((Exec_kbd_grabbed demoTouchManager demoEnvGrabbed "touch right button" "up" 0 ⟨[], []⟩
      "/org/freedesktop/login1/session/_31"
      ⟨"touch right button", "up", 0, ⟨ActionTypeCommandline, "xdotool mouseup 3"⟩⟩
      rfl rfl rfl rfl (by decide)).1 ⟨rfl, rfl⟩).1,
   (Exec_kbd_grabbed demoTouchManager demoEnvGrabbed "swipe" "up" 3 ⟨[], []⟩
      "/org/freedesktop/login1/session/_31" ⟨"swipe", "up", 3, ⟨ActionTypeCommandline, "true"⟩⟩
      rfl rfl rfl rfl (by decide)).2 (by decide)⟩

/-- C17 fails for names that start with touch: with gating passed and no
keyboard grab, the matched commandline entry touch edge is handed to
handleTouchScreenEvent, so nothing is executed and no error is returned. -/
theorem Exec_touch_entry_not_executed :
    demoTouchManager.enabled = true ∧
    demoEnvActive.isKbdAlreadyGrabbed = false ∧
    demoTouchManager.Infos.Get "touch edge" "left" 1 =
      some ⟨"touch edge", "left", 1, ⟨ActionTypeCommandline, "true"⟩⟩ ∧
    demoTouchManager.Exec demoEnvActive "touch edge" "left" 1 ⟨[], []⟩ = (none, ⟨[], []⟩) := by
  decide

/-- C17 as amended: with gating passed and no keyboard grab, Exec returns an
error and executes nothing when no entry matches; a matched entry whose name
starts with touch, other than touch right button, executes nothing and returns
nil; a matched touch right button entry executes nothing and returns nil when
the current window is blacklisted; every other matched entry is executed by
kind: commandline runs the payload as a shell command, shortcut runs xdotool
key followed by the payload, built-in calls the handler registered under the
payload and returns an error without calling anything if none is registered,
and any other kind returns an error and executes nothing. -/
theorem Exec_lookup_and_execute (m : Manager) (env : Env) (name direction : String)
    (fingers : Int) (w : World) (currentSessionPath : ObjectPath)
    (hpath : env.CurrentSessionPath = .ok currentSessionPath) (hen : m.enabled = true)
    (hact : env.isSessionActive currentSessionPath = true)
    (hgrab : env.isKbdAlreadyGrabbed = false) :
    (m.Infos.Get name direction fingers = none →
      m.Exec env name direction fingers w = (some (.notFound name direction fingers), w)) ∧
    (∀ info, m.Infos.Get name direction fingers = some info →
      (info.Name ≠ "touch right button" → "touch".toList.isPrefixOf info.Name.toList = true →
        m.Exec env name direction fingers w = (none, w)) ∧
      (info.Name = "touch right button" →
        env.isInWindowBlacklist env.getCurrentActionWindowCmd env.longPressBlacklist = true →
        m.Exec env name direction fingers w = (none, w)) ∧
      ((info.Name = "touch right button" ∧
          env.isInWindowBlacklist env.getCurrentActionWindowCmd env.longPressBlacklist = false) ∨
        "touch".toList.isPrefixOf info.Name.toList = false →
        m.Exec env name direction fingers w = m.execAction env info w) ∧
      (info.Action.Type_ = ActionTypeCommandline →
        m.execAction env info w =
          ((match (env.sh info.Action.Action).2 with
            | some _ => some (.commandFailed (env.sh info.Action.Action).1)
            | none => none),
           { w with executed := w.executed ++ [info.Action.Action] })) ∧
      (info.Action.Type_ = ActionTypeShortcut →
        m.execAction env info w =
          ((match (env.sh ("xdotool key " ++ info.Action.Action)).2 with
            | some _ => some (.commandFailed (env.sh ("xdotool key " ++ info.Action.Action)).1)
            | none => none),
           { w with executed := w.executed ++ ["xdotool key " ++ info.Action.Action] })) ∧
      (info.Action.Type_ = ActionTypeBuiltin → info.Action.Action ∈ m.builtinSets →
        m.execAction env info w =
          ((env.builtin info.Action.Action).map ExecError.builtinFailed,
           { w with called := w.called ++ [info.Action.Action] })) ∧
      (info.Action.Type_ = ActionTypeBuiltin → info.Action.Action ∉ m.builtinSets →
        m.execAction env info w = (some (.invalidBuiltin info.Action.Action), w)) ∧
      (info.Action.Type_ ≠ ActionTypeCommandline → info.Action.Type_ ≠ ActionTypeShortcut →
        info.Action.Type_ ≠ ActionTypeBuiltin →
        m.execAction env info w = (some (.invalidActionType info.Action.Type_), w))) := by
  refine ⟨?_, ?_⟩
  · intro h
    simp [Manager.Exec, hpath, hen, hact, h]
  · intro info hinfo
    refine ⟨?_, ?_, ?_, ?_, ?_, ?_, ?_, ?_⟩
    · intro hn hpre
      have hpre' : ['t', 'o', 'u', 'c', 'h'] <+: info.Name.data := by simpa using hpre
      simp [Manager.Exec, hpath, hen, hact, hinfo, hgrab, hn, hpre',
        Manager.handleTouchScreenEvent]
    · intro hn hbl
      simp [Manager.Exec, hpath, hen, hact, hinfo, hgrab, hn, hbl]
    · rintro (⟨hn, hbl⟩ | hpre)
      · simp [Manager.Exec, hpath, hen, hact, hinfo, hgrab, hn, hbl]
      · have hn : info.Name ≠ "touch right button" := by
          intro hn
          rw [hn] at hpre
          revert hpre
          decide
        have hpre' : ¬ ['t', 'o', 'u', 'c', 'h'] <+: info.Name.data := by
          intro hc
          have : "touch".toList.isPrefixOf info.Name.toList = true := by simpa using hc
          rw [this] at hpre
          cases hpre
        simp [Manager.Exec, hpath, hen, hact, hinfo, hgrab, hn, hpre']
    · intro hty
      cases h : (env.sh info.Action.Action).2 <;>
        simp [Manager.execAction, runShell, hty, h]
    · intro hty
      have h1 : ActionTypeShortcut ≠ ActionTypeCommandline := by decide
      cases h : (env.sh ("xdotool key " ++ info.Action.Action)).2 <;>
        simp [Manager.execAction, runShell, hty, h, h1]
    · intro hty hreg
      have h1 : ActionTypeBuiltin ≠ ActionTypeCommandline := by decide
      have h2 : ActionTypeBuiltin ≠ ActionTypeShortcut := by decide
      cases h : env.builtin info.Action.Action <;>
        simp [Manager.execAction, hty, h1, h2, Manager.handleBuiltinAction, hreg, h]
    · intro hty hreg
      have h1 : ActionTypeBuiltin ≠ ActionTypeCommandline := by decide
      have h2 : ActionTypeBuiltin ≠ ActionTypeShortcut := by decide
      simp [Manager.execAction, hty, h1, h2, Manager.handleBuiltinAction, hreg]
    · intro h1 h2 h3
      simp [Manager.execAction, h1, h2, h3]

/-- C17 as amended at concrete inputs: no entry matches a pinch; the swipe entry
runs its command. -/
theorem Exec_lookup_and_execute_witness :
    (demoTouchManager.Infos.Get "pinch" "in" 2 = none ∧
      demoTouchManager.Exec demoEnvActive "pinch" "in" 2 ⟨[], []⟩ =
        (some (.notFound "pinch" "in" 2), ⟨[], []⟩)) ∧
    demoTouchManager.Exec demoEnvActive "swipe" "up" 3 ⟨[], []⟩ =
      demoTouchManager.execAction demoEnvActive ⟨"swipe", "up", 3, ⟨ActionTypeCommandline, "true"⟩⟩
        ⟨[], []⟩ :=
  have h0 : demoTouchManager.Infos.Get "pinch" "in" 2 = none := by decide
  ⟨⟨h0, (Exec_lookup_and_execute demoTouchManager demoEnvActive "pinch" "in" 2 ⟨[], []⟩
      "/org/freedesktop/login1/session/_31" rfl rfl rfl rfl).1 h0⟩,
   ((Exec_lookup_and_execute demoTouchManager demoEnvActive "swipe" "up" 3 ⟨[], []⟩
      "/org/freedesktop/login1/session/_31" rfl rfl rfl rfl).2
      ⟨"swipe", "up", 3, ⟨ActionTypeCommandline, "true"⟩⟩ (by decide)).2.2.1
      (Or.inr (by decide))⟩

end gesture

namespace sessionwatcher

theorem lookup_setSession (sessions : List (String × Session)) (id : String)
    (session : Session) : (setSession sessions id session).lookup id = some session := by
  induction sessions with
  | nil => simp [setSession, List.lookup]
  | cons e rest ih =>
    obtain ⟨id', s'⟩ := e
    by_cases h : id' = id
    · simp [setSession, h, List.lookup]
    · have h' : (id == id') = false := by
        simp only [beq_eq_false_iff_ne, ne_eq]
        exact fun hh => h hh.symm
      simp [setSession, h, List.lookup, h', ih]

/-- C21: addSession(id, path) stores the session under id and subscribes to its
Active changes when the proxy is created, the user read succeeds with the uid
of the current user and the remote read succeeds with false; in every other
case it leaves the manager (the tracked map included) unchanged and subscribes
to nothing. -/
theorem addSession_spec (m : Manager) (env : AddEnv) (id : String) (path : ObjectPath)
    (subscribed : List Session) :
    (∀ session uid, env.NewSession path = .ok session → env.User session = .ok uid →
      env.isCurrentUser uid = true → env.Remote session = .ok false →
      m.addSession env id path subscribed =
        ({ m with sessions := setSession m.sessions id session }, subscribed ++ [session]) ∧
      (m.addSession env id path subscribed).1.sessions.lookup id = some session) ∧
    ((¬ ∃ session uid, env.NewSession path = .ok session ∧ env.User session = .ok uid ∧
        env.isCurrentUser uid = true ∧ env.Remote session = .ok false) →
      m.addSession env id path subscribed = (m, subscribed)) := by
  refine ⟨?_, ?_⟩
  · intro session uid h1 h2 h3 h4
    have h : m.addSession env id path subscribed =
        ({ m with sessions := setSession m.sessions id session }, subscribed ++ [session]) := by
      simp [Manager.addSession, h1, h2, h3, h4]
    refine ⟨h, ?_⟩
    rw [h]
    exact lookup_setSession m.sessions id session
  · intro hno
    cases h1 : env.NewSession path with
    | error e => simp [Manager.addSession, h1]
    | ok session =>
      cases h2 : env.User session with
      | error e => simp [Manager.addSession, h1, h2]
      | ok uid =>
        cases h3 : env.isCurrentUser uid with
        | false => simp [Manager.addSession, h1, h2, h3]
        | true =>
          cases h4 : env.Remote session with
          | error e => simp [Manager.addSession, h1, h2, h3, h4]
          | ok remote =>
            cases remote with
            | true => simp [Manager.addSession, h1, h2, h3, h4]
            | false => exact absurd ⟨session, uid, h1, h2, h3, h4⟩ hno

/-- C21 at concrete inputs: the local session of the current user is tracked,
the remote one is not. -/
theorem addSession_spec_witness :
    (demoManager.addSession demoAddEnv "2" "/s2" []).1.sessions.lookup "2" = some ⟨"/s2"⟩ ∧
    demoManager.addSession demoAddEnv "4" "/s4" [] = (demoManager, []) :=
  ⟨((addSession_spec demoManager demoAddEnv "2" "/s2" []).1 ⟨"/s2"⟩ 1000 rfl rfl rfl rfl).2,
   (addSession_spec demoManager demoAddEnv "4" "/s4" []).2 (by
      rintro ⟨session, uid, h1, _, _, h4⟩
      have hs : session = ⟨"/s4"⟩ := by
        have : (Except.ok ⟨"/s4"⟩ : Except String Session) = .ok session := h1
        injection this with h
        exact h.symm
      subst hs
      have : (Except.ok true : Except String Bool) = .ok false := h4
      injection this with h
      cases h)⟩

end sessionwatcher

namespace sessionwatcher

theorem getActiveSessionTrace_reads (login : Login1) (sessions : List (String × Session)) :
    ∀ e ∈ getActiveSessionTrace login sessions, ∃ s, e = Event.activeGet s := by
  induction sessions with
  | nil => simp [getActiveSessionTrace]
  | cons entry rest ih =>
    obtain ⟨id, session⟩ := entry
    intro e he
    simp only [getActiveSessionTrace, List.mem_cons] at he
    rcases he with rfl | he
    · exact ⟨session, rfl⟩
    · cases hA : login.Active session with
      | error err =>
        rw [hA] at he
        exact ih e he
      | ok active =>
        rw [hA] at he
        cases active with
        | true => simp at he
        | false => exact ih e (by simpa using he)

theorem handleSessionChangedBody_no_mu (m : Manager) (login : Login1) :
    ∀ e ∈ m.handleSessionChangedBody login, e ≠ Event.lock "mu" ∧ e ≠ Event.unlock "mu" := by
  intro e he
  unfold Manager.handleSessionChangedBody at he
  split at he
  · simp at he
  · simp only [List.mem_append, List.mem_singleton] at he
    rcases he with ((((he | he) | he) | he) | he) | he
    · obtain ⟨s, rfl⟩ := getActiveSessionTrace_reads login m.sessions e he
      exact ⟨by simp, by simp⟩
    · split at he
      · simp only [List.mem_singleton] at he
        subst he
        exact ⟨by simp, by simp⟩
      · simp at he
    · subst he
      exact ⟨by decide, by simp⟩
    · unfold Manager.setIsActiveTrace at he
      split at he
      · simp only [List.mem_singleton] at he
        subst he
        exact ⟨by simp, by simp⟩
      · simp at he
    · subst he
      exact ⟨by simp, by decide⟩
    · split at he
      · simp at he
      · split at he
        · simp only [List.mem_cons, List.mem_singleton, List.not_mem_nil, or_false] at he
          rcases he with rfl | rfl | rfl <;> exact ⟨by simp, by simp⟩
        · simp only [List.mem_cons, List.mem_singleton, List.not_mem_nil, or_false] at he
          rcases he with rfl | rfl <;> exact ⟨by simp, by simp⟩

theorem append_eq_split {α : Type} (l1 l2 pre post : List α) (e : α)
    (h : l1 ++ l2 = pre ++ e :: post) :
    (∃ t, l1 = pre ++ e :: t) ∨ (∃ p, pre = l1 ++ p ∧ l2 = p ++ e :: post) := by
  rcases List.append_eq_append_iff.1 h with ⟨a', h1, h2⟩ | ⟨c', h1, h2⟩
  · exact Or.inr ⟨a', h1, h2⟩
  · cases c' with
    | nil =>
      refine Or.inr ⟨[], ?_, ?_⟩
      · simpa using h1.symm
      · simpa using h2.symm
    | cons x t =>
      simp only [List.cons_append, List.cons.injEq] at h2
      refine Or.inl ⟨t, ?_⟩
      rw [h1, h2.1]

theorem count_eq_zero_of_all (l : List Event) (p : Event → Bool) (h : ∀ x ∈ l, p x = true)
    (y : Event) (hy : p y = false) : l.count y = 0 := by
  apply List.count_eq_zero.2
  intro hm
  rw [h y hm] at hy
  cases hy

theorem handleSessionChangedBody_shape (m : Manager) (login : Login1) :
    m.handleSessionChangedBody login = [] ∨
    ∃ R E G, m.handleSessionChangedBody login =
        R ++ ([Event.lock "PropsMu"] ++ (E ++ ([Event.unlock "PropsMu"] ++ G))) ∧
      (∀ x ∈ R, x.isRead = true) ∧
      (∀ x ∈ E, x.emitted.isSome = true) ∧
      (∀ x ∈ G, x.isRemoteOrEmit = false ∧ x ≠ Event.lock "mu" ∧ x ≠ Event.unlock "mu") := by
  unfold Manager.handleSessionChangedBody
  split
  · exact Or.inl rfl
  · right
    have hG : ∀ (changed isActive : Bool), ∀ x ∈ (if !changed then ([] : List Event)
        else if isActive then
          [Event.go (Task.suspendPulseSinks 0), Event.go (Task.suspendPulseSources 0),
            Event.go (Task.displayRefreshBrightness 0)]
        else
          [Event.go (Task.suspendPulseSinks 1), Event.go (Task.suspendPulseSources 1)]),
        x.isRemoteOrEmit = false ∧ x ≠ Event.lock "mu" ∧ x ≠ Event.unlock "mu" := by
      intro changed isActive x hx
      cases changed <;> cases isActive <;> simp at hx
      · rcases hx with rfl | rfl <;> exact ⟨rfl, by simp, by simp⟩
      · rcases hx with rfl | rfl | rfl <;> exact ⟨rfl, by simp, by simp⟩
    have hE : ∀ (val : Bool), ∀ x ∈ m.setIsActiveTrace val, x.emitted.isSome = true := by
      intro val x hx
      unfold Manager.setIsActiveTrace at hx
      split at hx
      · simp only [List.mem_singleton] at hx
        subst hx
        rfl
      · simp at hx
    cases hs : m.getActiveSession login with
    | none =>
      refine ⟨getActiveSessionTrace login m.sessions, m.setIsActiveTrace false, _, ?_, ?_,
        hE false, hG (m.IsActive != false) false⟩
      · simp only [List.append_assoc, List.append_nil]
      · intro x hx
        obtain ⟨s, rfl⟩ := getActiveSessionTrace_reads login m.sessions x hx
        rfl
    | some s =>
      refine ⟨getActiveSessionTrace login m.sessions ++ [Event.typeGet s],
        m.setIsActiveTrace true, _, ?_, ?_, hE true, hG (m.IsActive != true) true⟩
      · simp only [List.append_assoc]
      · intro x hx
        simp only [List.mem_append, List.mem_singleton] at hx
        rcases hx with hx | hx
        · obtain ⟨s, rfl⟩ := getActiveSessionTrace_reads login m.sessions x hx
          rfl
        · subst hx
          rfl

/-- C24 fails: in the run of handleSessionChanged on the demo manager the
collection lock mu is held when the Active read on /s2 is made and when the
IsActive emission is made. -/
theorem handleSessionChanged_emits_under_mu :
    demoManager.handleSessionChangedTrace demoLogin =
      [Event.lock "mu", Event.activeGet ⟨"/s1"⟩, Event.activeGet ⟨"/s2"⟩, Event.typeGet ⟨"/s2"⟩,
        Event.lock "PropsMu", Event.emitPropertyChanged "IsActive" true, Event.unlock "PropsMu",
        Event.go (Task.suspendPulseSinks 0), Event.go (Task.suspendPulseSources 0),
        Event.go (Task.displayRefreshBrightness 0), Event.unlock "mu"] ∧
    held "mu" [Event.lock "mu", Event.activeGet ⟨"/s1"⟩] = true ∧
    held "mu" [Event.lock "mu", Event.activeGet ⟨"/s1"⟩, Event.activeGet ⟨"/s2"⟩,
      Event.typeGet ⟨"/s2"⟩, Event.lock "PropsMu"] = true := by
  decide

/-- C24 as amended: the collection lock mu is held at the moment
handleSessionChanged emits the IsActive notification and while it performs the
remote Active and Type reads; it is locked by the first step and unlocked by
the last, the deferred call at the return, and by no step in between. The
steps also fix where the property lock stands: PropsMu is held at the emission
and at no remote read. -/
theorem handleSessionChanged_lock_held (m : Manager) (login : Login1) (pre post : List Event)
    (e : Event) (h : m.handleSessionChangedTrace login = pre ++ e :: post)
    (he : e.isRemoteOrEmit = true) :
    held "mu" pre = true ∧ held "PropsMu" pre = e.emitted.isSome ∧
    ∃ body, m.handleSessionChangedTrace login = Event.lock "mu" :: (body ++ [Event.unlock "mu"]) ∧
      ∀ x ∈ body, x ≠ Event.lock "mu" ∧ x ≠ Event.unlock "mu" := by
  have main : held "mu" pre = true ∧ held "PropsMu" pre = e.emitted.isSome := by
    unfold Manager.handleSessionChangedTrace at h
    rcases handleSessionChangedBody_shape m login with hb | ⟨R, E, G, hb, hR, hE, hG⟩
    · exfalso
      have hmem : e ∈ pre ++ e :: post := by simp
      rw [← h, hb] at hmem
      simp only [List.append_nil, List.singleton_append, List.mem_cons, List.mem_singleton,
        List.not_mem_nil, or_false] at hmem
      rcases hmem with rfl | rfl <;> cases he
    · rw [hb] at h
      have h' : ([Event.lock "mu"] ++ R) ++ ([Event.lock "PropsMu"] ++
          (E ++ ([Event.unlock "PropsMu"] ++ (G ++ [Event.unlock "mu"])))) = pre ++ e :: post := by
        rw [← h]
        simp only [List.append_assoc]
      clear h hb
      rcases append_eq_split _ _ _ _ _ h' with ⟨t, h1⟩ | ⟨p, hp, h1⟩
      · rcases append_eq_split _ _ _ _ _ h1 with ⟨t', h2⟩ | ⟨p, hp, h2⟩
        · exfalso
          cases pre with
          | nil =>
            simp only [List.nil_append, List.cons.injEq] at h2
            rw [← h2.1] at he
            cases he
          | cons x pre' =>
            have := congrArg List.length h2
            simp at this
        · have heR : e ∈ R := by rw [h2]; simp
          have hpR : ∀ x ∈ p, x.isRead = true := fun x hx => hR x (by rw [h2]; simp [hx])
          have hread := hR e heR
          have hem : e.emitted.isSome = false := by
            cases e <;> first | rfl | cases hread
          rw [hp, hem]
          simp [held, List.count_append, List.count_cons,
            count_eq_zero_of_all p Event.isRead hpR (Event.lock "mu") rfl,
            count_eq_zero_of_all p Event.isRead hpR (Event.unlock "mu") rfl,
            count_eq_zero_of_all p Event.isRead hpR (Event.lock "PropsMu") rfl,
            count_eq_zero_of_all p Event.isRead hpR (Event.unlock "PropsMu") rfl]
      · have hRl := fun y hy => count_eq_zero_of_all R Event.isRead hR y hy
        rcases append_eq_split _ _ _ _ _ h1 with ⟨t', h2⟩ | ⟨p2, hp2, h2⟩
        · exfalso
          cases p with
          | nil =>
            simp only [List.nil_append, List.cons.injEq] at h2
            rw [← h2.1] at he
            cases he
          | cons x p' =>
            have := congrArg List.length h2
            simp at this
        · rcases append_eq_split _ _ _ _ _ h2 with ⟨t', h3⟩ | ⟨p3, hp3, h3⟩
          · have heE : e ∈ E := by rw [h3]; simp
            have hpE : ∀ x ∈ p2, x.emitted.isSome = true := fun x hx => hE x (by rw [h3]; simp [hx])
            rw [hp, hp2, hE e heE]
            simp [held, List.count_append, List.count_cons,
              hRl (Event.lock "mu") rfl, hRl (Event.unlock "mu") rfl,
              hRl (Event.lock "PropsMu") rfl, hRl (Event.unlock "PropsMu") rfl,
              count_eq_zero_of_all p2 (fun x => x.emitted.isSome) hpE (Event.lock "mu") rfl,
              count_eq_zero_of_all p2 (fun x => x.emitted.isSome) hpE (Event.unlock "mu") rfl,
              count_eq_zero_of_all p2 (fun x => x.emitted.isSome) hpE (Event.lock "PropsMu") rfl,
              count_eq_zero_of_all p2 (fun x => x.emitted.isSome) hpE (Event.unlock "PropsMu") rfl]
          · exfalso
            have hmem : e ∈ [Event.unlock "PropsMu"] ++ (G ++ [Event.unlock "mu"]) := by
              rw [h3]; simp
            simp only [List.singleton_append, List.mem_cons, List.mem_append, List.mem_singleton,
              List.not_mem_nil, or_false] at hmem
            rcases hmem with rfl | hg | rfl
            · cases he
            · rw [(hG e hg).1] at he
              cases he
            · cases he
  exact ⟨main.1, main.2, m.handleSessionChangedBody login,
    by simp [Manager.handleSessionChangedTrace], handleSessionChangedBody_no_mu m login⟩

/-- C24 as amended at a concrete input: the emission of the demo run is made
with mu (and PropsMu) held. -/
theorem handleSessionChanged_lock_held_witness :
    demoManager.handleSessionChangedTrace demoLogin =
      [Event.lock "mu", Event.activeGet ⟨"/s1"⟩, Event.activeGet ⟨"/s2"⟩, Event.typeGet ⟨"/s2"⟩,
        Event.lock "PropsMu"] ++ Event.emitPropertyChanged "IsActive" true ::
      [Event.unlock "PropsMu", Event.go (Task.suspendPulseSinks 0),
        Event.go (Task.suspendPulseSources 0), Event.go (Task.displayRefreshBrightness 0),
        Event.unlock "mu"] ∧
    (Event.emitPropertyChanged "IsActive" true).isRemoteOrEmit = true ∧
    held "mu" [Event.lock "mu", Event.activeGet ⟨"/s1"⟩, Event.activeGet ⟨"/s2"⟩,
      Event.typeGet ⟨"/s2"⟩, Event.lock "PropsMu"] = true ∧
    held "PropsMu" [Event.lock "mu", Event.activeGet ⟨"/s1"⟩, Event.activeGet ⟨"/s2"⟩,
      Event.typeGet ⟨"/s2"⟩, Event.lock "PropsMu"] = true :=
  have h : demoManager.handleSessionChangedTrace demoLogin =
      [Event.lock "mu", Event.activeGet ⟨"/s1"⟩, Event.activeGet ⟨"/s2"⟩, Event.typeGet ⟨"/s2"⟩,
        Event.lock "PropsMu"] ++ Event.emitPropertyChanged "IsActive" true ::
      [Event.unlock "PropsMu", Event.go (Task.suspendPulseSinks 0),
        Event.go (Task.suspendPulseSources 0), Event.go (Task.displayRefreshBrightness 0),
        Event.unlock "mu"] := by decide
  ⟨h, rfl, (handleSessionChanged_lock_held demoManager demoLogin _ _ _ h rfl).1,
    (handleSessionChanged_lock_held demoManager demoLogin _ _ _ h rfl).2.1⟩

end sessionwatcher

namespace sessionwatcher

theorem getActiveSessionTrace_effects (login : Login1) (sessions : List (String × Session)) :
    (getActiveSessionTrace login sessions).filterMap Event.emitted = [] ∧
    (getActiveSessionTrace login sessions).filterMap Event.started = [] := by
  constructor
  · apply List.filterMap_eq_nil_iff.2
    intro e he
    obtain ⟨s, rfl⟩ := getActiveSessionTrace_reads login sessions e he
    rfl
  · apply List.filterMap_eq_nil_iff.2
    intro e he
    obtain ⟨s, rfl⟩ := getActiveSessionTrace_reads login sessions e he
    rfl

theorem handleSessionChangedTrace_effects (m : Manager) (login : Login1) (w : World) :
    (m.handleSessionChanged login w).2.emitted =
      w.emitted ++ (m.handleSessionChangedTrace login).filterMap Event.emitted ∧
    (m.handleSessionChanged login w).2.started =
      w.started ++ (m.handleSessionChangedTrace login).filterMap Event.started := by
  have h1 := (getActiveSessionTrace_effects login m.sessions).1
  have h2 := (getActiveSessionTrace_effects login m.sessions).2
  by_cases hlen : m.sessions.length = 0
  · simp [Manager.handleSessionChanged, Manager.handleSessionChangedTrace,
      Manager.handleSessionChangedBody, hlen, Event.emitted, Event.started]
  · cases hs : m.getActiveSession login <;> cases ha : m.IsActive <;>
      simp [Manager.handleSessionChanged, Manager.handleSessionChangedTrace,
        Manager.handleSessionChangedBody, Manager.setIsActive, Manager.setIsActiveTrace, hlen, hs,
        ha, h1, h2, Event.emitted, Event.started, List.filterMap_append]

/-- C26: when no session is tracked handleSessionChanged changes nothing: the
manager (IsActive and the recorded session type included) and the
surroundings (no emission, no task) are as before; so a freshly constructed
manager keeps reporting IsActive = true, and so does a manager that was active
and whose tracked sessions are all gone after deleteSession. -/
theorem handleSessionChanged_no_sessions (m : Manager) (login : Login1) (w : World) :
    (m.sessions = [] → m.handleSessionChanged login w = (m, w)) ∧
    (∀ m0, newManager (.ok ()) = .ok m0 →
      m0.IsActive = true ∧ m0.handleSessionChanged login w = (m0, w)) ∧
    (∀ id path subscribed, m.IsActive = true →
      (m.deleteSession id path subscribed).1.sessions = [] →
      (m.deleteSession id path subscribed).1.IsActive = true ∧
      (m.deleteSession id path subscribed).1.handleSessionChanged login w =
        ((m.deleteSession id path subscribed).1, w)) := by
  refine ⟨?_, ?_, ?_⟩
  · intro h
    simp [Manager.handleSessionChanged, h]
  · intro m0 h0
    have : m0 = ⟨[], "", true⟩ := by
      simp only [newManager] at h0
      injection h0 with h
      exact h.symm
    subst this
    exact ⟨rfl, by simp [Manager.handleSessionChanged]⟩
  · intro id path subscribed hact hempty
    refine ⟨?_, by simp [Manager.handleSessionChanged, hempty]⟩
    unfold Manager.deleteSession
    split <;> simp [hact]

/-- C26 at a concrete input: the last tracked session of an active manager is
removed; the manager stays active and nothing is emitted. -/
theorem handleSessionChanged_no_sessions_witness :
    demoSingle.IsActive = true ∧
    (demoSingle.deleteSession "2" "/s2" [⟨"/s2"⟩]).1.sessions = [] ∧
    (demoSingle.deleteSession "2" "/s2" [⟨"/s2"⟩]).1.IsActive = true ∧
    (demoSingle.deleteSession "2" "/s2" [⟨"/s2"⟩]).1.handleSessionChanged demoLogin ⟨[], []⟩ =
      ((demoSingle.deleteSession "2" "/s2" [⟨"/s2"⟩]).1, ⟨[], []⟩) :=
  have h : (demoSingle.deleteSession "2" "/s2" [⟨"/s2"⟩]).1.sessions = [] := by decide
  ⟨rfl, h,
    (handleSessionChanged_no_sessions demoSingle demoLogin ⟨[], []⟩).2.2 "2" "/s2" [⟨"/s2"⟩]
      rfl h⟩

/-- C30: IsX11SessionActive returns true exactly when the recorded session type
is x11 or wayland, false when it is the empty string, and never an error; after
a handleSessionChanged that found no active session among the tracked ones the
recorded type is empty and the answer is false, and after one that found an
active session the recorded type is the one read from it. -/
theorem IsX11SessionActive_spec (m : Manager) (login : Login1) (w : World) :
    m.IsX11SessionActive.2 = none ∧
    (m.IsX11SessionActive.1 = true ↔
      m.activeSessionType = "x11" ∨ m.activeSessionType = "wayland") ∧
    (m.activeSessionType = "" → m.IsX11SessionActive.1 = false) ∧
    (m.sessions ≠ [] → m.getActiveSession login = none →
      (m.handleSessionChanged login w).1.activeSessionType = "" ∧
      (m.handleSessionChanged login w).1.IsX11SessionActive.1 = false) ∧
    (∀ s ty, m.sessions ≠ [] → m.getActiveSession login = some s → login.Type_ s = .ok ty →
      (m.handleSessionChanged login w).1.activeSessionType = ty) := by
  have hiff : ∀ m' : Manager, m'.IsX11SessionActive.1 = true ↔
      m'.activeSessionType = "x11" ∨ m'.activeSessionType = "wayland" := by
    intro m'
    unfold Manager.IsX11SessionActive
    simp only [_validSessionList, List.any_cons, List.any_nil, Bool.or_false]
    split
    · rename_i h
      simp only [Bool.or_eq_true, beq_iff_eq] at h
      simp only [true_iff]
      rcases h with h | h
      · exact Or.inl h.symm
      · exact Or.inr h.symm
    · rename_i h
      simp only [Bool.or_eq_true, beq_iff_eq, not_or] at h
      simp only [Bool.false_eq_true, false_iff, not_or]
      exact ⟨fun hh => h.1 hh.symm, fun hh => h.2 hh.symm⟩
  have hempty : ∀ m' : Manager, m'.activeSessionType = "" → m'.IsX11SessionActive.1 = false := by
    intro m' h
    cases hb : m'.IsX11SessionActive.1 with
    | false => rfl
    | true =>
      rcases (hiff m').1 hb with h' | h' <;> (rw [h] at h'; revert h'; decide)
  have hlen : m.sessions ≠ [] → (m.sessions.length == 0) = false := by
    intro hne
    cases hs : m.sessions with
    | nil => exact absurd hs hne
    | cons a l => simp
  refine ⟨?_, hiff m, hempty m, ?_, ?_⟩
  · unfold Manager.IsX11SessionActive
    simp only
    split <;> rfl
  · intro hne hnone
    have htype : (m.handleSessionChanged login w).1.activeSessionType = "" := by
      cases ha : m.IsActive <;>
        simp [Manager.handleSessionChanged, Manager.setIsActive, hlen hne, hnone, ha]
    exact ⟨htype, hempty _ htype⟩
  · intro s ty hne hsome hty
    cases ha : m.IsActive <;>
      simp [Manager.handleSessionChanged, Manager.setIsActive, hlen hne, hsome, hty, ha]

/-- C30 at a concrete input: the demo run records x11, so the answer is true. -/
theorem IsX11SessionActive_spec_witness :
    demoManager.sessions ≠ [] ∧
    demoManager.getActiveSession demoLogin = some ⟨"/s2"⟩ ∧
    (demoManager.handleSessionChanged demoLogin ⟨[], []⟩).1.activeSessionType = "x11" ∧
    (demoManager.handleSessionChanged demoLogin ⟨[], []⟩).1.IsX11SessionActive.1 = true :=
  have hne : demoManager.sessions ≠ [] := by decide
  have hs : demoManager.getActiveSession demoLogin = some ⟨"/s2"⟩ := by decide
  have ht := (IsX11SessionActive_spec demoManager demoLogin ⟨[], []⟩).2.2.2.2 ⟨"/s2"⟩ "x11" hne
    hs rfl
  ⟨hne, hs, ht,
    ((IsX11SessionActive_spec (demoManager.handleSessionChanged demoLogin ⟨[], []⟩).1 demoLogin
      ⟨[], []⟩).2.1).2 (Or.inl ht)⟩

end sessionwatcher

namespace bluetooth

theorem SetAdapterPowered_state (b : Bluetooth) (bluez : BlueZ) (apath : ObjectPath)
    (powered : Bool) (w : World) (cfg : config) (a : adapter)
    (ha : b.adapters.lookup apath = some a) :
    (b.SetAdapterPowered bluez apath powered w cfg).2.1 =
      { b with adapters := mapSet b.adapters apath { a with discoveringTimeoutFlag := false } } ∧
    (b.SetAdapterPowered bluez apath powered w cfg).2.2.1 =
      { w with calls := w.calls ++ [.PoweredSet a.Path powered] } := by
  have hg := getAdapter_of_lookup_some b apath a ha
  cases he : bluez.err w.calls (.PoweredSet a.Path powered) <;>
    simp [Bluetooth.SetAdapterPowered, hg, World.call, he]

/-- C22: SetAdapterPowered(apath, false) on a known adapter followed by the
delivery of the Powered = false signal issues the Powered write as its only
remote call (no StopDiscovery), and when the callback has stored and notified,
before updateState runs, the adapter has Powered false, the discovery-timed-out
flag cleared and the discovery-expiry timer reset to 60 seconds. -/
theorem power_off_sequence (b : Bluetooth) (bluez : BlueZ) (apath : ObjectPath) (w : World)
    (cfg : config) (emitted : List Signal) (marshalJSON : adapter → String)
    (updateState : Global → Global) (a : adapter) (ha : b.adapters.lookup apath = some a) :
    ∃ g1 : Global,
      Global.PoweredChanged
          ⟨(b.SetAdapterPowered bluez apath false w cfg).2.1,
            (b.SetAdapterPowered bluez apath false w cfg).2.2.2,
            (b.SetAdapterPowered bluez apath false w cfg).2.2.1, emitted⟩
          marshalJSON updateState bluez apath true false = updateState g1 ∧
      g1.world.calls = w.calls ++ [.PoweredSet a.Path false] ∧
      RemoteCall.StopDiscovery apath ∉ [RemoteCall.PoweredSet a.Path false] ∧
      g1.bluetooth.adapters.lookup apath =
        some { a with
          Powered := false, discoveringTimeoutFlag := false,
          discoveringTimeout := ⟨some (60 * 1000000000)⟩ } := by
  obtain ⟨hb, hw⟩ := SetAdapterPowered_state b bluez apath false w cfg a ha
  have h0 : (b.SetAdapterPowered bluez apath false w cfg).2.1.adapters.lookup apath =
      some { a with discoveringTimeoutFlag := false } := by
    rw [hb]
    exact lookup_mapSet_self _ _ _
  generalize (b.SetAdapterPowered bluez apath false w cfg).2.1 = b1 at h0
  generalize (b.SetAdapterPowered bluez apath false w cfg).2.2.2 = cfg1
  generalize (b.SetAdapterPowered bluez apath false w cfg).2.2.1 = w1 at hw
  have h := Global_modifyAdapter_lookup ⟨b1, cfg1, w1, emitted⟩ apath
    (fun a => { a with Powered := false }) _ h0
  have h2 := Global_modifyAdapter_lookup _ apath
    (fun a => { a with discoveringTimeout := ⟨some (60 * 1000000000)⟩ }) _ h
  refine ⟨{ ((Global.mk b1 cfg1 w1 emitted).modifyAdapter apath
        (fun a => { a with Powered := false })).modifyAdapter apath
        (fun a => { a with discoveringTimeout := ⟨some (60 * 1000000000)⟩ }) with
      emitted := emitted ++
        [Signal.AdapterPropertiesChanged
          (marshalJSON
            { a with
              Powered := false, discoveringTimeoutFlag := false,
              discoveringTimeout := ⟨some (60 * 1000000000)⟩ })] }, ?_, ?_, by simp, ?_⟩
  · simp only [Global.PoweredChanged, Bool.not_true, Bool.false_eq_true, if_false, Timer.Reset,
      defaultDiscoveringTimeout, Minute, Second]
    exact notifyPropertiesChanged_registered _ marshalJSON updateState apath _ h2
  · simp only [Global.modifyAdapter]
    rw [hw]
  · exact h2

/-- C22 at a concrete input: the scanning demo adapter is powered off. -/
theorem power_off_sequence_witness :
    demoBluetoothScanning.adapters.lookup "/hci0" = some demoAdapterScanning ∧
    ∃ g1 : Global,
      Global.PoweredChanged
          ⟨(demoBluetoothScanning.SetAdapterPowered demoBlueZ "/hci0" false ⟨[], [], []⟩
              ⟨false, []⟩).2.1,
            (demoBluetoothScanning.SetAdapterPowered demoBlueZ "/hci0" false ⟨[], [], []⟩
              ⟨false, []⟩).2.2.2,
            (demoBluetoothScanning.SetAdapterPowered demoBlueZ "/hci0" false ⟨[], [], []⟩
              ⟨false, []⟩).2.2.1, []⟩
          demoMarshalAdapter demoUpdateState demoBlueZ "/hci0" true false = demoUpdateState g1 ∧
      g1.world.calls = [] ++ [.PoweredSet demoAdapterScanning.Path false] ∧
      RemoteCall.StopDiscovery "/hci0" ∉ [RemoteCall.PoweredSet demoAdapterScanning.Path false] ∧
      g1.bluetooth.adapters.lookup "/hci0" =
        some { demoAdapterScanning with
          Powered := false, discoveringTimeoutFlag := false,
          discoveringTimeout := ⟨some (60 * 1000000000)⟩ } :=
  have ha : demoBluetoothScanning.adapters.lookup "/hci0" = some demoAdapterScanning := by
    decide
  ⟨ha, power_off_sequence demoBluetoothScanning demoBlueZ "/hci0" ⟨[], [], []⟩ ⟨false, []⟩ []
    demoMarshalAdapter demoUpdateState demoAdapterScanning ha⟩

/-- C25, the code at the failing input: with a device path and an adapter path
both unknown to the registry, ConnectDevice records the marker and then writes
through the nil adapter in startDiscovery: it panics instead of returning. -/
theorem ConnectDevice_unknown_adapter_panics :
    (¬ ∃ d ∈ demoBluetooth.allDevices, d.Path = "/hci7/dev_Q") ∧
    demoBluetooth.adapters.lookup "/hci7" = none ∧
    demoBluetooth.ConnectDevice demoBlueZ "/hci7/dev_Q" "/hci7" ⟨[], [], []⟩ =
      (.panicked "invalid memory address or nil pointer dereference",
        { demoBluetooth with prepareToConnectedDevice := "/hci7/dev_Q" }, ⟨[], [], []⟩) := by
  decide

end bluetooth

namespace power

/-- C27: the config built by getWarnLevelConfig is valid exactly when the four
time settings, converted to unsigned 64-bit, form the strict chain low > danger
> critical > action; for non-negative 32-bit settings that is the plain chain
on the settings; the percentage conjuncts hold for the fixed constants 25 > 20
> 15 > 10 > 5; two managers with the same four time settings agree on
validity, whatever UsePercentageForPolicy, LowPowerNotifyThreshold and the
other settings are. -/
theorem isValid_spec (m : WarnLevelConfigManager) :
    (m.getWarnLevelConfig.isValid = true ↔
      uint64 m.settings.LowTime > uint64 m.settings.DangerTime ∧
      uint64 m.settings.DangerTime > uint64 m.settings.CriticalTime ∧
      uint64 m.settings.CriticalTime > uint64 m.settings.ActionTime) ∧
    ((0 ≤ m.settings.LowTime ∧ m.settings.LowTime < 2 ^ 31) →
      (0 ≤ m.settings.DangerTime ∧ m.settings.DangerTime < 2 ^ 31) →
      (0 ≤ m.settings.CriticalTime ∧ m.settings.CriticalTime < 2 ^ 31) →
      (0 ≤ m.settings.ActionTime ∧ m.settings.ActionTime < 2 ^ 31) →
      (m.getWarnLevelConfig.isValid = true ↔
        m.settings.LowTime > m.settings.DangerTime ∧
        m.settings.DangerTime > m.settings.CriticalTime ∧
        m.settings.CriticalTime > m.settings.ActionTime)) ∧
    (m.getWarnLevelConfig.remindPercentage > m.getWarnLevelConfig.LowPercentage ∧
      m.getWarnLevelConfig.LowPercentage > m.getWarnLevelConfig.DangerPercentage ∧
      m.getWarnLevelConfig.DangerPercentage > m.getWarnLevelConfig.CriticalPercentage ∧
      m.getWarnLevelConfig.CriticalPercentage > m.getWarnLevelConfig.ActionPercentage) ∧
    (∀ m' : WarnLevelConfigManager,
      m'.settings.LowTime = m.settings.LowTime →
      m'.settings.DangerTime = m.settings.DangerTime →
      m'.settings.CriticalTime = m.settings.CriticalTime →
      m'.settings.ActionTime = m.settings.ActionTime →
      m'.getWarnLevelConfig.isValid = m.getWarnLevelConfig.isValid) := by
  have hiff : ∀ m : WarnLevelConfigManager, (m.getWarnLevelConfig.isValid = true ↔
      uint64 m.settings.LowTime > uint64 m.settings.DangerTime ∧
      uint64 m.settings.DangerTime > uint64 m.settings.CriticalTime ∧
      uint64 m.settings.CriticalTime > uint64 m.settings.ActionTime) := by
    intro m
    simp [warnLevelConfig.isValid, WarnLevelConfigManager.getWarnLevelConfig, and_assoc]
  have hu : ∀ x : Int, 0 ≤ x → x < 2 ^ 31 → ((uint64 x : Nat) : Int) = x := by
    intro x h0 h1
    unfold uint64
    rw [Int.toNat_of_nonneg (Int.emod_nonneg _ (by norm_num))]
    exact Int.emod_eq_of_lt h0 (lt_trans h1 (by norm_num))
  refine ⟨hiff m, ?_, ?_, ?_⟩
  · intro hl hd hc ha
    rw [hiff m]
    have h1 := hu _ hl.1 hl.2
    have h2 := hu _ hd.1 hd.2
    have h3 := hu _ hc.1 hc.2
    have h4 := hu _ ha.1 ha.2
    constructor
    · rintro ⟨a, b, c⟩
      refine ⟨?_, ?_, ?_⟩ <;> omega
    · rintro ⟨a, b, c⟩
      refine ⟨?_, ?_, ?_⟩ <;> omega
  · simp [WarnLevelConfigManager.getWarnLevelConfig]
  · intro m' h1 h2 h3 h4
    have e1 := hiff m
    have e2 := hiff m'
    rw [h1, h2, h3, h4] at e2
    cases hv : m.getWarnLevelConfig.isValid with
    | true => exact e2.2 (e1.1 hv)
    | false =>
      cases hv' : m'.getWarnLevelConfig.isValid with
      | false => rfl
      | true =>
        have := e1.2 (e2.1 hv')
        rw [hv] at this
        cases this

/-- C27 at a concrete input: the default settings have the plain strict chain
and are valid. -/
theorem isValid_spec_witness :
    (NewWarnLevelConfigManager demoDefaults).getWarnLevelConfig.isValid = true :=
  ((isValid_spec (NewWarnLevelConfigManager demoDefaults)).2.1
    (by decide) (by decide) (by decide) (by decide)).2 (by decide)

end power

namespace dock

theorem fillAllowed_spec (done : List Nat) (r : Nat) (l : List WindowInfo) :
    fillAllowed (done ++ List.replicate r 0) done.length l =
      if l.length ≤ r then
        some (done ++ l.map (fun w : WindowInfo => uint32 w.getXid) ++
          List.replicate (r - l.length) 0)
      else none := by
  induction l generalizing done r with
  | nil => simp [fillAllowed]
  | cons winInfo rest ih =>
    cases r with
    | zero => simp [fillAllowed]
    | succ r =>
      have hlt : done.length < (done ++ List.replicate (r + 1) 0).length := by
        simp
      have hset : (done ++ List.replicate (r + 1) 0).set done.length (uint32 winInfo.getXid) =
          (done ++ [uint32 winInfo.getXid]) ++ List.replicate r 0 := by
        rw [List.set_append_right _ _ (le_refl _)]
        simp [List.replicate_succ]
      have hlen : (done ++ [uint32 winInfo.getXid]).length = done.length + 1 := by simp
      simp only [fillAllowed, hlt, if_true, hset]
      rw [← hlen, ih (done ++ [uint32 winInfo.getXid]) r]
      simp only [List.length_cons, Nat.add_le_add_iff_right, List.map_cons, List.append_assoc,
        List.singleton_append, Nat.add_sub_add_right]

/-- C28: GetAllowedCloseWindows returns, as long as the allowed windows are no
more numerous than the windows of the entry, a list as long as the entry has
windows: the ids of the k allowed windows in order, followed by zeros; the ids
are the window ids themselves when they fit 32 bits; no error is returned. With
more allowed windows than windows the index runs out of range. -/
theorem GetAllowedCloseWindows_spec (entry : AppEntry)
    (getAllowedCloseWindows : AppEntry → List WindowInfo) :
    ((getAllowedCloseWindows entry).length ≤ entry.windows.length →
      entry.GetAllowedCloseWindows getAllowedCloseWindows =
        .returned
          ((getAllowedCloseWindows entry).map (fun w : WindowInfo => uint32 w.getXid) ++
            List.replicate (entry.windows.length - (getAllowedCloseWindows entry).length) 0,
           none) ∧
      ((getAllowedCloseWindows entry).map (fun w : WindowInfo => uint32 w.getXid) ++
        List.replicate (entry.windows.length - (getAllowedCloseWindows entry).length)
          0).length = entry.windows.length) ∧
    (∀ w ∈ getAllowedCloseWindows entry, w.getXid < 2 ^ 32 → uint32 w.getXid = w.getXid) ∧
    (entry.windows.length < (getAllowedCloseWindows entry).length →
      entry.GetAllowedCloseWindows getAllowedCloseWindows = .panicked "index out of range") := by
  have h := fillAllowed_spec [] entry.windows.length (getAllowedCloseWindows entry)
  simp only [List.nil_append, List.length_nil] at h
  refine ⟨?_, ?_, ?_⟩
  · intro hle
    constructor
    · simp only [AppEntry.GetAllowedCloseWindows, h, hle, if_true]
    · simp only [List.length_append, List.length_map, List.length_replicate]
      omega
  · intro w _ hw
    exact Nat.mod_eq_of_lt hw
  · intro hlt
    have : ¬ (getAllowedCloseWindows entry).length ≤ entry.windows.length := by omega
    simp only [AppEntry.GetAllowedCloseWindows, h, this, if_false]

/-- C28 at a concrete input: two of three windows are allowed. -/
theorem GetAllowedCloseWindows_spec_witness :
    (demoAllowed demoEntry).length ≤ demoEntry.windows.length ∧
    demoEntry.GetAllowedCloseWindows demoAllowed =
      .returned
        ((demoAllowed demoEntry).map (fun w : WindowInfo => uint32 w.getXid) ++
          List.replicate (demoEntry.windows.length - (demoAllowed demoEntry).length) 0,
         none) ∧
    (demoAllowed demoEntry).map (fun w : WindowInfo => uint32 w.getXid) ++
        List.replicate (demoEntry.windows.length - (demoAllowed demoEntry).length) 0 =
      [11, 33, 0] :=
  have h : (demoAllowed demoEntry).length ≤ demoEntry.windows.length := by decide
  ⟨h, ((GetAllowedCloseWindows_spec demoEntry demoAllowed).1 h).1, by decide⟩

end dock

namespace inputdevices

theorem splitChars_ne_nil (cs : List Char) : splitChars cs ≠ [] := by
  induction cs with
  | nil => simp [splitChars]
  | cons c rest ih =>
    unfold splitChars
    split
    · simp
    · split <;> simp

theorem stringsSplit_ne_nil (s : String) : stringsSplit s ≠ [] := by
  simp [stringsSplit, splitChars_ne_nil]

theorem syndaemonArgs_count_d (syncmd : String)
    (hno : ¬ (2 ≤ (stringsSplit syncmd).length ∧ "-p" ∈ stringsSplit syncmd)) :
    (syndaemonArgs syncmd).count "-d" =
      (stringsSplit syncmd).count "-d" +
        (if (stringsSplit syncmd).length = 1 ∨ "-d" ∉ stringsSplit syncmd then 1 else 0) := by
  have hne := stringsSplit_ne_nil syncmd
  unfold syndaemonArgs
  simp only [syndaemonPidFile]
  generalize stringsSplit syncmd = args at hne hno
  cases args with
  | nil => exact absurd rfl hne
  | cons a rest =>
    cases rest with
    | nil =>
      simp [List.count_cons]
      omega
    | cons b rest =>
      have hlen : ((a :: b :: rest).length == 1) = false := by simp
      have hp : "-p" ∉ a :: b :: rest := fun h => hno ⟨by simp, h⟩
      have hc : (a :: b :: rest).contains "-p" = false := by simpa using hp
      simp only [hlen, Bool.false_eq_true, if_false, List.take_append_drop, hc, Bool.not_false,
        if_true]
      by_cases hd : "-d" ∈ a :: b :: rest
      · have hcd : (a :: b :: rest).contains "-d" = true := by simpa using hd
        have h1 : ¬ ((a :: b :: rest).length = 1 ∨ "-d" ∉ a :: b :: rest) := by
          rintro (h | h)
          · simp at h
          · exact h hd
        simp only [hcd, Bool.not_true, Bool.false_eq_true, if_false, h1]
        simp [List.count_append, List.count_cons]
      · have hcd : (a :: b :: rest).contains "-d" = false := by simpa using hd
        have h1 : (a :: b :: rest).length = 1 ∨ "-d" ∉ a :: b :: rest := Or.inr hd
        simp only [hcd, Bool.not_false, if_true, h1]
        simp [List.count_append, List.count_cons]
        omega

theorem syndaemonArgs_count_d_once (syncmd : String)
    (hno : ¬ (2 ≤ (stringsSplit syncmd).length ∧ "-p" ∈ stringsSplit syncmd))
    (hrep : (stringsSplit syncmd).count "-d" ≤ 1) (hone : stringsSplit syncmd ≠ ["-d"]) :
    (syndaemonArgs syncmd).count "-d" = 1 := by
  rw [syndaemonArgs_count_d syncmd hno]
  generalize stringsSplit syncmd = args at hrep hone
  by_cases hd : "-d" ∈ args
  · have hpos : 0 < args.count "-d" := List.count_pos_iff.2 hd
    by_cases hl : args.length = 1
    · exfalso
      match args, hl, hd, hone with
      | [a], _, hd, hone =>
        simp only [List.mem_singleton] at hd
        exact hone (by rw [← hd])
    · have hc : ¬ (args.length = 1 ∨ "-d" ∉ args) := by
        rintro (h | h)
        · exact hl h
        · exact h hd
      simp only [hc, if_false]
      omega
  · have hz : args.count "-d" = 0 := List.count_eq_zero.2 hd
    simp [hz, hd]

theorem syndaemonArgs_count_d_twice (syncmd : String) (h : stringsSplit syncmd = ["-d"]) :
    (syndaemonArgs syncmd).count "-d" = 2 := by
  have hno : ¬ (2 ≤ (stringsSplit syncmd).length ∧ "-p" ∈ stringsSplit syncmd) := by
    rw [h]
    simp
  rw [syndaemonArgs_count_d syncmd hno, h]
  simp

/-- C29 fails for the one-word command -d: the vector holds -d twice although
the configured words hold it once. -/
theorem syndaemonArgs_single_d :
    stringsSplit "-d" = ["-d"] ∧
    syndaemonArgs "-d" = ["-d", "-d", "-p", "/tmp/syndaemon.pid"] ∧
    (syndaemonArgs "-d").count "-d" = 2 := by
  decide

/-- C29 as amended: the vector built from the configured command keeps the
configured words as a prefix and contains -p; with two or more words that
already contain -p it is the configured words unchanged; otherwise it ends with
-p followed by /tmp/syndaemon.pid, -d is appended before -p when the
command is a single word (whatever the word) or when -d is not among the
words, and is not appended otherwise, so that in this case the vector holds -d
as often as the words do plus once if it was appended: exactly once unless the
words already repeated it or the command is the single word -d, for which it
holds -d twice. The vector is the command startSyndaemon starts. -/
theorem syndaemonArgs_spec (syncmd : String) :
    stringsSplit syncmd <+: syndaemonArgs syncmd ∧
    "-p" ∈ syndaemonArgs syncmd ∧
    (2 ≤ (stringsSplit syncmd).length → "-p" ∈ stringsSplit syncmd →
      syndaemonArgs syncmd = stringsSplit syncmd) ∧
    (¬ (2 ≤ (stringsSplit syncmd).length ∧ "-p" ∈ stringsSplit syncmd) →
      ((stringsSplit syncmd).length = 1 ∨ "-d" ∉ stringsSplit syncmd →
        syndaemonArgs syncmd = stringsSplit syncmd ++ ["-d", "-p", "/tmp/syndaemon.pid"]) ∧
      (¬ ((stringsSplit syncmd).length = 1 ∨ "-d" ∉ stringsSplit syncmd) →
        syndaemonArgs syncmd = stringsSplit syncmd ++ ["-p", "/tmp/syndaemon.pid"]) ∧
      (syndaemonArgs syncmd).count "-d" =
        (stringsSplit syncmd).count "-d" +
          (if (stringsSplit syncmd).length = 1 ∨ "-d" ∉ stringsSplit syncmd then 1 else 0) ∧
      ((stringsSplit syncmd).count "-d" ≤ 1 → stringsSplit syncmd ≠ ["-d"] →
        (syndaemonArgs syncmd).count "-d" = 1) ∧
      (stringsSplit syncmd = ["-d"] → (syndaemonArgs syncmd).count "-d" = 2)) ∧
    (∀ (env : Env) (w : World), env.isSyndaemonExist = false → env.whileTypingCmd = syncmd →
      syncmd ≠ "" → (startSyndaemon env w).started = w.started ++ [syndaemonArgs syncmd]) := by
  have main :
      stringsSplit syncmd <+: syndaemonArgs syncmd ∧
      "-p" ∈ syndaemonArgs syncmd ∧
      (2 ≤ (stringsSplit syncmd).length → "-p" ∈ stringsSplit syncmd →
        syndaemonArgs syncmd = stringsSplit syncmd) ∧
      (¬ (2 ≤ (stringsSplit syncmd).length ∧ "-p" ∈ stringsSplit syncmd) →
        ((stringsSplit syncmd).length = 1 ∨ "-d" ∉ stringsSplit syncmd →
          syndaemonArgs syncmd = stringsSplit syncmd ++ ["-d", "-p", "/tmp/syndaemon.pid"]) ∧
        (¬ ((stringsSplit syncmd).length = 1 ∨ "-d" ∉ stringsSplit syncmd) →
          syndaemonArgs syncmd = stringsSplit syncmd ++ ["-p", "/tmp/syndaemon.pid"])) := by
    have hne := stringsSplit_ne_nil syncmd
    unfold syndaemonArgs
    simp only [syndaemonPidFile]
    generalize stringsSplit syncmd = args at hne
    cases args with
    | nil => exact absurd rfl hne
    | cons a rest =>
      cases rest with
      | nil =>
        refine ⟨?_, ?_, ?_, ?_⟩
        · simp
        · simp
        · intro h2
          simp at h2
        · intro _
          exact ⟨fun _ => by simp, fun h => absurd (Or.inl rfl) h⟩
      | cons b rest =>
        have hlen : ((a :: b :: rest).length == 1) = false := by simp
        simp only [hlen, Bool.false_eq_true, if_false, List.take_append_drop]
        by_cases hp : "-p" ∈ a :: b :: rest
        · have hc : (a :: b :: rest).contains "-p" = true := by simpa using hp
          simp only [hc, Bool.not_true, Bool.false_eq_true, if_false]
          refine ⟨List.prefix_refl _, hp, fun _ _ => trivial, ?_⟩
          intro hno
          exact absurd ⟨by simp, hp⟩ hno
        · have hc : (a :: b :: rest).contains "-p" = false := by simpa using hp
          simp only [hc, Bool.not_false, if_true]
          by_cases hd : "-d" ∈ a :: b :: rest
          · have hcd : (a :: b :: rest).contains "-d" = true := by simpa using hd
            simp only [hcd, Bool.not_true, Bool.false_eq_true, if_false]
            refine ⟨List.prefix_append _ _, by simp, fun _ h => absurd h hp, ?_⟩
            intro _
            refine ⟨?_, fun _ => trivial⟩
            rintro (h | h)
            · simp at h
            · exact absurd hd h
          · have hcd : (a :: b :: rest).contains "-d" = false := by simpa using hd
            simp only [hcd, Bool.not_false, if_true]
            refine ⟨?_, by simp, fun _ h => absurd h hp, ?_⟩
            · rw [List.append_assoc]
              exact List.prefix_append _ _
            · intro _
              refine ⟨fun _ => by simp, fun h => absurd (Or.inr hd) h⟩
  refine ⟨main.1, main.2.1, main.2.2.1, ?_, ?_⟩
  · intro hno
    exact ⟨(main.2.2.2 hno).1, (main.2.2.2 hno).2, syndaemonArgs_count_d syncmd hno,
      syndaemonArgs_count_d_once syncmd hno, syndaemonArgs_count_d_twice syncmd⟩
  intro env w hex hcmd hne
  have hb : (syncmd == "") = false := by simpa using hne
  unfold startSyndaemon
  simp only [hex, hcmd, hb, Bool.false_eq_true, if_false]
  split <;> rfl

/-- C29 as amended at a concrete input: a two-word command without -p and -d
gets both, and holds -d once. -/
theorem syndaemonArgs_spec_witness :
    ¬ (2 ≤ (stringsSplit "syndaemon -K").length ∧ "-p" ∈ stringsSplit "syndaemon -K") ∧
    ((stringsSplit "syndaemon -K").length = 1 ∨ "-d" ∉ stringsSplit "syndaemon -K") ∧
    syndaemonArgs "syndaemon -K" =
      stringsSplit "syndaemon -K" ++ ["-d", "-p", "/tmp/syndaemon.pid"] ∧
    (stringsSplit "syndaemon -K").count "-d" ≤ 1 ∧ stringsSplit "syndaemon -K" ≠ ["-d"] ∧
    (syndaemonArgs "syndaemon -K").count "-d" = 1 :=
  have h1 : ¬ (2 ≤ (stringsSplit "syndaemon -K").length ∧
      "-p" ∈ stringsSplit "syndaemon -K") := by decide
  have h2 : (stringsSplit "syndaemon -K").length = 1 ∨ "-d" ∉ stringsSplit "syndaemon -K" := by
    decide
  have h3 : (stringsSplit "syndaemon -K").count "-d" ≤ 1 := by decide
  have h4 : stringsSplit "syndaemon -K" ≠ ["-d"] := by decide
  ⟨h1, h2, ((syndaemonArgs_spec "syndaemon -K").2.2.2.1 h1).1 h2, h3, h4,
    ((syndaemonArgs_spec "syndaemon -K").2.2.2.1 h1).2.2.2.1 h3 h4⟩

end inputdevices
